import Mathlib

/-!
# PrimePulse 144: change detection and threat scoring

A shallow embedding of `src/services/priceDetection.js`, of the feature extraction of
`src/analytics/duckdb.js`, of the direct fetch path of `src/services/scraper.js` and of the
chunked fetch of `workers/amazon-scraper.js`.

Modelling conventions.

* JavaScript numbers are embedded as exact rationals (`ℚ`): every comparison and every
  arithmetic step of the source is kept, the rounding of IEEE doubles is not modelled. The one
  exception is the price drop rule, whose threshold tests the rounding decides at a boundary:
  the namespace `Binary64` embeds the same functions of the detector over binary64 numbers,
  every operation rounded to nearest, ties to even.
* A nullable numeric column that the source reads through `parseFloat(x) || d` is an
  `Option ℚ`; `none` stands for `null`, `undefined` and any text `parseFloat` maps to `NaN`.
* A column of an analytics row that the source compares or coerces directly is a `JsNum`,
  which keeps `null` (coerced to `0` by a comparison) apart from `undefined` (coerced to `NaN`).
* `new Date().toISOString()` is the parameter `now`.
* Logging has no effect on any returned value and is left out; `storeAlert` only logs.
* An exception is the `error` case of `Except String`.
* A division whose divisor no guard of the source keeps away from zero is `jsDiv`, whose
  `none` stands for a result that is not a finite number (`NaN` or an infinity).
* `Math.sqrt` and the time zone of the process are the fields of a `Runtime`.
-/

namespace PrimePulse

/-! ## JavaScript values -/

/-- The idiom `parseFloat(x) || d`: the parsed number unless it is `NaN` or `0`, else `d`. -/
def parseFloatOr (x : Option ℚ) (d : ℚ) : ℚ :=
  match x with
  | some v => if v = 0 then d else v
  | none => d

/-- The idiom `parseInt(x) || d`: the parsed integer unless it is `NaN` or `0`, else `d`. -/
def parseIntOr (x : Option ℤ) (d : ℤ) : ℤ :=
  match x with
  | some v => if v = 0 then d else v
  | none => d

/-- The division `a / b` of JavaScript: a finite number unless the divisor is zero. -/
def jsDiv (a b : ℚ) : Option ℚ :=
  if b = 0 then none else some (a / b)

/-- The method `toLowerCase`, on the letters A to Z. -/
def toLowerCase (s : String) : String :=
  String.mk (s.data.map Char.toLower)

/-- The functions of the JavaScript runtime that the analytics code calls: `Math.sqrt` on
the non-negative numbers, and the offset (local time minus UTC, in milliseconds) of the time
zone of the process at an instant. -/
structure Runtime where
  sqrt : ℚ → ℚ
  tzOffset : ℤ → ℤ

/-- The call `Math.sqrt(x)`: not a number below zero. -/
def jsSqrt (rt : Runtime) (x : ℚ) : Option ℚ :=
  if x < 0 then none else some (rt.sqrt x)

/-- A runtime for closed examples: UTC, and a square root that is exact on the squares of
rationals (as the correctly rounded `Math.sqrt` is). -/
def exactRuntime : Runtime :=
  { sqrt := fun q => (Nat.sqrt q.num.natAbs : ℚ) / (Nat.sqrt q.den : ℚ)
    tzOffset := fun _ => 0 }

/-- A numeric field of a row returned by the analytics store. -/
inductive JsNum where
  | num (q : ℚ)
  | null
  | undefined
deriving DecidableEq, Repr

namespace JsNum

/-- The comparison `x > c` of JavaScript against a numeric constant. -/
def gt (x : JsNum) (c : ℚ) : Bool :=
  match x with
  | num q => decide (q > c)
  | null => decide ((0 : ℚ) > c)
  | undefined => false

/-- The comparison `x < c` of JavaScript against a numeric constant. -/
def lt (x : JsNum) (c : ℚ) : Bool :=
  match x with
  | num q => decide (q < c)
  | null => decide ((0 : ℚ) < c)
  | undefined => false

/-- The idiom `x || 0` on a numeric field. -/
def orZero (x : JsNum) : ℚ :=
  match x with
  | num q => q
  | null => 0
  | undefined => 0

end JsNum

/-! ## Data model -/

/-- A row of `price_history` (the newest row of a history comes first). The price and the
coupon amount are nullable numbers, of either sign; `has_coupon` is a boolean in every row the
scrapers write (`checkCoupon` and the worker both compute a boolean expression); the
availability is a nullable string; `scraped_at` is the instant of the capture in milliseconds
since the epoch. -/
structure Observation where
  price : Option ℚ := none
  has_coupon : Bool := false
  coupon_amount : Option ℚ := none
  availability : Option String := none
  asin_id : Nat := 0
  asin : Option String := none
  scraped_at : ℤ := 0
  seller_count : Option ℤ := none
  prime_eligible : Option Bool := none
  rating : Option ℚ := none
  review_count : Option ℤ := none
deriving DecidableEq, Repr

/-- A row of `asins`. -/
structure ASINRecord where
  id : Nat
  customer_id : Nat
  asin : String
  title : String
deriving DecidableEq, Repr

/-- The object returned by `calculatePriceChange`; an absent key is `none`. -/
structure PriceChange where
  amount : ℚ
  percent : ℚ
  isValid : Bool
  currentPrice : Option ℚ
  previousPrice : Option ℚ
deriving DecidableEq, Repr

/-- The values of `alert.severity`. -/
inductive Severity where
  | low
  | medium
  | high
  | critical
deriving DecidableEq, Repr

/-- The values of `alert.alertType`. -/
inductive AlertType where
  | price_drop
  | coupon_added
  | back_in_stock
deriving DecidableEq, Repr

/-- An alert object; a key the constructing function does not set is `none`. -/
structure Alert where
  asin : String
  title : String
  alertType : AlertType
  currentPrice : Option ℚ
  previousPrice : Option ℚ
  priceChange : Option ℚ
  priceChangePercent : Option ℚ
  couponAmount : Option ℚ
  availability : Option String
  timestamp : String
  severity : Severity
deriving DecidableEq, Repr

/-- The row returned by `analytics.generateMLFeatures`. -/
structure Features where
  avg_price_change : JsNum := JsNum.undefined
  price_volatility : JsNum := JsNum.undefined
  drop_count : JsNum := JsNum.undefined
  coupon_flips : JsNum := JsNum.undefined
  max_price_drop : JsNum := JsNum.undefined
  max_price_increase : JsNum := JsNum.undefined
  data_points : JsNum := JsNum.undefined
deriving DecidableEq, Repr

/-- The `features` echo inside a threat object. -/
structure ThreatFeatures where
  avgPriceChange : ℚ
  priceVolatility : ℚ
  dropCount : ℚ
  couponFlips : ℚ
deriving DecidableEq, Repr

/-- The threat object built by `generateThreatAssessment`. -/
structure Threat where
  asin : String
  title : String
  currentPrice : ℚ
  dropProbability : ℚ
  expectedDrop : ℚ
  confidence : ℚ
  features : ThreatFeatures
  timestamp : String
deriving DecidableEq, Repr

/-- The configuration object `this.alertThresholds`. -/
structure AlertThresholds where
  priceDropPercent : ℚ
  minimumDiscount : ℚ
  maxAlertsPerHour : ℤ
deriving DecidableEq, Repr

/-- The singleton `PriceDetectionService`. -/
structure PriceDetectionService where
  alertThresholds : AlertThresholds
deriving DecidableEq, Repr

/-- The constructor: each threshold is read from the environment, with `|| default`. -/
def PriceDetectionService.new (envDropPercent envMinimumDiscount : Option ℚ)
    (envMaxAlerts : Option ℤ) : PriceDetectionService :=
  { alertThresholds :=
      { priceDropPercent := parseFloatOr envDropPercent 10
        minimumDiscount := parseFloatOr envMinimumDiscount 5
        maxAlertsPerHour :=
          match envMaxAlerts with
          | some v => if v = 0 then 5 else v
          | none => 5 } }

/-- The service as constructed when no threshold is configured in the environment. -/
def defaultService : PriceDetectionService :=
  PriceDetectionService.new none none none

/-- The object `features` built by `extractPriceFeatures`, a row of `price_features`. The
timestamp is the instant that `toISOString` renders; a score or a volatility that is not a
finite number is `none`. -/
structure PriceFeatures where
  asin_id : Nat
  asin : Option String
  timestamp : ℤ
  current_price : ℚ
  previous_price : ℚ
  price_delta : ℚ
  price_delta_percent : ℚ
  coupon_flip : Bool
  coupon_amount : ℚ
  seller_count : ℤ
  seller_delta : ℤ
  availability_score : Option ℚ
  prime_eligible : Bool
  rating : ℚ
  review_count : ℤ
  price_volatility : Option ℚ
  is_weekend : Bool
  hour_of_day : ℤ
deriving DecidableEq, Repr

/-- The analytics collaborator as seen by one call of the detector: its readiness flag, the
outcome of the feature query per item, the outcome of the prediction insert, and the
predictions stored so far; for the feature extractor, the outcome of the upsert into
`price_features`, the rows of that table, and the upserts handed to `query` so far (whether
or not the store accepted them). -/
structure Analytics where
  initialized : Bool
  generateMLFeatures : Nat → Except String (Option Features)
  insertError : Option String
  predictions : List (Nat × Threat)
  upsertError : Option String := none
  price_features : List PriceFeatures := []
  upsertsIssued : List PriceFeatures := []

/-- The method `analytics.storePrediction`: appends a row unless the insert throws, which it
does when the store is not initialised or when DuckDB reports an error. -/
def Analytics.storePrediction (an : Analytics) (asinId : Nat) (prediction : Threat) :
    Except String Analytics :=
  if !an.initialized then Except.error "DuckDB not initialized"
  else
    match an.insertError with
    | some e => Except.error e
    | none => Except.ok { an with predictions := an.predictions ++ [(asinId, prediction)] }

/-! ## The detector -/

/-- Source: `calculatePriceChange(latest, previous)`. -/
def calculatePriceChange (latest previous : Observation) : PriceChange :=
  let currentPrice := parseFloatOr latest.price 0
  let previousPrice := parseFloatOr previous.price 0
  if previousPrice = 0 then
    { amount := 0, percent := 0, isValid := false, currentPrice := none, previousPrice := none }
  else
    let amount := currentPrice - previousPrice
    let percent := (amount / previousPrice) * 100
    { amount := amount, percent := percent, isValid := true,
      currentPrice := some currentPrice, previousPrice := some previousPrice }

/-- Source: `isSignificantPriceDrop(priceChange)`. -/
def isSignificantPriceDrop (svc : PriceDetectionService) (priceChange : PriceChange) : Bool :=
  if !priceChange.isValid then false
  else
    decide (priceChange.percent ≤ -svc.alertThresholds.priceDropPercent) &&
      decide (|priceChange.amount| ≥ svc.alertThresholds.minimumDiscount)

/-- Source: `isCouponFlip(latest, previous)`. -/
def isCouponFlip (latest previous : Observation) : Bool :=
  (latest.has_coupon != previous.has_coupon) && (latest.has_coupon == true)

/-- Source: `isBackInStock(latest, previous)`. -/
def isBackInStock (latest previous : Observation) : Bool :=
  let wasOutOfStock :=
    previous.availability == some "out of stock" || previous.availability == some "unavailable"
  let isNowInStock := latest.availability == some "in stock"
  wasOutOfStock && isNowInStock

/-- Source: `calculateAlertSeverity(priceChangePercent)`. -/
def calculateAlertSeverity (priceChangePercent : ℚ) : Severity :=
  let absPercent := |priceChangePercent|
  if absPercent ≥ 30 then Severity.critical
  else if absPercent ≥ 20 then Severity.high
  else if absPercent ≥ 10 then Severity.medium
  else Severity.low

/-- Source: `createPriceDropAlert(asinRecord, latest, previous, priceChange)`. -/
def createPriceDropAlert (asinRecord : ASINRecord) (_latest _previous : Observation)
    (priceChange : PriceChange) (now : String) : Alert :=
  { asin := asinRecord.asin
    title := asinRecord.title
    alertType := AlertType.price_drop
    currentPrice := priceChange.currentPrice
    previousPrice := priceChange.previousPrice
    priceChange := some priceChange.amount
    priceChangePercent := some priceChange.percent
    couponAmount := none
    availability := none
    timestamp := now
    severity := calculateAlertSeverity priceChange.percent }

/-- Source: `createCouponAlert(asinRecord, latest, previous)`. -/
def createCouponAlert (asinRecord : ASINRecord) (latest _previous : Observation)
    (now : String) : Alert :=
  { asin := asinRecord.asin
    title := asinRecord.title
    alertType := AlertType.coupon_added
    currentPrice := some (parseFloatOr latest.price 0)
    previousPrice := none
    priceChange := none
    priceChangePercent := none
    couponAmount := some (parseFloatOr latest.coupon_amount 0)
    availability := none
    timestamp := now
    severity := Severity.medium }

/-- Source: `createStockAlert(asinRecord, latest)`. -/
def createStockAlert (asinRecord : ASINRecord) (latest : Observation) (now : String) : Alert :=
  { asin := asinRecord.asin
    title := asinRecord.title
    alertType := AlertType.back_in_stock
    currentPrice := some (parseFloatOr latest.price 0)
    previousPrice := none
    priceChange := none
    priceChangePercent := none
    couponAmount := none
    availability := latest.availability
    timestamp := now
    severity := Severity.low }

/-! ## The threat scorer -/

/-- Source: `calculateDropProbability(features, priceHistory)`. -/
def calculateDropProbability (features : Features) (_priceHistory : List Observation) : ℚ :=
  let probability : ℚ := 0
  let probability :=
    if features.price_volatility.gt 0.1 then probability + 0.3 else probability
  let probability :=
    if features.drop_count.gt 3 then probability + 0.2 else probability
  let probability :=
    if features.coupon_flips.gt 0 then probability + 0.15 else probability
  let probability :=
    if features.avg_price_change.lt (-5) then probability + 0.25 else probability
  let probability :=
    if features.max_price_increase.gt 15 then probability + 0.1 else probability
  min probability 1.0

/-- Source: `calculateExpectedDrop(features, priceHistory)`. -/
def calculateExpectedDrop (features : Features) (_priceHistory : List Observation) : ℚ :=
  let avgDrop := |features.avg_price_change.orZero|
  let maxDrop := |features.max_price_drop.orZero|
  min ((avgDrop + maxDrop) / 2) 50

/-- Source: `calculateConfidence(features)`. -/
def calculateConfidence (features : Features) : ℚ :=
  let dataPoints := features.data_points.orZero
  if dataPoints < 5 then 0.3
  else if dataPoints < 20 then 0.6
  else if dataPoints < 50 then 0.8
  else 0.9

/-- Source: `generateThreatAssessment(asinRecord, priceHistory)`; every exception raised
inside is caught and turned into `null`. -/
def generateThreatAssessment (_svc : PriceDetectionService) (an : Analytics)
    (asinRecord : ASINRecord) (priceHistory : List Observation) (now : String) :
    Option Threat × Analytics :=
  if !an.initialized then (none, an)
  else
    match an.generateMLFeatures asinRecord.id with
    | Except.error _ => (none, an)
    | Except.ok none => (none, an)
    | Except.ok (some features) =>
      let dropProbability := calculateDropProbability features priceHistory
      let expectedDrop := calculateExpectedDrop features priceHistory
      let confidence := calculateConfidence features
      let threat : Threat :=
        { asin := asinRecord.asin
          title := asinRecord.title
          currentPrice := parseFloatOr (priceHistory.head?.bind fun o => o.price) 0
          dropProbability := dropProbability
          expectedDrop := expectedDrop
          confidence := confidence
          features :=
            { avgPriceChange := features.avg_price_change.orZero
              priceVolatility := features.price_volatility.orZero
              dropCount := features.drop_count.orZero
              couponFlips := features.coupon_flips.orZero }
          timestamp := now }
      match an.storePrediction asinRecord.id threat with
      | Except.error _ => (none, an)
      | Except.ok an2 => (some threat, an2)

/-- The object returned by `analyzeASINPriceChanges`. -/
structure Analysis where
  alerts : List Alert
  threat : Option Threat
deriving DecidableEq, Repr

/-- Source: `analyzeASINPriceChanges(asinRecord, hours)`. The argument `findByASIN` is the
outcome of `PriceHistory.findByASIN(asinRecord.id, ...)`, newest row first; its exception is
rethrown. The parameter `hours` is never read by the source. -/
def analyzeASINPriceChanges (svc : PriceDetectionService) (an : Analytics)
    (asinRecord : ASINRecord) (findByASIN : Except String (List Observation)) (now : String) :
    Except String (Analysis × Analytics) :=
  match findByASIN with
  | Except.error e => Except.error e
  | Except.ok priceHistory =>
    match priceHistory with
    | latest :: previous :: _ =>
      let alerts : List Alert := []
      let priceChange := calculatePriceChange latest previous
      let alerts :=
        if isSignificantPriceDrop svc priceChange then
          alerts ++ [createPriceDropAlert asinRecord latest previous priceChange now]
        else alerts
      let alerts :=
        if isCouponFlip latest previous then
          alerts ++ [createCouponAlert asinRecord latest previous now]
        else alerts
      let alerts :=
        if isBackInStock latest previous then
          alerts ++ [createStockAlert asinRecord latest now]
        else alerts
      let r := generateThreatAssessment svc an asinRecord priceHistory now
      Except.ok ({ alerts := alerts, threat := r.1 }, r.2)
    | _ => Except.ok ({ alerts := [], threat := none }, an)

/-- The alert list of a call of `analyzeASINPriceChanges`, empty when the call throws. -/
def alertsOf (r : Except String (Analysis × Analytics)) : List Alert :=
  match r with
  | Except.ok p => p.1.alerts
  | Except.error _ => []

/-! ## The feature extractor -/

/-- The object literal `scores` of `calculateAvailabilityScore`. -/
def availabilityScores : List (String × ℚ) :=
  [("in stock", 1.0), ("limited", 0.7), ("low stock", 0.5), ("out of stock", 0.0),
    ("unavailable", 0.0)]

/-- Source: `calculateAvailabilityScore(availability)`, that is
`scores[availability?.toLowerCase()] || 0.5`. A key of the literal yields its number, which
`||` replaces by 0.5 when it is 0; any other key yields `undefined`, hence 0.5, except the
two lower-case names every object inherits (`constructor`, `__proto__`), whose value is not a
number (`none`). -/
def calculateAvailabilityScore (availability : Option String) : Option ℚ :=
  match availability.map toLowerCase with
  | none => some 0.5
  | some key =>
    match availabilityScores.lookup key with
    | some score => if score = 0 then some 0.5 else some score
    | none => if key = "constructor" ∨ key = "__proto__" then none else some 0.5

/-- Source: `calculatePriceVolatility(priceHistory)`. -/
def calculatePriceVolatility (rt : Runtime) (priceHistory : Option (List Observation)) :
    Option ℚ :=
  match priceHistory with
  | none => some 0
  | some priceHistory =>
    if priceHistory.length < 3 then some 0
    else
      let prices :=
        ((priceHistory.take 10).map fun p => p.price).filterMap
          fun p => p.filter fun v => decide (v > 0)
      if prices.length < 2 then some 0
      else
        (jsDiv (prices.foldl (fun sum price => sum + price) 0) prices.length).bind fun mean =>
        (jsDiv (prices.foldl (fun sum price => sum + (price - mean) ^ 2) 0)
          prices.length).bind fun variance =>
        (jsSqrt rt variance).bind fun deviation => jsDiv deviation mean

/-- The `INSERT OR REPLACE` of `insertPriceFeatures` on the rows of `price_features`, whose
primary key is `(asin_id, timestamp)`. -/
def upsertRow (rows : List PriceFeatures) (features : PriceFeatures) : List PriceFeatures :=
  (rows.filter fun r =>
    !(decide (r.asin_id = features.asin_id) && decide (r.timestamp = features.timestamp))) ++
    [features]

/-- Source: `insertPriceFeatures(features)`: one `INSERT OR REPLACE` handed to `query`, which
rejects it when the store is not initialised or when DuckDB reports an error. -/
def Analytics.insertPriceFeatures (an : Analytics) (features : PriceFeatures) :
    Except String Unit × Analytics :=
  let an1 := { an with upsertsIssued := an.upsertsIssued ++ [features] }
  if !an.initialized then (Except.error "DuckDB not initialized", an1)
  else
    match an.upsertError with
    | some e => (Except.error e, an1)
    | none =>
      (Except.ok (), { an1 with price_features := upsertRow an.price_features features })

/-- The day of the week (0 is Sunday) of an instant in local time, `getDay()`. -/
def getDay (rt : Runtime) (t : ℤ) : ℤ :=
  ((t + rt.tzOffset t) / 86400000 + 4) % 7

/-- The hour of an instant in local time, `getHours()`. -/
def getHours (rt : Runtime) (t : ℤ) : ℤ :=
  ((t + rt.tzOffset t) % 86400000) / 3600000

/-- Source: the object literal `features` of `extractPriceFeatures`, for the two newest rows
`latest` and `previous` of `priceHistory`. -/
def buildPriceFeatures (rt : Runtime) (latest previous : Observation)
    (priceHistory : List Observation) : PriceFeatures :=
  let timestamp := latest.scraped_at
  { asin_id := latest.asin_id
    asin := latest.asin
    timestamp := timestamp
    current_price := parseFloatOr latest.price 0
    previous_price := parseFloatOr previous.price 0
    price_delta := parseFloatOr latest.price 0 - parseFloatOr previous.price 0
    price_delta_percent :=
      match previous.price with
      | some v =>
        if v > 0 then
          ((parseFloatOr latest.price 0 - parseFloatOr previous.price 0) / v) * 100
        else 0
      | none => 0
    coupon_flip := latest.has_coupon != previous.has_coupon
    coupon_amount := parseFloatOr latest.coupon_amount 0
    seller_count := parseIntOr latest.seller_count 1
    seller_delta := parseIntOr latest.seller_count 1 - parseIntOr previous.seller_count 1
    availability_score := calculateAvailabilityScore latest.availability
    prime_eligible := latest.prime_eligible.getD false
    rating := parseFloatOr latest.rating 0
    review_count := parseIntOr latest.review_count 0
    price_volatility := calculatePriceVolatility rt (some priceHistory)
    is_weekend := getDay rt timestamp == 0 || getDay rt timestamp == 6
    hour_of_day := getHours rt timestamp }

/-- Source: `extractPriceFeatures(priceHistory)`; a missing history is `none`, and the
exception of the insert is rethrown. -/
def extractPriceFeatures (rt : Runtime) (an : Analytics)
    (priceHistory : Option (List Observation)) :
    Except String (Option PriceFeatures) × Analytics :=
  match priceHistory with
  | some (latest :: previous :: rest) =>
    let features := buildPriceFeatures rt latest previous (latest :: previous :: rest)
    match an.insertPriceFeatures features with
    | (Except.error e, an1) => (Except.error e, an1)
    | (Except.ok _, an1) => (Except.ok (some features), an1)
  | _ => (Except.ok none, an)

/-! ## The volatility as the specification words it -/

/-- Stated from the spec: the positive prices among the first 10 entries of a history. -/
def positivePricesOfFirstTen (priceHistory : List Observation) : List ℚ :=
  ((priceHistory.take 10).filterMap fun p => p.price).filter fun v => decide (v > 0)

/-- Stated from the spec: the mean of a list of numbers. -/
def mean (xs : List ℚ) : ℚ :=
  xs.sum / xs.length

/-- Stated from the spec: the population variance, the mean of the squared deviations from
the mean. -/
def populationVariance (xs : List ℚ) : ℚ :=
  (xs.map fun x => (x - mean xs) ^ 2).sum / xs.length

/-- Stated from the spec: the population standard deviation, the square root of the
population variance. -/
def populationStdDev (rt : Runtime) (xs : List ℚ) : ℚ :=
  rt.sqrt (populationVariance xs)

/-- Stated from the spec: the volatility of a history is the population standard deviation of
the positive prices among its first 10 entries divided by their mean, and 0 when fewer than 2
positive prices survive the filtering. -/
def specVolatility (rt : Runtime) (priceHistory : List Observation) : ℚ :=
  if (positivePricesOfFirstTen priceHistory).length < 2 then 0
  else
    populationStdDev rt (positivePricesOfFirstTen priceHistory) /
      mean (positivePricesOfFirstTen priceHistory)

/-! ## The direct fetch path of the scraper -/

/-- The object built by `parseProductHTML`; every value is what the extraction found. -/
structure ProductData where
  asin : String
  title : Option String := none
  price : Option ℚ := none
  listPrice : Option ℚ := none
  availability : String := "unknown"
  primeEligible : Bool := false
  rating : Option ℚ := none
  reviewCount : Option ℤ := none
  seller : Option String := none
  hasCoupon : Bool := false
  couponAmount : Option ℚ := none
  sellerCount : ℤ := 1
  discountPercent : Option ℚ := none
deriving DecidableEq, Repr

/-- One slot of the list returned by `scrapeDirectly`; an absent key is `none`. -/
structure ScrapeResult where
  asin : String
  success : Bool
  data : Option ProductData := none
  error : Option String := none
  timestamp : String
deriving DecidableEq, Repr

/-- The configuration of the singleton `ScraperService` read by the direct fetch path. The
source obtains each value as `parseInt(env) || default`; the chunk size and the number of
attempts are taken non-negative. -/
structure ScraperService where
  maxConcurrent : Nat := 10
  requestTimeout : Nat := 30000
  retryAttempts : Nat := 3
deriving DecidableEq, Repr

/-- What `scrapeDirectly` does besides building its result: it awaits the fetches of one
chunk, all started together, or it sleeps for a number of milliseconds. -/
inductive ScrapeEvent where
  | chunkSettled (asins : List String)
  | slept (ms : ℚ)
deriving DecidableEq, Repr

/-- Whether an event is a sleep. -/
def ScrapeEvent.isSleep : ScrapeEvent → Bool
  | ScrapeEvent.slept _ => true
  | ScrapeEvent.chunkSettled _ => false

/-- The chunk of a chunk event. -/
def ScrapeEvent.chunk? : ScrapeEvent → Option (List String)
  | ScrapeEvent.chunkSettled c => some c
  | ScrapeEvent.slept _ => none

/-- The loop `for (let i = 0; i < array.length; i += size)` of `chunkArray`, started at `i`
with the chunks pushed so far; `none` when the iterations allowed by the first argument do
not suffice to leave the loop. -/
def chunkArrayLoop {α : Type} (array : List α) (size : Nat) :
    Nat → Nat → List (List α) → Option (List (List α))
  | 0, _, _ => none
  | fuel + 1, i, chunks =>
    if i < array.length then
      chunkArrayLoop array size fuel (i + size) (chunks ++ [(array.drop i).take size])
    else some chunks

/-- Source: `chunkArray(array, size)`. The loop is given `array.length + 1` iterations: a
positive size needs no more, and with size 0 on a non-empty array the loop of the source
never ends, which is the result `none`. -/
def chunkArray {α : Type} (array : List α) (size : Nat) : Option (List (List α)) :=
  chunkArrayLoop array size (array.length + 1) 0 []

/-- The slot that `scrapeDirectly` pushes for one settled promise: the value of a fulfilled
one, a failure record for a rejected one. -/
def settledSlot (settled : Except String ScrapeResult) (now : String) (asin : String) :
    ScrapeResult :=
  match settled with
  | Except.ok value => value
  | Except.error message =>
    { asin := asin
      success := false
      error := some (if message = "" then "Unknown error" else message)
      timestamp := now }

/-- The slots of the identifiers of one chunk, `chunk.map(...)` settled by
`Promise.allSettled` and pushed by `forEach`; `position` is the place of the first identifier
of the chunk in the whole input, and the outcome of a fetch is a parameter indexed by the
place of its identifier. -/
def settleChunk (scrapeASINDirect : Nat → String → Except String ScrapeResult) (now : String) :
    Nat → List String → List ScrapeResult
  | _, [] => []
  | position, asin :: rest =>
    settledSlot (scrapeASINDirect position asin) now asin ::
      settleChunk scrapeASINDirect now (position + 1) rest

/-- The body of the loop `for (const chunk of chunks)` of `scrapeDirectly`, run on the chunks
from position `index` on; `total` is `chunks.length` and `position` the number of identifiers
in the chunks before. As every chunk is a fresh array, `chunks.indexOf(chunk)` is the
position of the chunk. -/
def scrapeDirectlyLoop (scrapeASINDirect : Nat → String → Except String ScrapeResult)
    (random : Nat → ℚ) (now : String) (total : Nat) :
    Nat → Nat → List (List String) → List ScrapeResult × List ScrapeEvent
  | _, _, [] => ([], [])
  | index, position, chunk :: rest =>
    let chunkResults := settleChunk scrapeASINDirect now position chunk
    let later :=
      scrapeDirectlyLoop scrapeASINDirect random now total (index + 1)
        (position + chunk.length) rest
    if (index : ℤ) < (total : ℤ) - 1 then
      (chunkResults ++ later.1,
        ScrapeEvent.chunkSettled chunk :: ScrapeEvent.slept (2000 + random index * 3000) ::
          later.2)
    else (chunkResults ++ later.1, ScrapeEvent.chunkSettled chunk :: later.2)

/-- Source: `scrapeASINs(asins, proxyConfig, maxConcurrent)` of the worker. The outcome of
`scrapeASIN` for the identifier at a place of the input and the value of the call of
`Math.random` after a chunk are parameters. -/
def scrapeASINs (maxConcurrent : Nat)
    (scrapeASIN : Nat → String → Except String ScrapeResult) (random : Nat → ℚ)
    (now : String) (asins : List String) : Option (List ScrapeResult × List ScrapeEvent) :=
  (chunkArray asins maxConcurrent).map fun chunks =>
    scrapeDirectlyLoop scrapeASIN random now chunks.length 0 0 chunks

/-- Source: `scrapeDirectly(asins)`, whose body is that of `scrapeASINs` with
`this.maxConcurrent` and `this.scrapeASINDirect`. -/
def scrapeDirectly (svc : ScraperService)
    (scrapeASINDirect : Nat → String → Except String ScrapeResult) (random : Nat → ℚ)
    (now : String) (asins : List String) : Option (List ScrapeResult × List ScrapeEvent) :=
  (chunkArray asins svc.maxConcurrent).map fun chunks =>
    scrapeDirectlyLoop scrapeASINDirect random now chunks.length 0 0 chunks

/-- What one call of `scrapeASINDirect` does besides returning: a request (the call of
`axios.get`, numbered from 1) or a sleep for a number of milliseconds. -/
inductive FetchEvent where
  | requested (attempt : Nat)
  | slept (ms : Nat)
deriving DecidableEq, Repr

/-- Whether an event is a request. -/
def FetchEvent.isRequest : FetchEvent → Bool
  | FetchEvent.requested _ => true
  | FetchEvent.slept _ => false

/-- The loop `while (attempt < this.retryAttempts)` of `scrapeASINDirect`, entered with the
counter at `attempt`. The outcome of the body of the `try` (the request and the parsing of
its response) is the parameter `fetch`, indexed by the value of the counter; the loop left
by its condition returns `undefined`, which is `none`. -/
def scrapeASINDirectLoop (svc : ScraperService) (fetch : Nat → Except String ProductData)
    (now : String) (asin : String) (attempt : Nat) :
    Except String (Option ScrapeResult) × List FetchEvent :=
  if _h : attempt < svc.retryAttempts then
    match fetch attempt with
    | Except.ok productData =>
      (Except.ok (some
          { asin := asin, success := true, data := some productData, timestamp := now }),
        [FetchEvent.requested (attempt + 1)])
    | Except.error error =>
      if _h2 : attempt + 1 < svc.retryAttempts then
        let later := scrapeASINDirectLoop svc fetch now asin (attempt + 1)
        (later.1,
          FetchEvent.requested (attempt + 1) :: FetchEvent.slept (1000 * (attempt + 1)) ::
            later.2)
      else (Except.error error, [FetchEvent.requested (attempt + 1)])
  else (Except.ok none, [])
termination_by svc.retryAttempts - attempt

/-- Source: `scrapeASINDirect(asin)`. -/
def scrapeASINDirect (svc : ScraperService) (fetch : Nat → Except String ProductData)
    (now : String) (asin : String) : Except String (Option ScrapeResult) × List FetchEvent :=
  scrapeASINDirectLoop svc fetch now asin 0

/-! ## The alert dispatcher and the cycle -/

/-- The notification channel as seen by one cycle: the outcome of the call of
`slackService.sendAlert` for the alert at a place of the list of critical alerts, and the
outcome of the call of `slackService.sendTopThreats`. -/
structure Slack where
  sendAlert : Nat → Alert → Except String Unit
  sendTopThreats : List Threat → String → Except String Unit

/-- A call of the notification channel and whether it returned without an exception. -/
inductive DispatchEvent where
  | alertSent (alert : Alert) (delivered : Bool)
  | digestSent (threats : List Threat) (customerName : String) (delivered : Bool)
deriving DecidableEq, Repr

/-- The alert of a call of `sendAlert`. -/
def DispatchEvent.alert? : DispatchEvent → Option Alert
  | DispatchEvent.alertSent a _ => some a
  | DispatchEvent.digestSent _ _ _ => none

/-- The statement `try { body } catch (error) { logger.error(...) }`. -/
def catchAndLog (body : Except String Unit) : Except String Unit :=
  match body with
  | Except.ok u => Except.ok u
  | Except.error _ => Except.ok ()

/-- Whether a call returned without an exception. -/
def returned (outcome : Except String Unit) : Bool :=
  match outcome with
  | Except.ok _ => true
  | Except.error _ => false

/-- The call `array.slice(0, stop)`: a negative `stop` counts from the end. -/
def sliceTo {α : Type} (array : List α) (stop : ℤ) : List α :=
  if 0 ≤ stop then array.take stop.toNat else array.take (array.length - stop.natAbs)

/-- The loop `for (const alert of criticalAlerts)` of `sendPriceAlerts`, whose body is a
`try` around the call of `sendAlert`; `place` is the place of the first alert. An exception
that left the body would leave the loop. -/
def sendCriticalAlerts (slack : Slack) :
    Nat → List Alert → Except String Unit × List DispatchEvent
  | _, [] => (Except.ok (), [])
  | place, alert :: rest =>
    let outcome := slack.sendAlert place alert
    match catchAndLog outcome with
    | Except.error e => (Except.error e, [DispatchEvent.alertSent alert (returned outcome)])
    | Except.ok _ =>
      let later := sendCriticalAlerts slack (place + 1) rest
      (later.1, DispatchEvent.alertSent alert (returned outcome) :: later.2)

/-- Source: `sendPriceAlerts(alerts, customerId)`. The alerts that are not critical are only
counted in a log line. -/
def sendPriceAlerts (svc : PriceDetectionService) (slack : Slack) (alerts : List Alert)
    (_customerId : Nat) : Except String Unit × List DispatchEvent :=
  let recentAlerts : ℤ := alerts.length
  let alerts :=
    if recentAlerts > svc.alertThresholds.maxAlertsPerHour then
      sliceTo alerts svc.alertThresholds.maxAlertsPerHour
    else alerts
  let criticalAlerts := alerts.filter fun a => decide (a.severity = Severity.critical)
  let sent := sendCriticalAlerts slack 0 criticalAlerts
  (catchAndLog sent.1, sent.2)

/-- Source: `sendTopThreats(threats, customerId)`. -/
def sendTopThreats (slack : Slack) (threats : List Threat) (_customerId : Nat) :
    Except String Unit × List DispatchEvent :=
  let customerName := "MVP Customer"
  let outcome := slack.sendTopThreats threats customerName
  (catchAndLog outcome, [DispatchEvent.digestSent threats customerName (returned outcome)])

/-- The object returned by `analyzeRecentPriceChanges`. -/
structure CycleSummary where
  success : Bool
  alertsGenerated : Nat
  threatsIdentified : Nat
  topThreats : List Threat
deriving DecidableEq, Repr

/-- The loop `for (const asin of recentASINs)` of `analyzeRecentPriceChanges`, with the alerts
and threats pushed so far; `place` is the place of the first item, and the outcome of
`PriceHistory.findByASIN` for the item at a place is a parameter. An exception of the
analysis of an item is caught and logged. -/
def collectAnalyses (svc : PriceDetectionService)
    (findByASIN : Nat → ASINRecord → Except String (List Observation)) (now : String) :
    Nat → Analytics → List ASINRecord → List Alert → List Threat →
      List Alert × List Threat × Analytics
  | _, an, [], alerts, threats => (alerts, threats, an)
  | place, an, asin :: rest, alerts, threats =>
    match analyzeASINPriceChanges svc an asin (findByASIN place asin) now with
    | Except.error _ => collectAnalyses svc findByASIN now (place + 1) an rest alerts threats
    | Except.ok (analysis, an1) =>
      let alerts := if analysis.alerts.length > 0 then alerts ++ analysis.alerts else alerts
      let threats :=
        match analysis.threat with
        | some threat => threats ++ [threat]
        | none => threats
      collectAnalyses svc findByASIN now (place + 1) an1 rest alerts threats

/-- The assessment of a call of `analyzeASINPriceChanges`, `none` when it is null or when the
call throws. -/
def threatOf (r : Except String (Analysis × Analytics)) : Option Threat :=
  match r with
  | Except.ok p => p.1.threat
  | Except.error _ => none

/-- Whether a call of `analyzeASINPriceChanges` returned without an exception. -/
def didNotThrow (r : Except String (Analysis × Analytics)) : Bool :=
  match r with
  | Except.ok _ => true
  | Except.error _ => false

/-- The call `threats.sort((a, b) => b.dropProbability - a.dropProbability)`: a stable sort
by decreasing probability. -/
def sortThreats (threats : List Threat) : List Threat :=
  threats.insertionSort fun a b => a.dropProbability ≥ b.dropProbability

/-- Source: `analyzeRecentPriceChanges(customerId, options)`. The outcome of
`ASIN.findByCustomer` is a parameter; its exception, like any exception that leaves the body,
is logged and rethrown. -/
def analyzeRecentPriceChanges (svc : PriceDetectionService) (slack : Slack) (an : Analytics)
    (findByCustomer : Except String (List ASINRecord))
    (findByASIN : Nat → ASINRecord → Except String (List Observation)) (now : String)
    (customerId : Nat) : Except String CycleSummary × Analytics × List DispatchEvent :=
  match findByCustomer with
  | Except.error e => (Except.error e, an, [])
  | Except.ok recentASINs =>
    let collected := collectAnalyses svc findByASIN now 0 an recentASINs [] []
    let alerts := collected.1
    let threats := sortThreats collected.2.1
    let sentAlerts :=
      if alerts.length > 0 then sendPriceAlerts svc slack alerts customerId
      else (Except.ok (), [])
    match sentAlerts.1 with
    | Except.error e => (Except.error e, collected.2.2, sentAlerts.2)
    | Except.ok _ =>
      let sentDigest :=
        if threats.length > 0 then sendTopThreats slack (threats.take 5) customerId
        else (Except.ok (), [])
      match sentDigest.1 with
      | Except.error e => (Except.error e, collected.2.2, sentAlerts.2 ++ sentDigest.2)
      | Except.ok _ =>
        (Except.ok
            { success := true
              alertsGenerated := alerts.length
              threatsIdentified := threats.length
              topThreats := threats.take 5 },
          collected.2.2, sentAlerts.2 ++ sentDigest.2)

/-! ## Binary64 numbers

The drop test of the detector compares a computed percent with a threshold, and the rounding
of the three arithmetic steps of `calculatePriceChange` decides the outcome at a boundary. This
section embeds the numbers of JavaScript as IEEE 754 binary64 values with the rounding to
nearest, ties to even, of every operation, and the next one embeds the detector over them. -/

/-- A JavaScript number: a finite double, held as the rational it denotes, an infinity, or
`NaN`. The two zeros are one value: no comparison of JavaScript tells them apart, and the
source divides by no zero. -/
inductive Double where
  | finite (q : ℚ)
  | infinity (negative : Bool)
  | nan
deriving DecidableEq, Repr

namespace Binary64

/-- The integer nearest to the quotient `n / d` of two naturals, the even one at a tie. -/
def roundHalfEven (n d : ℕ) : ℕ :=
  let q := n / d
  let r := n % d
  if 2 * r < d then q
  else if d < 2 * r then q + 1
  else if q % 2 = 0 then q
  else q + 1

/-- The number of binary digits of `n`, counted by at most `fuel` halvings. -/
def bitLengthLoop : ℕ → ℕ → ℕ
  | 0, _ => 0
  | fuel + 1, n => if n = 0 then 0 else bitLengthLoop fuel (n / 2) + 1

/-- The number of binary digits of `n` (a number has at most as many digits as its value). -/
def bitLength (n : ℕ) : ℕ :=
  bitLengthLoop n n

/-- The binary exponent of the positive quotient `n / d`: the integer `e` with
`2 ^ e ≤ n / d < 2 ^ (e + 1)`, which is the difference `k` of the digit counts or `k - 1`. -/
def binade (n d : ℕ) : ℤ :=
  let k : ℤ := (bitLength n : ℤ) - (bitLength d : ℤ)
  if d * 2 ^ k.toNat ≤ n * 2 ^ (-k).toNat then k else k - 1

/-- The double nearest to the positive quotient `n / d`, as a significand `m` and the exponent
`e` of its unit in the last place (the value is `m * 2 ^ e`): 53 significant bits from the
binade of the quotient, and the fixed unit `2 ^ -1074` below the smallest normal number. -/
def nearest (n d : ℕ) : ℕ × ℤ :=
  let e : ℤ := max (binade n d) (-1022) - 52
  (roundHalfEven (n * 2 ^ (-e).toNat) (d * 2 ^ e.toNat), e)

/-- The Number value of a real: the nearest double, ties to even; an infinity when the
rounded magnitude reaches `2 ^ 1024`. -/
def round (x : ℚ) : Double :=
  let v : ℚ := (nearest x.num.natAbs x.den).1 * 2 ^ (nearest x.num.natAbs x.den).2
  if x = 0 then Double.finite 0
  else if 2 ^ 1024 ≤ v then Double.infinity (decide (x < 0))
  else Double.finite (if x < 0 then -v else v)

/-- The call `parseFloat(x)` on a nullable numeric column: `NaN` for `null`, `undefined` and
text that is no number, else the double nearest to the decimal that the text denotes. -/
def parseFloat (x : Option ℚ) : Double :=
  match x with
  | some v => round v
  | none => Double.nan

end Binary64

namespace Double

/-- The expression `x || d`: `d` when `x` is a zero or `NaN`. -/
def orElse (x d : Double) : Double :=
  match x with
  | finite q => if q = 0 then d else finite q
  | infinity negative => infinity negative
  | nan => d

/-- The test `x === 0`. -/
def isZero (x : Double) : Bool :=
  match x with
  | finite q => decide (q = 0)
  | _ => false

/-- The difference `x - y`. -/
def sub (x y : Double) : Double :=
  match x, y with
  | finite a, finite b => Binary64.round (a - b)
  | finite _, infinity negative => infinity (!negative)
  | infinity negative, finite _ => infinity negative
  | infinity s, infinity t => if s = t then nan else infinity s
  | _, _ => nan

/-- The quotient `x / y`; the zero divisor is the positive zero. -/
def div (x y : Double) : Double :=
  match x, y with
  | finite a, finite b =>
    if b = 0 then (if a = 0 then nan else infinity (decide (a < 0)))
    else Binary64.round (a / b)
  | finite _, infinity _ => finite 0
  | infinity s, finite b => infinity (s != decide (b < 0))
  | _, _ => nan

/-- The product `x * y`. -/
def mul (x y : Double) : Double :=
  match x, y with
  | finite a, finite b => Binary64.round (a * b)
  | finite a, infinity s => if a = 0 then nan else infinity (s != decide (a < 0))
  | infinity s, finite b => if b = 0 then nan else infinity (s != decide (b < 0))
  | infinity s, infinity t => infinity (s != t)
  | _, _ => nan

/-- The negation `-x`. -/
def neg (x : Double) : Double :=
  match x with
  | finite q => finite (-q)
  | infinity negative => infinity (!negative)
  | nan => nan

/-- The call `Math.abs(x)`. -/
def abs (x : Double) : Double :=
  match x with
  | finite q => finite |q|
  | infinity _ => infinity false
  | nan => nan

/-- The comparison `x <= y`, false when either side is `NaN`. -/
def le (x y : Double) : Bool :=
  match x, y with
  | finite a, finite b => decide (a ≤ b)
  | finite _, infinity negative => !negative
  | infinity negative, finite _ => negative
  | infinity s, infinity t => s || !t
  | _, _ => false

/-- The comparison `x >= y`. -/
def ge (x y : Double) : Bool :=
  le y x

/-- The comparison `x > y`, false when either side is `NaN`. -/
def gt (x y : Double) : Bool :=
  match x, y with
  | finite a, finite b => decide (b < a)
  | finite _, infinity negative => negative
  | infinity negative, finite _ => !negative
  | infinity s, infinity t => !s && t
  | _, _ => false

end Double

/-! ## The detector over binary64 numbers -/

namespace Binary64

/-- The object returned by `calculatePriceChange`; an absent key is `none`. -/
structure PriceChange where
  amount : Double
  percent : Double
  isValid : Bool
  currentPrice : Option Double
  previousPrice : Option Double
deriving DecidableEq, Repr

/-- An alert object; a key the constructing function does not set is `none`. -/
structure Alert where
  asin : String
  title : String
  alertType : AlertType
  currentPrice : Option Double
  previousPrice : Option Double
  priceChange : Option Double
  priceChangePercent : Option Double
  couponAmount : Option Double
  availability : Option String
  timestamp : String
  severity : Severity
deriving DecidableEq, Repr

/-- The configuration object `this.alertThresholds`. -/
structure AlertThresholds where
  priceDropPercent : Double
  minimumDiscount : Double
  maxAlertsPerHour : ℤ
deriving DecidableEq, Repr

/-- The singleton `PriceDetectionService`. -/
structure PriceDetectionService where
  alertThresholds : AlertThresholds
deriving DecidableEq, Repr

/-- The constructor: each threshold is read from the environment, with `|| default`. -/
def PriceDetectionService.new (envDropPercent envMinimumDiscount : Option ℚ)
    (envMaxAlerts : Option ℤ) : PriceDetectionService :=
  { alertThresholds :=
      { priceDropPercent := (parseFloat envDropPercent).orElse (Double.finite 10)
        minimumDiscount := (parseFloat envMinimumDiscount).orElse (Double.finite 5)
        maxAlertsPerHour := parseIntOr envMaxAlerts 5 } }

/-- The service as constructed when no threshold is configured in the environment. -/
def defaultService : PriceDetectionService :=
  PriceDetectionService.new none none none

/-- Source: `calculatePriceChange(latest, previous)`. -/
def calculatePriceChange (latest previous : Observation) : PriceChange :=
  let currentPrice := (parseFloat latest.price).orElse (Double.finite 0)
  let previousPrice := (parseFloat previous.price).orElse (Double.finite 0)
  if previousPrice.isZero then
    { amount := Double.finite 0, percent := Double.finite 0, isValid := false,
      currentPrice := none, previousPrice := none }
  else
    let amount := currentPrice.sub previousPrice
    let percent := (amount.div previousPrice).mul (Double.finite 100)
    { amount := amount, percent := percent, isValid := true,
      currentPrice := some currentPrice, previousPrice := some previousPrice }

/-- Source: `isSignificantPriceDrop(priceChange)`. -/
def isSignificantPriceDrop (svc : PriceDetectionService) (priceChange : PriceChange) : Bool :=
  if !priceChange.isValid then false
  else
    priceChange.percent.le svc.alertThresholds.priceDropPercent.neg &&
      priceChange.amount.abs.ge svc.alertThresholds.minimumDiscount

/-- Source: `calculateAlertSeverity(priceChangePercent)`. -/
def calculateAlertSeverity (priceChangePercent : Double) : Severity :=
  let absPercent := priceChangePercent.abs
  if absPercent.ge (Double.finite 30) then Severity.critical
  else if absPercent.ge (Double.finite 20) then Severity.high
  else if absPercent.ge (Double.finite 10) then Severity.medium
  else Severity.low

/-- Source: `createPriceDropAlert(asinRecord, latest, previous, priceChange)`. -/
def createPriceDropAlert (asinRecord : ASINRecord) (_latest _previous : Observation)
    (priceChange : PriceChange) (now : String) : Alert :=
  { asin := asinRecord.asin
    title := asinRecord.title
    alertType := AlertType.price_drop
    currentPrice := priceChange.currentPrice
    previousPrice := priceChange.previousPrice
    priceChange := some priceChange.amount
    priceChangePercent := some priceChange.percent
    couponAmount := none
    availability := none
    timestamp := now
    severity := calculateAlertSeverity priceChange.percent }

/-- Source: `createCouponAlert(asinRecord, latest, previous)`. -/
def createCouponAlert (asinRecord : ASINRecord) (latest _previous : Observation)
    (now : String) : Alert :=
  { asin := asinRecord.asin
    title := asinRecord.title
    alertType := AlertType.coupon_added
    currentPrice := some ((parseFloat latest.price).orElse (Double.finite 0))
    previousPrice := none
    priceChange := none
    priceChangePercent := none
    couponAmount := some ((parseFloat latest.coupon_amount).orElse (Double.finite 0))
    availability := none
    timestamp := now
    severity := Severity.medium }

/-- Source: `createStockAlert(asinRecord, latest)`. -/
def createStockAlert (asinRecord : ASINRecord) (latest : Observation) (now : String) : Alert :=
  { asin := asinRecord.asin
    title := asinRecord.title
    alertType := AlertType.back_in_stock
    currentPrice := some ((parseFloat latest.price).orElse (Double.finite 0))
    previousPrice := none
    priceChange := none
    priceChangePercent := none
    couponAmount := none
    availability := latest.availability
    timestamp := now
    severity := Severity.low }

/-- The object returned by `analyzeASINPriceChanges`. -/
structure Analysis where
  alerts : List Alert
  threat : Option Threat
deriving DecidableEq, Repr

/-- Source: `analyzeASINPriceChanges(asinRecord, hours)`, with the three rules over binary64
numbers. The argument `findByASIN` is the outcome of `PriceHistory.findByASIN(asinRecord.id,
...)`, newest row first; its exception is rethrown. The threat assessment, on which no alert
depends, is the one of the embedding over the rationals. -/
def analyzeASINPriceChanges (svc : PriceDetectionService) (an : Analytics)
    (asinRecord : ASINRecord) (findByASIN : Except String (List Observation)) (now : String) :
    Except String (Analysis × Analytics) :=
  match findByASIN with
  | Except.error e => Except.error e
  | Except.ok priceHistory =>
    match priceHistory with
    | latest :: previous :: _ =>
      let alerts : List Alert := []
      let priceChange := calculatePriceChange latest previous
      let alerts :=
        if isSignificantPriceDrop svc priceChange then
          alerts ++ [createPriceDropAlert asinRecord latest previous priceChange now]
        else alerts
      let alerts :=
        if isCouponFlip latest previous then
          alerts ++ [createCouponAlert asinRecord latest previous now]
        else alerts
      let alerts :=
        if isBackInStock latest previous then
          alerts ++ [createStockAlert asinRecord latest now]
        else alerts
      let r := generateThreatAssessment PrimePulse.defaultService an asinRecord priceHistory now
      Except.ok ({ alerts := alerts, threat := r.1 }, r.2)
    | _ => Except.ok ({ alerts := [], threat := none }, an)

/-- The alert list of a call of `analyzeASINPriceChanges`, empty when the call throws. -/
def alertsOf (r : Except String (Analysis × Analytics)) : List Alert :=
  match r with
  | Except.ok p => p.1.alerts
  | Except.error _ => []

end Binary64

/-! ## Basic facts -/

theorem parseFloatOr_zero_eq_zero_iff (x : Option ℚ) :
    parseFloatOr x 0 = 0 ↔ x = none ∨ x = some 0 := by
  cases x with
  | none => simp [parseFloatOr]
  | some v =>
    by_cases hv : v = 0
    · simp [parseFloatOr, hv]
    · simp [parseFloatOr, hv]

theorem defaultService_thresholds :
    defaultService.alertThresholds =
      { priceDropPercent := 10, minimumDiscount := 5, maxAlertsPerHour := 5 } := by
  simp [defaultService, PriceDetectionService.new, parseFloatOr]

/-- The alert list of a successful query with at least two rows is the concatenation of the
three optional alerts, in the order of the three checks of the source. -/
theorem alertsOf_analyze (svc : PriceDetectionService) (an : Analytics)
    (asinRecord : ASINRecord) (latest previous : Observation) (rest : List Observation)
    (now : String) :
    alertsOf (analyzeASINPriceChanges svc an asinRecord
        (Except.ok (latest :: previous :: rest)) now) =
      (if isSignificantPriceDrop svc (calculatePriceChange latest previous) then
          [createPriceDropAlert asinRecord latest previous
            (calculatePriceChange latest previous) now]
        else []) ++
      ((if isCouponFlip latest previous then
          [createCouponAlert asinRecord latest previous now]
        else []) ++
      (if isBackInStock latest previous then [createStockAlert asinRecord latest now]
        else [])) := by
  simp only [alertsOf, analyzeASINPriceChanges]
  split_ifs <;> simp

/-- With the default thresholds the drop test is: a non-zero previous price, a percent change
of at most -10 and an absolute change of at least 5. -/
theorem isSignificantPriceDrop_default_iff (latest previous : Observation) :
    isSignificantPriceDrop defaultService (calculatePriceChange latest previous) = true ↔
      parseFloatOr previous.price 0 ≠ 0 ∧
      (parseFloatOr latest.price 0 - parseFloatOr previous.price 0) /
          parseFloatOr previous.price 0 * 100 ≤ -10 ∧
      |parseFloatOr latest.price 0 - parseFloatOr previous.price 0| ≥ 5 := by
  by_cases h : parseFloatOr previous.price 0 = 0
  · simp [isSignificantPriceDrop, calculatePriceChange, h]
  · simp [isSignificantPriceDrop, calculatePriceChange, h, defaultService_thresholds]

/-- Membership in the alert list of a successful query with at least two rows. -/
theorem mem_alertsOf_analyze (svc : PriceDetectionService) (an : Analytics)
    (asinRecord : ASINRecord) (latest previous : Observation) (rest : List Observation)
    (now : String) (a : Alert) :
    a ∈ alertsOf (analyzeASINPriceChanges svc an asinRecord
        (Except.ok (latest :: previous :: rest)) now) ↔
      (isSignificantPriceDrop svc (calculatePriceChange latest previous) = true ∧
        a = createPriceDropAlert asinRecord latest previous
          (calculatePriceChange latest previous) now) ∨
      (isCouponFlip latest previous = true ∧
        a = createCouponAlert asinRecord latest previous now) ∨
      (isBackInStock latest previous = true ∧ a = createStockAlert asinRecord latest now) := by
  rw [alertsOf_analyze]
  simp only [List.mem_append]
  split_ifs <;> simp_all

theorem isCouponFlip_iff (latest previous : Observation) :
    isCouponFlip latest previous = true ↔
      previous.has_coupon = false ∧ latest.has_coupon = true := by
  unfold isCouponFlip
  cases latest.has_coupon <;> cases previous.has_coupon <;> simp

theorem isBackInStock_iff (latest previous : Observation) :
    isBackInStock latest previous = true ↔
      (previous.availability = some "out of stock" ∨
        previous.availability = some "unavailable") ∧
      latest.availability = some "in stock" := by
  simp [isBackInStock]

/-- The accumulation of `calculateDropProbability` as one sum, clamped at 1. -/
theorem calculateDropProbability_eq (features : Features) (priceHistory : List Observation) :
    calculateDropProbability features priceHistory =
      min ((if features.price_volatility.gt 0.1 then (0.3 : ℚ) else 0) +
          (if features.drop_count.gt 3 then (0.2 : ℚ) else 0) +
          (if features.coupon_flips.gt 0 then (0.15 : ℚ) else 0) +
          (if features.avg_price_change.lt (-5) then (0.25 : ℚ) else 0) +
          (if features.max_price_increase.gt 15 then (0.1 : ℚ) else 0)) 1 := by
  unfold calculateDropProbability
  cases features.price_volatility.gt 0.1 <;> cases features.drop_count.gt 3 <;>
    cases features.coupon_flips.gt 0 <;> cases features.avg_price_change.lt (-5) <;>
    cases features.max_price_increase.gt 15 <;> norm_num

/-- A weighted indicator grows when its condition is implied and its weight is not negative. -/
theorem indicator_le_indicator (a b : Bool) (w : ℚ) (hw : 0 ≤ w) (h : a = true → b = true) :
    (if a then w else 0) ≤ (if b then w else 0) := by
  cases a <;> cases b <;> simp_all

theorem indicator_nonneg (a : Bool) (w : ℚ) (hw : 0 ≤ w) : 0 ≤ (if a then w else 0) := by
  cases a <;> simp_all

/-! ## Facts about the volatility -/

theorem filterMap_filter_price (l : List Observation) :
    ((l.map fun p => p.price).filterMap fun p => p.filter fun v => decide (v > 0)) =
      (l.filterMap fun p => p.price).filter fun v => decide (v > 0) := by
  induction l with
  | nil => rfl
  | cons o t ih =>
    rw [List.map_cons, List.filterMap_cons, List.filterMap_cons]
    cases hp : o.price with
    | none =>
      have h1 : Option.filter (fun v => decide (v > 0)) (none : Option ℚ) = none := rfl
      simp only [h1]
      exact ih
    | some v =>
      by_cases hv : v > 0
      · have h1 : Option.filter (fun v => decide (v > 0)) (some v) = some v := by
          simp [Option.filter, hv]
        simp only [h1, List.filter_cons, hv, decide_True, if_true]
        rw [ih]
      · have h1 : Option.filter (fun v => decide (v > 0)) (some v) = none := by
          simp [Option.filter, hv]
        simp only [h1, List.filter_cons, hv, decide_False]
        exact ih

/-- The body of `calculatePriceVolatility` on a history that is present, with the list
`prices` of the source named. -/
theorem calculatePriceVolatility_some (rt : Runtime) (l : List Observation) :
    calculatePriceVolatility rt (some l) =
      if l.length < 3 then some 0
      else if (positivePricesOfFirstTen l).length < 2 then some 0
      else
        (jsDiv ((positivePricesOfFirstTen l).foldl (fun sum price => sum + price) 0)
          (positivePricesOfFirstTen l).length).bind fun mean =>
        (jsDiv ((positivePricesOfFirstTen l).foldl (fun sum price => sum + (price - mean) ^ 2) 0)
          (positivePricesOfFirstTen l).length).bind fun variance =>
        (jsSqrt rt variance).bind fun deviation => jsDiv deviation mean := by
  unfold calculatePriceVolatility positivePricesOfFirstTen
  simp only [filterMap_filter_price]

theorem foldl_add_eq_sum (xs : List ℚ) (init : ℚ) :
    xs.foldl (fun sum price => sum + price) init = init + xs.sum := by
  induction xs generalizing init with
  | nil => simp
  | cons x t ih => simp [ih, add_assoc]

theorem foldl_sq_eq_sum (xs : List ℚ) (m init : ℚ) :
    xs.foldl (fun sum price => sum + (price - m) ^ 2) init =
      init + (xs.map fun x => (x - m) ^ 2).sum := by
  induction xs generalizing init with
  | nil => simp
  | cons x t ih => simp [ih, add_assoc]

theorem sum_pos_of_pos (xs : List ℚ) (hpos : ∀ x ∈ xs, 0 < x) (hne : xs ≠ []) :
    0 < xs.sum := by
  induction xs with
  | nil => exact absurd rfl hne
  | cons x t ih =>
    rw [List.sum_cons]
    have hx : 0 < x := hpos x (List.mem_cons_self _ _)
    by_cases ht : t = []
    · simp [ht, hx]
    · have := ih (fun y hy => hpos y (List.mem_cons_of_mem _ hy)) ht
      linarith

theorem sum_sq_nonneg (xs : List ℚ) (m : ℚ) : 0 ≤ (xs.map fun x => (x - m) ^ 2).sum := by
  induction xs with
  | nil => simp
  | cons x t ih =>
    rw [List.map_cons, List.sum_cons]
    have := sq_nonneg (x - m)
    linarith

theorem positivePricesOfFirstTen_pos (l : List Observation) :
    ∀ x ∈ positivePricesOfFirstTen l, 0 < x := by
  intro x hx
  unfold positivePricesOfFirstTen at hx
  rw [List.mem_filter] at hx
  simpa using hx.2

/-- Past its two guards, `calculatePriceVolatility` divides by a count of at least 2 and by a
positive mean, and takes the root of a non-negative variance: the result is the root of the
population variance of the positive prices among the first 10 entries over their mean. -/
theorem calculatePriceVolatility_eq (rt : Runtime) (l : List Observation)
    (hlen : 3 ≤ l.length) (hprices : 2 ≤ (positivePricesOfFirstTen l).length) :
    calculatePriceVolatility rt (some l) =
      some (rt.sqrt (populationVariance (positivePricesOfFirstTen l)) /
        mean (positivePricesOfFirstTen l)) := by
  have hne : positivePricesOfFirstTen l ≠ [] := by
    intro h
    rw [h] at hprices
    simp at hprices
  have hsum := sum_pos_of_pos _ (positivePricesOfFirstTen_pos l) hne
  have hcount : (0 : ℚ) < ((positivePricesOfFirstTen l).length : ℚ) := by
    have : 0 < (positivePricesOfFirstTen l).length := by omega
    exact_mod_cast this
  have hmean : 0 < mean (positivePricesOfFirstTen l) := div_pos hsum hcount
  have hvar : 0 ≤ populationVariance (positivePricesOfFirstTen l) :=
    div_nonneg (sum_sq_nonneg _ _) hcount.le
  rw [calculatePriceVolatility_some, if_neg (by omega), if_neg (by omega)]
  simp only [foldl_add_eq_sum, foldl_sq_eq_sum, zero_add]
  have h1 : jsDiv (positivePricesOfFirstTen l).sum ((positivePricesOfFirstTen l).length : ℚ) =
      some (mean (positivePricesOfFirstTen l)) := by
    simp [jsDiv, hcount.ne', mean]
  rw [h1]
  simp only [Option.bind]
  have h2 : jsDiv ((positivePricesOfFirstTen l).map fun x =>
      (x - mean (positivePricesOfFirstTen l)) ^ 2).sum
      ((positivePricesOfFirstTen l).length : ℚ) =
      some (populationVariance (positivePricesOfFirstTen l)) := by
    simp [jsDiv, hcount.ne', populationVariance]
  rw [h2]
  simp only []
  have h3 : jsSqrt rt (populationVariance (positivePricesOfFirstTen l)) =
      some (rt.sqrt (populationVariance (positivePricesOfFirstTen l))) := by
    simp [jsSqrt, not_lt.mpr hvar]
  rw [h3]
  simp [jsDiv, hmean.ne']

/-- The two guards of `calculatePriceVolatility`: the result is 0 for a missing history, for
fewer than 3 entries, and for fewer than 2 positive prices among the first 10 entries. -/
theorem calculatePriceVolatility_zero (rt : Runtime) (l : List Observation)
    (h : l.length < 3 ∨ (positivePricesOfFirstTen l).length < 2) :
    calculatePriceVolatility rt (some l) = some 0 := by
  rw [calculatePriceVolatility_some]
  rcases h with h | h
  · rw [if_pos h]
  · split_ifs <;> rfl

theorem exactRuntime_sqrt_zero : exactRuntime.sqrt 0 = 0 := by
  simp [exactRuntime]

theorem exactRuntime_sqrt_625 : exactRuntime.sqrt 625 = 25 := by
  have h1 : Nat.sqrt 625 = 25 := by
    have := Nat.sqrt_eq 25
    simpa using this
  simp [exactRuntime, h1]

/-! ## Facts about the feature extractor -/

/-- The outcome of `extractPriceFeatures` on a history of at least two rows: the snapshot is
handed to the store once; it is returned when the store is initialised and accepts it, and
the exception of the store is rethrown otherwise. -/
theorem extractPriceFeatures_cons (rt : Runtime) (an : Analytics)
    (latest previous : Observation) (rest : List Observation) :
    extractPriceFeatures rt an (some (latest :: previous :: rest)) =
      if an.initialized = true then
        match an.upsertError with
        | none =>
          (Except.ok (some (buildPriceFeatures rt latest previous (latest :: previous :: rest))),
            { an with
              upsertsIssued := an.upsertsIssued ++
                [buildPriceFeatures rt latest previous (latest :: previous :: rest)]
              price_features := upsertRow an.price_features
                (buildPriceFeatures rt latest previous (latest :: previous :: rest)) })
        | some e =>
          (Except.error e,
            { an with
              upsertsIssued := an.upsertsIssued ++
                [buildPriceFeatures rt latest previous (latest :: previous :: rest)] })
      else
        (Except.error "DuckDB not initialized",
          { an with
            upsertsIssued := an.upsertsIssued ++
              [buildPriceFeatures rt latest previous (latest :: previous :: rest)] }) := by
  unfold extractPriceFeatures Analytics.insertPriceFeatures
  cases hi : an.initialized with
  | false => simp
  | true =>
    cases he : an.upsertError with
    | none => simp
    | some e => simp

theorem extractPriceFeatures_short (rt : Runtime) (an : Analytics) (l : List Observation)
    (h : l.length < 2) : extractPriceFeatures rt an (some l) = (Except.ok none, an) := by
  match l, h with
  | [], _ => rfl
  | [_], _ => rfl
  | _ :: _ :: _, h => exact absurd h (by simp)

/-! ## Facts about chunking -/

theorem ceil_div_pred_step (d size : Nat) (hsize : 0 < size) (hd : 0 < d) :
    (d + size - 1) / size = (d - size + size - 1) / size + 1 := by
  by_cases h : size ≤ d
  · have e : d + size - 1 = (d - size + size - 1) + size := by omega
    rw [e, Nat.add_div_right _ hsize]
  · have e : d + size - 1 = (d - 1) + size := by omega
    have z : d - size = 0 := by omega
    rw [e, Nat.add_div_right _ hsize, z, Nat.div_eq_of_lt (by omega),
      Nat.div_eq_of_lt (by omega)]

theorem natCeil_div_eq (n size : Nat) (hsize : 0 < size) :
    ⌈(n : ℚ) / (size : ℚ)⌉₊ = (n + size - 1) / size := by
  have hs : (0 : ℚ) < (size : ℚ) := by exact_mod_cast hsize
  apply le_antisymm
  · rw [Nat.ceil_le, div_le_iff₀ hs]
    have h := Nat.lt_div_mul_add (a := n + size - 1) hsize
    have h2 : n ≤ (n + size - 1) / size * size := by omega
    exact_mod_cast h2
  · rw [Nat.div_le_iff_le_mul_add_pred hsize]
    have h : (n : ℚ) ≤ (⌈(n : ℚ) / (size : ℚ)⌉₊ : ℚ) * (size : ℚ) := by
      rw [← div_le_iff₀ hs]
      exact Nat.le_ceil _
    have h2 : n ≤ ⌈(n : ℚ) / (size : ℚ)⌉₊ * size := by exact_mod_cast h
    rw [Nat.mul_comm]
    omega

/-- With a positive size and enough iterations, the loop of `chunkArray` started at `i`
leaves with ceil((length - i) / size) further chunks. -/
theorem chunkArrayLoop_length {α : Type} (array : List α) (size : Nat) (hsize : 0 < size) :
    ∀ (fuel i : Nat) (chunks : List (List α)),
      (array.length - i + size - 1) / size + 1 ≤ fuel →
      ∃ more, chunkArrayLoop array size fuel i chunks = some (chunks ++ more) ∧
        more.length = (array.length - i + size - 1) / size := by
  intro fuel
  induction fuel with
  | zero => intro i chunks h; exact absurd h (Nat.not_succ_le_zero _)
  | succ fuel ih =>
    intro i chunks h
    unfold chunkArrayLoop
    by_cases hi : i < array.length
    · rw [if_pos hi]
      have hstep := ceil_div_pred_step (array.length - i) size hsize (by omega)
      have e : array.length - (i + size) = array.length - i - size := by omega
      have hfuel : (array.length - (i + size) + size - 1) / size + 1 ≤ fuel := by
        rw [e]
        rw [hstep] at h
        exact Nat.le_of_succ_le_succ h
      obtain ⟨more, hmore, hlen⟩ := ih (i + size) (chunks ++ [(array.drop i).take size])
        hfuel
      refine ⟨(array.drop i).take size :: more, ?_, ?_⟩
      · rw [hmore]; simp
      · rw [List.length_cons, hlen, e, hstep]
    · rw [if_neg hi]
      refine ⟨[], by simp, ?_⟩
      have z : array.length - i = 0 := by omega
      rw [z]
      simp only [List.length_nil, Nat.zero_add]
      exact (Nat.div_eq_of_lt (by omega)).symm

/-- For a positive size, `chunkArray` returns, with ceil(length / size) chunks. -/
theorem chunkArray_length {α : Type} (array : List α) (size : Nat) (hsize : 0 < size) :
    ∃ chunks, chunkArray array size = some chunks ∧
      chunks.length = ⌈(array.length : ℚ) / (size : ℚ)⌉₊ := by
  have hfuel : (array.length - 0 + size - 1) / size + 1 ≤ array.length + 1 := by
    have : (array.length + size - 1) / size ≤ array.length := by
      rw [Nat.div_le_iff_le_mul_add_pred hsize]
      have : array.length ≤ size * array.length := Nat.le_mul_of_pos_left _ hsize
      omega
    simpa using this
  obtain ⟨more, hmore, hlen⟩ := chunkArrayLoop_length array size hsize (array.length + 1) 0 []
    hfuel
  refine ⟨more, by simpa [chunkArray] using hmore, ?_⟩
  rw [hlen, natCeil_div_eq _ _ hsize]
  simp

/-- The events of the loop of `scrapeDirectly` on the chunks from position `index` on, when
`total` is the number of all chunks: every chunk is settled once, in order, there is one
sleep less than there are chunks, and chunks and sleeps alternate. -/
theorem scrapeDirectlyLoop_events (scrapeASINDirect : Nat → String → Except String ScrapeResult)
    (random : Nat → ℚ) (now : String) (total : Nat) :
    ∀ (chunks : List (List String)) (index position : Nat), index + chunks.length = total →
      (scrapeDirectlyLoop scrapeASINDirect random now total index position chunks).2.filterMap
          ScrapeEvent.chunk? = chunks ∧
        ((scrapeDirectlyLoop scrapeASINDirect random now total index position chunks).2.filter
          ScrapeEvent.isSleep).length = chunks.length - 1 ∧
        ((scrapeDirectlyLoop scrapeASINDirect random now total index position chunks).2.head?.map
          ScrapeEvent.isSleep) = (chunks.head?.map fun _ => false) ∧
        (scrapeDirectlyLoop scrapeASINDirect random now total index position chunks).2.Chain'
          (fun a b => a.isSleep ≠ b.isSleep) := by
  intro chunks
  induction chunks with
  | nil => intro index position _; simp [scrapeDirectlyLoop]
  | cons chunk rest ih =>
    intro index position htotal
    obtain ⟨h1, h2, h3, h4⟩ := ih (index + 1) (position + chunk.length)
      (by simp at htotal ⊢; omega)
    unfold scrapeDirectlyLoop
    simp only [List.length_cons] at htotal ⊢
    by_cases hlast : (index : ℤ) < (total : ℤ) - 1
    · rw [if_pos hlast]
      have hrest : 0 < rest.length := by omega
      obtain ⟨c, tail, hc⟩ : ∃ c tail, rest = c :: tail := by
        cases rest with
        | nil => simp at hrest
        | cons c tail => exact ⟨c, tail, rfl⟩
      refine ⟨?_, ?_, ?_, ?_⟩
      · simp [ScrapeEvent.chunk?, h1]
      · simp only [List.filter_cons, ScrapeEvent.isSleep]
        simp only [Bool.false_eq_true, if_false, if_true, List.length_cons, h2]
        omega
      · simp [ScrapeEvent.isSleep]
      · subst hc
        cases hev : (scrapeDirectlyLoop scrapeASINDirect random now total (index + 1)
            (position + chunk.length) (c :: tail)).2 with
        | nil =>
          rw [hev] at h1
          simp at h1
        | cons e evs =>
          rw [hev] at h3 h4
          simp only [List.head?_cons, Option.map_some', Option.some.injEq] at h3
          refine List.Chain'.cons ?_ (List.Chain'.cons ?_ h4)
          · simp [ScrapeEvent.isSleep]
          · show (ScrapeEvent.slept (2000 + random index * 3000)).isSleep ≠ e.isSleep
            rw [h3]
            simp [ScrapeEvent.isSleep]
    · rw [if_neg hlast]
      have hrest : rest = [] := by
        cases rest with
        | nil => rfl
        | cons c tail => simp at htotal; omega
      subst hrest
      simp [scrapeDirectlyLoop, ScrapeEvent.chunk?, ScrapeEvent.isSleep]

/-- With a positive size and enough iterations, the chunks that the loop of `chunkArray`
pushes from `i` on concatenate to the rest of the array, each has between 1 and `size`
elements, and each but the last has `size` elements. -/
theorem chunkArrayLoop_chunks {α : Type} (array : List α) (size : Nat) (hsize : 0 < size) :
    ∀ (fuel i : Nat) (chunks : List (List α)),
      (array.length - i + size - 1) / size + 1 ≤ fuel →
      ∃ more, chunkArrayLoop array size fuel i chunks = some (chunks ++ more) ∧
        more.flatten = array.drop i ∧
        (∀ c ∈ more, 1 ≤ c.length ∧ c.length ≤ size) ∧
        (∀ c ∈ more.dropLast, c.length = size) := by
  intro fuel
  induction fuel with
  | zero => intro i chunks h; exact absurd h (Nat.not_succ_le_zero _)
  | succ fuel ih =>
    intro i chunks h
    by_cases hi : i < array.length
    · have hstep := ceil_div_pred_step (array.length - i) size hsize (by omega)
      have e : array.length - (i + size) = array.length - i - size := by omega
      have hfuel : (array.length - (i + size) + size - 1) / size + 1 ≤ fuel := by
        rw [e]
        rw [hstep] at h
        exact Nat.le_of_succ_le_succ h
      obtain ⟨more, hmore, hjoin, hbound, hfull⟩ :=
        ih (i + size) (chunks ++ [(array.drop i).take size]) hfuel
      obtain ⟨more2, hmore2, hlen2⟩ := chunkArrayLoop_length array size hsize fuel (i + size)
        (chunks ++ [(array.drop i).take size]) hfuel
      have hsame : more2 = more := by
        rw [hmore] at hmore2
        exact (List.append_cancel_left (Option.some.inj hmore2)).symm
      subst hsame
      have hchunk : ((array.drop i).take size).length = min size (array.length - i) := by
        simp [List.length_take, List.length_drop]
      refine ⟨(array.drop i).take size :: more2, ?_, ?_, ?_, ?_⟩
      · unfold chunkArrayLoop
        rw [if_pos hi, hmore]
        simp
      · rw [List.flatten_cons, hjoin, ← List.drop_drop, List.take_append_drop]
      · intro c hc
        rcases List.mem_cons.mp hc with hc | hc
        · rw [hc, hchunk]
          omega
        · exact hbound c hc
      · intro c hc
        by_cases hnil : more2 = []
        · subst hnil
          simp at hc
        · rw [List.dropLast_cons_of_ne_nil hnil] at hc
          rcases List.mem_cons.mp hc with hc | hc
          · have hpos : 0 < more2.length := List.length_pos.mpr hnil
            have hbig : size ≤ array.length - i := by
              by_contra hsmall
              have z : array.length - (i + size) = 0 := by omega
              rw [hlen2, z] at hpos
              rw [Nat.div_eq_of_lt (by omega)] at hpos
              exact absurd hpos (Nat.lt_irrefl 0)
            rw [hc, hchunk]
            omega
          · exact hfull c hc
    · refine ⟨[], ?_, ?_, ?_, ?_⟩
      · unfold chunkArrayLoop
        rw [if_neg hi]
        simp
      · rw [List.drop_eq_nil_of_le (by omega)]
        rfl
      · intro c hc
        simp at hc
      · intro c hc
        simp at hc

theorem chunkArray_fuel {α : Type} (array : List α) (size : Nat) (hsize : 0 < size) :
    (array.length - 0 + size - 1) / size + 1 ≤ array.length + 1 := by
  have : (array.length + size - 1) / size ≤ array.length := by
    rw [Nat.div_le_iff_le_mul_add_pred hsize]
    have : array.length ≤ size * array.length := Nat.le_mul_of_pos_left _ hsize
    omega
  simpa using this

/-- For a positive size, `chunkArray` returns chunks that concatenate to the array. -/
theorem chunkArray_flatten {α : Type} (array : List α) (size : Nat) (hsize : 0 < size) :
    ∃ chunks, chunkArray array size = some chunks ∧ chunks.flatten = array := by
  obtain ⟨more, hmore, hjoin, -, -⟩ := chunkArrayLoop_chunks array size hsize
    (array.length + 1) 0 [] (chunkArray_fuel array size hsize)
  exact ⟨more, by simpa [chunkArray] using hmore, by simpa using hjoin⟩

/-! ## Facts about the slots of `scrapeDirectly` -/

theorem settleChunk_append (scrapeASINDirect : Nat → String → Except String ScrapeResult)
    (now : String) (l1 l2 : List String) :
    ∀ position, settleChunk scrapeASINDirect now position (l1 ++ l2) =
      settleChunk scrapeASINDirect now position l1 ++
        settleChunk scrapeASINDirect now (position + l1.length) l2 := by
  induction l1 with
  | nil => intro position; simp [settleChunk]
  | cons a t ih =>
    intro position
    have e : position + 1 + t.length = position + (t.length + 1) := by omega
    have h1 : settleChunk scrapeASINDirect now position (a :: (t ++ l2)) =
        settledSlot (scrapeASINDirect position a) now a ::
          settleChunk scrapeASINDirect now (position + 1) (t ++ l2) := rfl
    have h2 : settleChunk scrapeASINDirect now position (a :: t) =
        settledSlot (scrapeASINDirect position a) now a ::
          settleChunk scrapeASINDirect now (position + 1) t := rfl
    rw [List.cons_append, h1, h2, ih (position + 1), e, List.length_cons, List.cons_append]

theorem settleChunk_length (scrapeASINDirect : Nat → String → Except String ScrapeResult)
    (now : String) (l : List String) :
    ∀ position, (settleChunk scrapeASINDirect now position l).length = l.length := by
  induction l with
  | nil => intro position; rfl
  | cons a t ih => intro position; simp [settleChunk, ih (position + 1)]

theorem settleChunk_getElem? (scrapeASINDirect : Nat → String → Except String ScrapeResult)
    (now : String) (l : List String) :
    ∀ (position i : Nat) (asin : String), l[i]? = some asin →
      (settleChunk scrapeASINDirect now position l)[i]? =
        some (settledSlot (scrapeASINDirect (position + i) asin) now asin) := by
  induction l with
  | nil => intro position i asin h; simp at h
  | cons a t ih =>
    intro position i asin h
    cases i with
    | zero =>
      simp only [List.getElem?_cons_zero, Option.some.injEq] at h
      subst h
      simp [settleChunk]
    | succ j =>
      simp only [List.getElem?_cons_succ] at h
      have := ih (position + 1) j asin h
      simp only [settleChunk, List.getElem?_cons_succ, this]
      have e : position + 1 + j = position + (j + 1) := by omega
      rw [e]

/-- The slots pushed by the loop of `scrapeDirectly` are those of the concatenated chunks. -/
theorem scrapeDirectlyLoop_results
    (scrapeASINDirect : Nat → String → Except String ScrapeResult)
    (random : Nat → ℚ) (now : String) (total : Nat) :
    ∀ (chunks : List (List String)) (index position : Nat),
      (scrapeDirectlyLoop scrapeASINDirect random now total index position chunks).1 =
        settleChunk scrapeASINDirect now position chunks.flatten := by
  intro chunks
  induction chunks with
  | nil => intro index position; simp [scrapeDirectlyLoop, settleChunk]
  | cons chunk rest ih =>
    intro index position
    unfold scrapeDirectlyLoop
    simp only [List.flatten_cons, settleChunk_append]
    split_ifs <;> simp [ih]

/-! ## Facts about the retry loop -/

/-- The loop of `scrapeASINDirect` entered at a counter below the limit, when the request
succeeds. -/
theorem scrapeASINDirectLoop_success (svc : ScraperService)
    (fetch : Nat → Except String ProductData) (now asin : String) (attempt : Nat)
    (productData : ProductData) (hlt : attempt < svc.retryAttempts)
    (hfetch : fetch attempt = Except.ok productData) :
    scrapeASINDirectLoop svc fetch now asin attempt =
      (Except.ok (some
          { asin := asin, success := true, data := some productData, timestamp := now }),
        [FetchEvent.requested (attempt + 1)]) := by
  rw [scrapeASINDirectLoop, dif_pos hlt, hfetch]

/-- The loop of `scrapeASINDirect` entered at the last counter below the limit, when the
request fails: the exception is rethrown. -/
theorem scrapeASINDirectLoop_last (svc : ScraperService)
    (fetch : Nat → Except String ProductData) (now asin : String) (attempt : Nat)
    (error : String) (hlast : attempt + 1 = svc.retryAttempts)
    (hfetch : fetch attempt = Except.error error) :
    scrapeASINDirectLoop svc fetch now asin attempt =
      (Except.error error, [FetchEvent.requested (attempt + 1)]) := by
  rw [scrapeASINDirectLoop, dif_pos (by omega), hfetch]
  simp only []
  rw [dif_neg (by omega)]

/-- The loop of `scrapeASINDirect` when the request fails and an attempt is left: a sleep of
1000 ms times the number of failures, then the loop again. -/
theorem scrapeASINDirectLoop_retry (svc : ScraperService)
    (fetch : Nat → Except String ProductData) (now asin : String) (attempt : Nat)
    (error : String) (hmore : attempt + 1 < svc.retryAttempts)
    (hfetch : fetch attempt = Except.error error) :
    scrapeASINDirectLoop svc fetch now asin attempt =
      ((scrapeASINDirectLoop svc fetch now asin (attempt + 1)).1,
        FetchEvent.requested (attempt + 1) :: FetchEvent.slept (1000 * (attempt + 1)) ::
          (scrapeASINDirectLoop svc fetch now asin (attempt + 1)).2) := by
  rw [scrapeASINDirectLoop, dif_pos (by omega), hfetch]
  simp only []
  rw [dif_pos hmore]

/-- After `d` failed requests, each followed by its sleep, the loop continues at the counter
`attempt + d`, as long as that counter is below the limit. -/
theorem scrapeASINDirectLoop_failures (svc : ScraperService)
    (fetch : Nat → Except String ProductData) (now asin : String) :
    ∀ (d attempt : Nat), attempt + d < svc.retryAttempts →
      (∀ k, attempt ≤ k → k < attempt + d → ∃ e, fetch k = Except.error e) →
      scrapeASINDirectLoop svc fetch now asin attempt =
        ((scrapeASINDirectLoop svc fetch now asin (attempt + d)).1,
          ((List.range' attempt d).flatMap fun k =>
            [FetchEvent.requested (k + 1), FetchEvent.slept (1000 * (k + 1))]) ++
            (scrapeASINDirectLoop svc fetch now asin (attempt + d)).2) := by
  intro d
  induction d with
  | zero => intro attempt _ _; simp
  | succ d ih =>
    intro attempt hlt hfail
    obtain ⟨e, he⟩ := hfail attempt (le_refl _) (by omega)
    rw [scrapeASINDirectLoop_retry svc fetch now asin attempt e (by omega) he]
    have hnext := ih (attempt + 1) (by omega)
      (fun k hk1 hk2 => hfail k (by omega) (by omega))
    have e1 : attempt + 1 + d = attempt + (d + 1) := by omega
    rw [e1] at hnext
    rw [hnext]
    simp [List.range'_succ]

/-! ## Facts about the dispatcher -/

theorem catchAndLog_ok (body : Except String Unit) : catchAndLog body = Except.ok () := by
  cases body <;> rfl

/-- The loop over the critical alerts never leaves with an exception and calls `sendAlert`
once for each alert, in order, whatever the outcome of each call. -/
theorem sendCriticalAlerts_events (slack : Slack) (l : List Alert) :
    ∀ place, (sendCriticalAlerts slack place l).1 = Except.ok () ∧
      (sendCriticalAlerts slack place l).2.filterMap DispatchEvent.alert? = l ∧
      (sendCriticalAlerts slack place l).2.length = l.length ∧
      (∀ (k : Nat) (a : Alert), l[k]? = some a →
        (sendCriticalAlerts slack place l).2[k]? =
          some (DispatchEvent.alertSent a (returned (slack.sendAlert (place + k) a)))) := by
  induction l with
  | nil =>
    intro place
    refine ⟨rfl, rfl, rfl, ?_⟩
    intro k a h
    simp at h
  | cons a t ih =>
    intro place
    obtain ⟨h1, h2, h3, h4⟩ := ih (place + 1)
    have hstep : sendCriticalAlerts slack place (a :: t) =
        ((sendCriticalAlerts slack (place + 1) t).1,
          DispatchEvent.alertSent a (returned (slack.sendAlert place a)) ::
            (sendCriticalAlerts slack (place + 1) t).2) := by
      rw [sendCriticalAlerts]
      simp only [catchAndLog_ok]
    rw [hstep]
    refine ⟨h1, ?_, ?_, ?_⟩
    · simp [DispatchEvent.alert?, h2]
    · simp [h3]
    · intro k b hk
      cases k with
      | zero =>
        simp only [List.getElem?_cons_zero, Option.some.injEq] at hk
        subst hk
        simp
      | succ j =>
        simp only [List.getElem?_cons_succ] at hk
        have := h4 j b hk
        simp only [List.getElem?_cons_succ, this]
        have e : place + 1 + j = place + (j + 1) := by omega
        rw [e]

/-- With a cap that is not negative, the list that `sendPriceAlerts` keeps is the first `cap`
alerts. -/
theorem truncated_eq_take (alerts : List Alert) (cap : ℤ) (hcap : 0 ≤ cap) :
    (if (alerts.length : ℤ) > cap then sliceTo alerts cap else alerts) =
      alerts.take cap.toNat := by
  split_ifs with h
  · simp [sliceTo, hcap]
  · rw [List.take_of_length_le]
    have : (alerts.length : ℤ) ≤ cap := not_lt.mp h
    omega

/-- The calls of `sendAlert` made by `sendPriceAlerts` under a cap that is not negative. -/
theorem sendPriceAlerts_eq (svc : PriceDetectionService) (slack : Slack)
    (alerts : List Alert) (customerId : Nat)
    (hcap : 0 ≤ svc.alertThresholds.maxAlertsPerHour) :
    sendPriceAlerts svc slack alerts customerId =
      (Except.ok (),
        (sendCriticalAlerts slack 0
          ((alerts.take svc.alertThresholds.maxAlertsPerHour.toNat).filter fun a =>
            decide (a.severity = Severity.critical))).2) := by
  unfold sendPriceAlerts
  simp only [truncated_eq_take alerts _ hcap, catchAndLog_ok]

theorem sendPriceAlerts_ok (svc : PriceDetectionService) (slack : Slack)
    (alerts : List Alert) (customerId : Nat) :
    (sendPriceAlerts svc slack alerts customerId).1 = Except.ok () := by
  unfold sendPriceAlerts
  simp only [catchAndLog_ok]

theorem sendTopThreats_ok (slack : Slack) (threats : List Threat) (customerId : Nat) :
    (sendTopThreats slack threats customerId).1 = Except.ok () := by
  unfold sendTopThreats
  simp only [catchAndLog_ok]

/-! ## Facts about the cycle -/

/-- The assessment returned by `generateThreatAssessment` does not depend on the predictions
stored so far, and the call changes nothing else in the store. -/
theorem generateThreatAssessment_congr (svc : PriceDetectionService) (an an2 : Analytics)
    (asinRecord : ASINRecord) (priceHistory : List Observation) (now : String)
    (h1 : an2.initialized = an.initialized)
    (h2 : an2.generateMLFeatures = an.generateMLFeatures)
    (h3 : an2.insertError = an.insertError) :
    (generateThreatAssessment svc an2 asinRecord priceHistory now).1 =
        (generateThreatAssessment svc an asinRecord priceHistory now).1 ∧
      (generateThreatAssessment svc an2 asinRecord priceHistory now).2.initialized =
        an.initialized ∧
      (generateThreatAssessment svc an2 asinRecord priceHistory now).2.generateMLFeatures =
        an.generateMLFeatures ∧
      (generateThreatAssessment svc an2 asinRecord priceHistory now).2.insertError =
        an.insertError := by
  unfold generateThreatAssessment Analytics.storePrediction
  rw [h1, h2, h3]
  cases hi : an.initialized with
  | false => simp [h1, h2, h3, hi]
  | true =>
    cases hq : an.generateMLFeatures asinRecord.id with
    | error e => simp [h1, h2, h3, hi]
    | ok o =>
      cases o with
      | none => simp [h1, h2, h3, hi]
      | some features =>
        cases he : an.insertError with
        | none => simp [h1, h2, h3, hi, he]
        | some e => simp [h1, h2, h3, hi, he]

/-- What `analyzeASINPriceChanges` returns besides the store does not depend on the
predictions stored so far, and the call changes nothing else in the store. -/
theorem analyzeASINPriceChanges_congr (svc : PriceDetectionService) (an an2 : Analytics)
    (asinRecord : ASINRecord) (findByASIN : Except String (List Observation)) (now : String)
    (h1 : an2.initialized = an.initialized)
    (h2 : an2.generateMLFeatures = an.generateMLFeatures)
    (h3 : an2.insertError = an.insertError) :
    alertsOf (analyzeASINPriceChanges svc an2 asinRecord findByASIN now) =
        alertsOf (analyzeASINPriceChanges svc an asinRecord findByASIN now) ∧
      threatOf (analyzeASINPriceChanges svc an2 asinRecord findByASIN now) =
        threatOf (analyzeASINPriceChanges svc an asinRecord findByASIN now) ∧
      didNotThrow (analyzeASINPriceChanges svc an2 asinRecord findByASIN now) =
        didNotThrow (analyzeASINPriceChanges svc an asinRecord findByASIN now) ∧
      (∀ p, analyzeASINPriceChanges svc an2 asinRecord findByASIN now = Except.ok p →
        p.1.alerts = alertsOf (analyzeASINPriceChanges svc an asinRecord findByASIN now) ∧
        p.1.threat = threatOf (analyzeASINPriceChanges svc an asinRecord findByASIN now) ∧
        p.2.initialized = an.initialized ∧
        p.2.generateMLFeatures = an.generateMLFeatures ∧
        p.2.insertError = an.insertError) := by
  cases findByASIN with
  | error e =>
    refine ⟨rfl, rfl, rfl, ?_⟩
    intro p hp
    simp [analyzeASINPriceChanges] at hp
  | ok l =>
    match l with
    | [] =>
      refine ⟨rfl, rfl, rfl, ?_⟩
      intro p hp
      simp only [analyzeASINPriceChanges, Except.ok.injEq] at hp
      subst hp
      exact ⟨rfl, rfl, h1, h2, h3⟩
    | [_] =>
      refine ⟨rfl, rfl, rfl, ?_⟩
      intro p hp
      simp only [analyzeASINPriceChanges, Except.ok.injEq] at hp
      subst hp
      exact ⟨rfl, rfl, h1, h2, h3⟩
    | latest :: previous :: rest =>
      obtain ⟨g1, g2, g3, g4⟩ := generateThreatAssessment_congr svc an an2 asinRecord
        (latest :: previous :: rest) now h1 h2 h3
      refine ⟨?_, ?_, rfl, ?_⟩
      · rw [alertsOf_analyze, alertsOf_analyze]
      · simp only [threatOf, analyzeASINPriceChanges]
        exact g1
      · intro p hp
        simp only [analyzeASINPriceChanges, Except.ok.injEq] at hp
        subst hp
        refine ⟨?_, ?_, g2, g3, g4⟩
        · simp only [alertsOf, analyzeASINPriceChanges]
        · simp only [threatOf, analyzeASINPriceChanges]
          exact g1

/-- The loop of the cycle pushes, item after item, the alerts and the assessment of each item
whose analysis returns; an item whose analysis throws pushes nothing. -/
theorem collectAnalyses_eq (svc : PriceDetectionService)
    (findByASIN : Nat → ASINRecord → Except String (List Observation)) (now : String)
    (an0 : Analytics) :
    ∀ (items : List ASINRecord) (place : Nat) (an : Analytics) (alerts : List Alert)
      (threats : List Threat),
      an.initialized = an0.initialized → an.generateMLFeatures = an0.generateMLFeatures →
      an.insertError = an0.insertError →
      (collectAnalyses svc findByASIN now place an items alerts threats).1 =
          alerts ++ (items.enumFrom place).flatMap (fun p =>
            alertsOf (analyzeASINPriceChanges svc an0 p.2 (findByASIN p.1 p.2) now)) ∧
        (collectAnalyses svc findByASIN now place an items alerts threats).2.1 =
          threats ++ (items.enumFrom place).filterMap (fun p =>
            threatOf (analyzeASINPriceChanges svc an0 p.2 (findByASIN p.1 p.2) now)) := by
  intro items
  induction items with
  | nil => intro place an alerts threats _ _ _; simp [collectAnalyses]
  | cons asin rest ih =>
    intro place an alerts threats h1 h2 h3
    obtain ⟨c1, c2, c3, c4⟩ := analyzeASINPriceChanges_congr svc an0 an asin
      (findByASIN place asin) now h1 h2 h3
    rw [collectAnalyses]
    cases hr : analyzeASINPriceChanges svc an asin (findByASIN place asin) now with
    | error e =>
      simp only []
      rw [hr] at c1 c2
      obtain ⟨i1, i2⟩ := ih (place + 1) an alerts threats h1 h2 h3
      rw [i1, i2, List.enumFrom_cons, List.flatMap_cons, List.filterMap_cons, ← c1, ← c2]
      simp [alertsOf, threatOf]
    | ok p =>
      obtain ⟨a1, a2, a3, a4, a5⟩ := c4 p hr
      obtain ⟨analysis, an1⟩ := p
      simp only [] at a1 a2 a3 a4 a5 ⊢
      have halerts : (if analysis.alerts.length > 0 then alerts ++ analysis.alerts
          else alerts) = alerts ++ analysis.alerts := by
        split_ifs with hpos
        · rfl
        · have : analysis.alerts = [] := List.length_eq_zero.mp (by omega)
          rw [this, List.append_nil]
      rw [halerts]
      rw [List.enumFrom_cons, List.flatMap_cons, List.filterMap_cons, ← a1, ← a2]
      cases ht : analysis.threat with
      | none =>
        obtain ⟨i1, i2⟩ := ih (place + 1) an1 (alerts ++ analysis.alerts) threats a3 a4 a5
        simp only []
        rw [i1, i2, List.append_assoc]
        exact ⟨rfl, rfl⟩
      | some threat =>
        obtain ⟨i1, i2⟩ := ih (place + 1) an1 (alerts ++ analysis.alerts)
          (threats ++ [threat]) a3 a4 a5
        simp only []
        rw [i1, i2, List.append_assoc, List.append_assoc]
        exact ⟨rfl, rfl⟩

/-- The sort of the threats yields a permutation in order of decreasing probability. -/
theorem sortThreats_spec (threats : List Threat) :
    (sortThreats threats).Perm threats ∧
      (sortThreats threats).Sorted (fun a b => a.dropProbability ≥ b.dropProbability) ∧
      (sortThreats threats).length = threats.length := by
  haveI : IsTotal Threat (fun a b => a.dropProbability ≥ b.dropProbability) :=
    ⟨fun a b => le_total b.dropProbability a.dropProbability⟩
  haveI : IsTrans Threat (fun a b => a.dropProbability ≥ b.dropProbability) :=
    ⟨fun _ _ _ hab hbc => le_trans hbc hab⟩
  exact ⟨List.perm_insertionSort _ _, List.sorted_insertionSort _ _,
    List.length_insertionSort _ _⟩

/-- When the query of the items returns, `analyzeRecentPriceChanges` returns the summary of
what its loop collected, whatever the channel does. -/
theorem analyzeRecentPriceChanges_ok (svc : PriceDetectionService) (slack : Slack)
    (an : Analytics) (items : List ASINRecord)
    (findByASIN : Nat → ASINRecord → Except String (List Observation)) (now : String)
    (customerId : Nat) :
    (analyzeRecentPriceChanges svc slack an (Except.ok items) findByASIN now customerId).1 =
        Except.ok
          { success := true
            alertsGenerated := (collectAnalyses svc findByASIN now 0 an items [] []).1.length
            threatsIdentified :=
              (sortThreats (collectAnalyses svc findByASIN now 0 an items [] []).2.1).length
            topThreats :=
              (sortThreats (collectAnalyses svc findByASIN now 0 an items [] []).2.1).take 5 } ∧
      (analyzeRecentPriceChanges svc slack an (Except.ok items) findByASIN now
          customerId).2.1 =
        (collectAnalyses svc findByASIN now 0 an items [] []).2.2 := by
  unfold analyzeRecentPriceChanges
  simp only []
  have hs : ∀ alerts : List Alert,
      (if alerts.length > 0 then sendPriceAlerts svc slack alerts customerId
        else (Except.ok (), [])).1 = Except.ok () := by
    intro alerts
    split_ifs
    · exact sendPriceAlerts_ok svc slack alerts customerId
    · rfl
  have hd : ∀ threats : List Threat,
      (if threats.length > 0 then sendTopThreats slack (threats.take 5) customerId
        else (Except.ok (), [])).1 = Except.ok () := by
    intro threats
    split_ifs
    · exact sendTopThreats_ok slack _ customerId
    · rfl
  rw [hs]
  simp only []
  rw [hd]
  exact ⟨rfl, rfl⟩

theorem flatMap_filter_of_nil {α β : Type} (keep : α → Bool) (f : α → List β) (l : List α)
    (h : ∀ x ∈ l, keep x = false → f x = []) :
    (l.filter keep).flatMap f = l.flatMap f := by
  induction l with
  | nil => rfl
  | cons x t ih =>
    have iht := ih (fun y hy => h y (List.mem_cons_of_mem _ hy))
    cases hk : keep x with
    | true => simp [List.filter_cons, hk, iht]
    | false =>
      have := h x (List.mem_cons_self _ _) hk
      simp [List.filter_cons, hk, iht, this]

theorem filterMap_filter_of_none {α β : Type} (keep : α → Bool) (f : α → Option β)
    (l : List α) (h : ∀ x ∈ l, keep x = false → f x = none) :
    (l.filter keep).filterMap f = l.filterMap f := by
  induction l with
  | nil => rfl
  | cons x t ih =>
    have iht := ih (fun y hy => h y (List.mem_cons_of_mem _ hy))
    cases hk : keep x with
    | true => simp [List.filter_cons, hk, List.filterMap_cons, iht]
    | false =>
      have := h x (List.mem_cons_self _ _) hk
      simp [List.filter_cons, hk, List.filterMap_cons, iht, this]

/-- An analysis that throws has no alerts and no assessment. -/
theorem nothing_of_thrown (r : Except String (Analysis × Analytics))
    (h : didNotThrow r = false) : alertsOf r = [] ∧ threatOf r = none := by
  cases r with
  | error e => exact ⟨rfl, rfl⟩
  | ok p => simp [didNotThrow] at h

/-- The calls of `sendAlert` made by `sendPriceAlerts`, for any cap. -/
theorem sendPriceAlerts_eq_any (svc : PriceDetectionService) (slack : Slack)
    (alerts : List Alert) (customerId : Nat) :
    sendPriceAlerts svc slack alerts customerId =
      (Except.ok (),
        (sendCriticalAlerts slack 0
          ((if (alerts.length : ℤ) > svc.alertThresholds.maxAlertsPerHour then
              sliceTo alerts svc.alertThresholds.maxAlertsPerHour
            else alerts).filter fun a => decide (a.severity = Severity.critical))).2) := by
  unfold sendPriceAlerts
  simp only [catchAndLog_ok]

/-! ## Facts about the availability score -/

/-- The score of a key is decided by the literal and by `||`: an entry of the literal that is
not 0 is returned, and every key that is neither in the literal nor inherited gives 0.5. -/
theorem calculateAvailabilityScore_of_key (s : String) :
    (toLowerCase s = "in stock" → calculateAvailabilityScore (some s) = some 1.0) ∧
      (toLowerCase s = "limited" → calculateAvailabilityScore (some s) = some 0.7) ∧
      (toLowerCase s = "low stock" → calculateAvailabilityScore (some s) = some 0.5) ∧
      (availabilityScores.lookup (toLowerCase s) = none →
        toLowerCase s ≠ "constructor" → toLowerCase s ≠ "__proto__" →
        calculateAvailabilityScore (some s) = some 0.5) ∧
      calculateAvailabilityScore none = some 0.5 := by
  refine ⟨?_, ?_, ?_, ?_, ?_⟩
  · intro h
    simp only [calculateAvailabilityScore, Option.map, h]
    simp +decide [availabilityScores, List.lookup]
    norm_num
  · intro h
    simp only [calculateAvailabilityScore, Option.map, h]
    simp +decide [availabilityScores, List.lookup]
    norm_num
  · intro h
    simp only [calculateAvailabilityScore, Option.map, h]
    simp +decide [availabilityScores, List.lookup]
  · intro h h1 h2
    simp only [calculateAvailabilityScore, Option.map, h]
    simp [h1, h2]
  · simp [calculateAvailabilityScore]

/-! ## The price drop rule -/

/-- C1 (evaluation at the failing input): with the default thresholds, for a previous price
of -20 and a latest price of 10 the price rose by 30, the previous price is not positive, and
yet `isSignificantPriceDrop (calculatePriceChange latest previous)` is true: the guard of
`calculatePriceChange` only excludes a previous price equal to 0, so the percent change is
30 / -20 * 100 = -150, which passes the drop test. -/
theorem isSignificantPriceDrop_negative_previous :
    isSignificantPriceDrop defaultService
        (calculatePriceChange { price := some 10 } { price := some (-20) }) = true ∧
      ¬ (0 < parseFloatOr (some (-20)) 0) ∧
      (calculatePriceChange { price := some 10 } { price := some (-20) }).amount = 30 ∧
      (calculatePriceChange { price := some 10 } { price := some (-20) }).percent = -150 := by
  refine ⟨?_, ?_, ?_, ?_⟩
  · rw [isSignificantPriceDrop_default_iff]
    norm_num [parseFloatOr, abs_of_pos]
  · norm_num [parseFloatOr]
  · norm_num [calculatePriceChange, parseFloatOr]
  · norm_num [calculatePriceChange, parseFloatOr]

/-- C3: when the previous price is 0, or is missing or not a number (both parsed as 0),
`calculatePriceChange` returns amount 0, percent 0 and `isValid` false, the drop test is
false for every configuration of the thresholds, and the alert list of the detector holds no
`price_drop` alert, whatever the latest price is. -/
theorem no_price_drop_when_previous_zero (svc : PriceDetectionService) (an : Analytics)
    (asinRecord : ASINRecord) (latest previous : Observation) (rest : List Observation)
    (now : String) (h : previous.price = none ∨ previous.price = some 0) :
    calculatePriceChange latest previous =
        { amount := 0, percent := 0, isValid := false,
          currentPrice := none, previousPrice := none } ∧
      isSignificantPriceDrop svc (calculatePriceChange latest previous) = false ∧
      ∀ a ∈ alertsOf (analyzeASINPriceChanges svc an asinRecord
          (Except.ok (latest :: previous :: rest)) now),
        a.alertType ≠ AlertType.price_drop := by
  have h0 : parseFloatOr previous.price 0 = 0 := (parseFloatOr_zero_eq_zero_iff _).mpr h
  have hc : calculatePriceChange latest previous =
      { amount := 0, percent := 0, isValid := false,
        currentPrice := none, previousPrice := none } := by
    simp [calculatePriceChange, h0]
  have hs : isSignificantPriceDrop svc (calculatePriceChange latest previous) = false := by
    rw [hc]; simp [isSignificantPriceDrop]
  refine ⟨hc, hs, ?_⟩
  intro a ha
  rw [alertsOf_analyze, hs] at ha
  simp only [Bool.false_eq_true, if_false, List.nil_append, List.mem_append] at ha
  rcases ha with ha | ha
  · split_ifs at ha
    · simp only [List.mem_singleton] at ha
      rw [ha]; simp [createCouponAlert]
    · simp at ha
  · split_ifs at ha
    · simp only [List.mem_singleton] at ha
      rw [ha]; simp [createStockAlert]
    · simp at ha

/-- Witness of C3: a missing previous price and a latest price of 1. -/
theorem no_price_drop_when_previous_zero_witness :
    calculatePriceChange { price := some 1 } { price := none } =
        { amount := 0, percent := 0, isValid := false,
          currentPrice := none, previousPrice := none } ∧
      isSignificantPriceDrop defaultService
        (calculatePriceChange { price := some 1 } { price := none }) = false :=
  have h := no_price_drop_when_previous_zero defaultService
    { initialized := false, generateMLFeatures := fun _ => Except.ok none,
      insertError := none, predictions := [] }
    { id := 1, customer_id := 1, asin := "B08N5WRWNW", title := "Echo Dot" }
    { price := some 1 } { price := none } [] "t" (Or.inl rfl)
  ⟨h.1, h.2.1⟩

/-! ## Facts about the detector over binary64 numbers -/

theorem binary64_defaultService_thresholds :
    Binary64.defaultService.alertThresholds =
      { priceDropPercent := Double.finite 10, minimumDiscount := Double.finite 5,
        maxAlertsPerHour := 5 } := by
  rfl

/-- The rounding at some landmarks: an integer is kept, one tenth becomes
3602879701896397 / 2 ^ 55, a tie goes to the even significand, a magnitude of 2 ^ 1024 is an
infinity, and below the smallest normal number the unit is 2 ^ -1074. -/
theorem binary64_round_landmarks :
    Binary64.round 10 = Double.finite 10 ∧
      Binary64.round (1 / 10) = Double.finite (3602879701896397 / 2 ^ 55) ∧
      Binary64.round (2 ^ 53 + 1) = Double.finite (2 ^ 53) ∧
      Binary64.round (2 ^ 53 + 3) = Double.finite (2 ^ 53 + 4) ∧
      Binary64.round (2 ^ 1024) = Double.infinity false ∧
      Binary64.round (-(2 ^ 1024)) = Double.infinity true ∧
      Binary64.round (1 / 2 ^ 1075) = Double.finite 0 ∧
      Binary64.round (3 / 2 ^ 1075) = Double.finite (2 / 2 ^ 1074) := by
  refine ⟨by decide!, by decide!, by decide!, by decide!, by decide!, by decide!, by decide!,
    by decide!⟩

/-- A number above zero is no zero. -/
theorem double_isZero_of_gt_zero (x : Double) (h : x.gt (Double.finite 0) = true) :
    x.isZero = false := by
  cases x with
  | finite q =>
    simp only [Double.gt, decide_eq_true_eq] at h
    simp [Double.isZero, ne_of_gt h]
  | infinity s => rfl
  | nan => rfl

/-- A number that is at most -10 has an absolute value of at least 10. -/
theorem double_abs_ge_of_le_neg_ten (x : Double) (h : x.le (Double.finite (-10)) = true) :
    x.abs.ge (Double.finite 10) = true := by
  cases x with
  | finite q =>
    simp only [Double.le, decide_eq_true_eq] at h
    simp only [Double.abs, Double.ge, Double.le, decide_eq_true_eq]
    rw [abs_of_nonpos (by linarith)]
    linarith
  | infinity s => rfl
  | nan => simp [Double.le] at h

/-- The alert list of a successful query with at least two rows is the concatenation of the
three optional alerts, in the order of the three checks of the source. -/
theorem binary64_alertsOf_analyze (svc : Binary64.PriceDetectionService) (an : Analytics)
    (asinRecord : ASINRecord) (latest previous : Observation) (rest : List Observation)
    (now : String) :
    Binary64.alertsOf (Binary64.analyzeASINPriceChanges svc an asinRecord
        (Except.ok (latest :: previous :: rest)) now) =
      (if Binary64.isSignificantPriceDrop svc (Binary64.calculatePriceChange latest previous)
        then [Binary64.createPriceDropAlert asinRecord latest previous
            (Binary64.calculatePriceChange latest previous) now]
        else []) ++
      ((if isCouponFlip latest previous then
          [Binary64.createCouponAlert asinRecord latest previous now]
        else []) ++
      (if isBackInStock latest previous then [Binary64.createStockAlert asinRecord latest now]
        else [])) := by
  simp only [Binary64.alertsOf, Binary64.analyzeASINPriceChanges]
  split_ifs <;> simp

/-- The price change computed for a previous price above zero. -/
theorem binary64_calculatePriceChange_valid (latest previous : Observation)
    (hprev : ((Binary64.parseFloat previous.price).orElse (Double.finite 0)).gt
      (Double.finite 0) = true) :
    Binary64.calculatePriceChange latest previous =
      { amount := ((Binary64.parseFloat latest.price).orElse (Double.finite 0)).sub
          ((Binary64.parseFloat previous.price).orElse (Double.finite 0))
        percent := ((((Binary64.parseFloat latest.price).orElse (Double.finite 0)).sub
            ((Binary64.parseFloat previous.price).orElse (Double.finite 0))).div
            ((Binary64.parseFloat previous.price).orElse (Double.finite 0))).mul
          (Double.finite 100)
        isValid := true
        currentPrice := some ((Binary64.parseFloat latest.price).orElse (Double.finite 0))
        previousPrice := some ((Binary64.parseFloat previous.price).orElse (Double.finite 0)) } := by
  have hz := double_isZero_of_gt_zero _ hprev
  simp [Binary64.calculatePriceChange, hz]

/-! ## The price drop rule over binary64 numbers -/

/-- C2 (counterexample): the pair latest price 45.09, previous price 50.10 meets the three
conditions of the claim (the previous price is positive, the percent change
(45.09 - 50.10) / 50.10 * 100 is exactly -10 and the absolute change is 5.01), and yet the
detector returns no alert: in binary64 arithmetic the source computes the percent change
-2814749767106559 / 2 ^ 48 (printed -9.999999999999996), which is above -10, so the drop test
is false. -/
theorem price_drop_missed_at_exact_ten_percent :
    (0 : ℚ) < 501 / 10 ∧
      ((4509 / 100 - 501 / 10) / (501 / 10) * 100 : ℚ) ≤ -10 ∧
      |(4509 / 100 - 501 / 10 : ℚ)| ≥ 5 ∧
      (Binary64.calculatePriceChange { price := some (4509 / 100) }
          { price := some (501 / 10) }).amount =
        Double.finite (-705094816660193 / 2 ^ 47) ∧
      (Binary64.calculatePriceChange { price := some (4509 / 100) }
          { price := some (501 / 10) }).percent =
        Double.finite (-2814749767106559 / 2 ^ 48) ∧
      Binary64.isSignificantPriceDrop Binary64.defaultService
        (Binary64.calculatePriceChange { price := some (4509 / 100) }
          { price := some (501 / 10) }) = false ∧
      Binary64.alertsOf (Binary64.analyzeASINPriceChanges Binary64.defaultService
        { initialized := false, generateMLFeatures := fun _ => Except.ok none,
          insertError := none, predictions := [] }
        { id := 1, customer_id := 1, asin := "B08N5WRWNW", title := "Echo Dot" }
        (Except.ok [{ price := some (4509 / 100) }, { price := some (501 / 10) }]) "t") = [] := by
  refine ⟨by norm_num, by norm_num, ?_, by decide!, by decide!, by decide!, by decide!⟩
  rw [abs_of_neg (by norm_num)]
  norm_num

/-- The severity of a fired alert follows the computed percent as well: for the pair latest
price 11.83, previous price 16.90 the percent change (11.83 - 16.90) / 16.90 * 100 is exactly
-30, the source computes -4222124650659839 / 2 ^ 47 (printed -29.999999999999993), and the
alert has the severity high. -/
theorem price_drop_high_at_exact_thirty_percent :
    ((1183 / 100 - 169 / 10) / (169 / 10) * 100 : ℚ) = -30 ∧
      (Binary64.calculatePriceChange { price := some (1183 / 100) }
          { price := some (169 / 10) }).percent =
        Double.finite (-4222124650659839 / 2 ^ 47) ∧
      (Binary64.alertsOf (Binary64.analyzeASINPriceChanges Binary64.defaultService
        { initialized := false, generateMLFeatures := fun _ => Except.ok none,
          insertError := none, predictions := [] }
        { id := 1, customer_id := 1, asin := "B08N5WRWNW", title := "Echo Dot" }
        (Except.ok [{ price := some (1183 / 100) }, { price := some (169 / 10) }]) "t")).map
          (fun a => a.severity) = [Severity.high] := by
  refine ⟨by norm_num, by decide!, by decide!⟩

/-- C2 (amended): for an observation pair, let c and p be the current and the previous price
as the source holds them (the doubles nearest to the stored decimals, 0 for a missing price),
d = c - p and q = d / p * 100 the change and the percent change as the source computes them,
every operation rounded to binary64. If p > 0, q <= -10 and |d| >= 5, then the alert list of
the detector (default thresholds) has exactly one `price_drop` alert; it carries c, p, d and
q, and its severity is `calculateAlertSeverity` of q, which is critical for |q| >= 30, high
for 20 <= |q| < 30 and medium otherwise. -/
theorem price_drop_alert_emitted_binary64 (an : Analytics) (asinRecord : ASINRecord)
    (latest previous : Observation) (rest : List Observation) (now : String)
    (c p d q : Double)
    (hc : c = (Binary64.parseFloat latest.price).orElse (Double.finite 0))
    (hp : p = (Binary64.parseFloat previous.price).orElse (Double.finite 0))
    (hd : d = c.sub p)
    (hq : q = (d.div p).mul (Double.finite 100))
    (hprev : p.gt (Double.finite 0) = true)
    (hpct : q.le (Double.finite (-10)) = true)
    (hamt : d.abs.ge (Double.finite 5) = true) :
    (Binary64.alertsOf (Binary64.analyzeASINPriceChanges Binary64.defaultService an asinRecord
        (Except.ok (latest :: previous :: rest)) now)).filter
        (fun a => decide (a.alertType = AlertType.price_drop)) =
      [{ asin := asinRecord.asin
         title := asinRecord.title
         alertType := AlertType.price_drop
         currentPrice := some c
         previousPrice := some p
         priceChange := some d
         priceChangePercent := some q
         couponAmount := none
         availability := none
         timestamp := now
         severity := Binary64.calculateAlertSeverity q }] ∧
      Binary64.calculateAlertSeverity q =
        (if q.abs.ge (Double.finite 30) then Severity.critical
         else if q.abs.ge (Double.finite 20) then Severity.high
         else Severity.medium) := by
  subst hc hp hd hq
  have hpc := binary64_calculatePriceChange_valid latest previous hprev
  have hdrop : Binary64.isSignificantPriceDrop Binary64.defaultService
      (Binary64.calculatePriceChange latest previous) = true := by
    rw [hpc]
    simp only [Binary64.isSignificantPriceDrop, binary64_defaultService_thresholds,
      Double.neg, Bool.not_true, Bool.false_eq_true, if_false, hpct, hamt, Bool.and_self]
  constructor
  · rw [binary64_alertsOf_analyze, hdrop]
    simp only [if_true, List.filter_append]
    have h1 : (if isCouponFlip latest previous then
        [Binary64.createCouponAlert asinRecord latest previous now] else []).filter
        (fun a => decide (a.alertType = AlertType.price_drop)) = [] := by
      split_ifs <;> simp [Binary64.createCouponAlert]
    have h2 : (if isBackInStock latest previous then
        [Binary64.createStockAlert asinRecord latest now] else []).filter
        (fun a => decide (a.alertType = AlertType.price_drop)) = [] := by
      split_ifs <;> simp [Binary64.createStockAlert]
    rw [h1, h2, hpc]
    simp [Binary64.createPriceDropAlert]
  · have habs := double_abs_ge_of_le_neg_ten _ hpct
    unfold Binary64.calculateAlertSeverity
    simp only [habs, if_true]

/-- Witness of C2: a drop from 49.99 to 39.99; the two doubles differ by exactly 10, the
computed percent change is -5630625659344989 / 2 ^ 48 (printed -20.004000800160032), and the
severity is high. -/
theorem price_drop_alert_emitted_binary64_witness :
    (Binary64.alertsOf (Binary64.analyzeASINPriceChanges Binary64.defaultService
        { initialized := false, generateMLFeatures := fun _ => Except.ok none,
          insertError := none, predictions := [] }
        { id := 1, customer_id := 1, asin := "B08N5WRWNW", title := "Echo Dot" }
        (Except.ok [{ price := some (3999 / 100) }, { price := some (4999 / 100) }])
        "t")).filter (fun a => decide (a.alertType = AlertType.price_drop)) =
      [{ asin := "B08N5WRWNW"
         title := "Echo Dot"
         alertType := AlertType.price_drop
         currentPrice := some (Double.finite (5628092159329567 / 2 ^ 47))
         previousPrice := some (Double.finite (7035467042882847 / 2 ^ 47))
         priceChange := some (Double.finite (-10))
         priceChangePercent := some (Double.finite (-5630625659344989 / 2 ^ 48))
         couponAmount := none
         availability := none
         timestamp := "t"
         severity := Severity.high }] :=
  (price_drop_alert_emitted_binary64
    { initialized := false, generateMLFeatures := fun _ => Except.ok none,
      insertError := none, predictions := [] }
    { id := 1, customer_id := 1, asin := "B08N5WRWNW", title := "Echo Dot" }
    { price := some (3999 / 100) } { price := some (4999 / 100) } [] "t"
    (Double.finite (5628092159329567 / 2 ^ 47)) (Double.finite (7035467042882847 / 2 ^ 47))
    (Double.finite (-10)) (Double.finite (-5630625659344989 / 2 ^ 48))
    (by decide!) (by decide!) (by decide!) (by decide!) (by decide!) (by decide!)
    (by decide!)).1.trans (by decide!)

/-! ## The scenario of the specification -/

/-- C4 (counterexample): in the scenario previous = (price 49.99, no coupon, 'out of stock'),
latest = (price 39.99, coupon of 5, 'in stock') it is not the case that the detector returns
the kinds price_drop, coupon_added, back_in_stock with a `price_drop` alert of severity
medium: the percent change is -100000/4999 (about -20.004), whose absolute value is at
least 20, so the severity is high. -/
theorem scenario_price_drop_not_medium :
    ¬ ((alertsOf (analyzeASINPriceChanges defaultService
          { initialized := false, generateMLFeatures := fun _ => Except.ok none,
            insertError := none, predictions := [] }
          { id := 1, customer_id := 1, asin := "B08N5WRWNW", title := "Echo Dot" }
          (Except.ok
            [{ price := some 39.99, has_coupon := true, coupon_amount := some 5,
               availability := some "in stock" },
             { price := some 49.99, has_coupon := false,
               availability := some "out of stock" }]) "t")).map (fun a => a.alertType) =
        [AlertType.price_drop, AlertType.coupon_added, AlertType.back_in_stock] ∧
      ∀ a ∈ alertsOf (analyzeASINPriceChanges defaultService
          { initialized := false, generateMLFeatures := fun _ => Except.ok none,
            insertError := none, predictions := [] }
          { id := 1, customer_id := 1, asin := "B08N5WRWNW", title := "Echo Dot" }
          (Except.ok
            [{ price := some 39.99, has_coupon := true, coupon_amount := some 5,
               availability := some "in stock" },
             { price := some 49.99, has_coupon := false,
               availability := some "out of stock" }]) "t"),
        a.alertType = AlertType.price_drop → a.severity = Severity.medium) := by
  rintro ⟨-, hsev⟩
  have hdrop : isSignificantPriceDrop defaultService
      (calculatePriceChange
        { price := some 39.99, has_coupon := true, coupon_amount := some 5,
          availability := some "in stock" }
        { price := some 49.99, has_coupon := false,
          availability := some "out of stock" }) = true := by
    rw [isSignificantPriceDrop_default_iff]
    norm_num [parseFloatOr, abs_of_neg]
  have hmem := (mem_alertsOf_analyze defaultService
    { initialized := false, generateMLFeatures := fun _ => Except.ok none,
      insertError := none, predictions := [] }
    { id := 1, customer_id := 1, asin := "B08N5WRWNW", title := "Echo Dot" }
    { price := some 39.99, has_coupon := true, coupon_amount := some 5,
      availability := some "in stock" }
    { price := some 49.99, has_coupon := false, availability := some "out of stock" } [] "t"
    _).mpr (Or.inl ⟨hdrop, rfl⟩)
  have h := hsev _ hmem rfl
  norm_num [createPriceDropAlert, calculatePriceChange, parseFloatOr, calculateAlertSeverity,
    abs_of_neg] at h
  cases h

/-- C4 (amended): in the scenario previous = (price 49.99, no coupon, 'out of stock'),
latest = (price 39.99, coupon of 5, 'in stock') the detector returns exactly three alerts, in
the order price_drop, coupon_added, back_in_stock, of severities high, medium and low; the
percent change carried by the `price_drop` alert is -100000/4999. -/
theorem scenario_three_alerts (an : Analytics) (asinRecord : ASINRecord)
    (rest : List Observation) (now : String) :
    (alertsOf (analyzeASINPriceChanges defaultService an asinRecord
        (Except.ok
          ({ price := some 39.99, has_coupon := true, coupon_amount := some 5,
             availability := some "in stock" } ::
           { price := some 49.99, has_coupon := false,
             availability := some "out of stock" } :: rest)) now)).map
        (fun a => (a.alertType, a.severity, a.priceChangePercent)) =
      [(AlertType.price_drop, Severity.high, some (-100000 / 4999)),
       (AlertType.coupon_added, Severity.medium, none),
       (AlertType.back_in_stock, Severity.low, none)] := by
  rw [alertsOf_analyze]
  have hdrop : isSignificantPriceDrop defaultService
      (calculatePriceChange
        { price := some 39.99, has_coupon := true, coupon_amount := some 5,
          availability := some "in stock" }
        { price := some 49.99, has_coupon := false,
          availability := some "out of stock" }) = true := by
    rw [isSignificantPriceDrop_default_iff]
    norm_num [parseFloatOr, abs_of_neg]
  rw [hdrop]
  norm_num [createPriceDropAlert, createCouponAlert, createStockAlert, calculatePriceChange,
    parseFloatOr, calculateAlertSeverity, abs_of_neg, isCouponFlip, isBackInStock]

/-! ## Severity buckets -/

/-- C5: for every percent p, `calculateAlertSeverity p` is critical exactly when |p| >= 30,
high exactly when 20 <= |p| < 30, medium exactly when 10 <= |p| < 20 and low exactly when
|p| < 10; the four conditions are exhaustive and mutually exclusive. -/
theorem calculateAlertSeverity_buckets (p : ℚ) :
    (calculateAlertSeverity p = Severity.critical ↔ |p| ≥ 30) ∧
      (calculateAlertSeverity p = Severity.high ↔ 20 ≤ |p| ∧ |p| < 30) ∧
      (calculateAlertSeverity p = Severity.medium ↔ 10 ≤ |p| ∧ |p| < 20) ∧
      (calculateAlertSeverity p = Severity.low ↔ |p| < 10) := by
  unfold calculateAlertSeverity
  simp only []
  split_ifs with h1 h2 h3
  · refine ⟨by simp [h1], ?_, ?_, ?_⟩
    · constructor
      · intro h; cases h
      · intro h; linarith [h.2]
    · constructor
      · intro h; cases h
      · intro h; linarith [h.2]
    · constructor
      · intro h; cases h
      · intro h; linarith
  · refine ⟨?_, ?_, ?_, ?_⟩
    · constructor
      · intro h; cases h
      · intro h; exact absurd h h1
    · constructor
      · intro _; exact ⟨h2, lt_of_not_ge h1⟩
      · intro _; rfl
    · constructor
      · intro h; cases h
      · intro h; linarith [h.2]
    · constructor
      · intro h; cases h
      · intro h; linarith
  · refine ⟨?_, ?_, ?_, ?_⟩
    · constructor
      · intro h; cases h
      · intro h; exact absurd h h1
    · constructor
      · intro h; cases h
      · intro h; exact absurd h.1 h2
    · constructor
      · intro _; exact ⟨h3, lt_of_not_ge h2⟩
      · intro _; rfl
    · constructor
      · intro h; cases h
      · intro h; linarith
  · refine ⟨?_, ?_, ?_, ?_⟩
    · constructor
      · intro h; cases h
      · intro h; exact absurd h h1
    · constructor
      · intro h; cases h
      · intro h; exact absurd h.1 h2
    · constructor
      · intro h; cases h
      · intro h; exact absurd h.1 h3
    · constructor
      · intro _; exact lt_of_not_ge h3
      · intro _; rfl

/-! ## The coupon and stock rules -/

/-- C6: for every observation pair, the alert list of the detector holds a `coupon_added`
alert if and only if `has_coupon` is false on the previous observation and true on the
latest one, and every `coupon_added` alert of the list has severity medium. -/
theorem coupon_added_iff (svc : PriceDetectionService) (an : Analytics)
    (asinRecord : ASINRecord) (latest previous : Observation) (rest : List Observation)
    (now : String) :
    ((∃ a ∈ alertsOf (analyzeASINPriceChanges svc an asinRecord
          (Except.ok (latest :: previous :: rest)) now),
        a.alertType = AlertType.coupon_added) ↔
      previous.has_coupon = false ∧ latest.has_coupon = true) ∧
    (∀ a ∈ alertsOf (analyzeASINPriceChanges svc an asinRecord
          (Except.ok (latest :: previous :: rest)) now),
        a.alertType = AlertType.coupon_added → a.severity = Severity.medium) := by
  constructor
  · rw [← isCouponFlip_iff]
    constructor
    · rintro ⟨a, ha, hty⟩
      rw [mem_alertsOf_analyze] at ha
      rcases ha with ⟨_, rfl⟩ | ⟨hf, _⟩ | ⟨_, rfl⟩
      · simp [createPriceDropAlert] at hty
      · exact hf
      · simp [createStockAlert] at hty
    · intro hf
      refine ⟨createCouponAlert asinRecord latest previous now, ?_, rfl⟩
      rw [mem_alertsOf_analyze]
      exact Or.inr (Or.inl ⟨hf, rfl⟩)
  · intro a ha hty
    rw [mem_alertsOf_analyze] at ha
    rcases ha with ⟨_, rfl⟩ | ⟨_, rfl⟩ | ⟨_, rfl⟩
    · simp [createPriceDropAlert] at hty
    · rfl
    · simp [createStockAlert] at hty

/-- C7: for every observation pair, the alert list of the detector holds a `back_in_stock`
alert if and only if the previous availability is 'out of stock' or 'unavailable' and the
latest availability is 'in stock', and every `back_in_stock` alert of the list has severity
low. -/
theorem back_in_stock_iff (svc : PriceDetectionService) (an : Analytics)
    (asinRecord : ASINRecord) (latest previous : Observation) (rest : List Observation)
    (now : String) :
    ((∃ a ∈ alertsOf (analyzeASINPriceChanges svc an asinRecord
          (Except.ok (latest :: previous :: rest)) now),
        a.alertType = AlertType.back_in_stock) ↔
      (previous.availability = some "out of stock" ∨
        previous.availability = some "unavailable") ∧
      latest.availability = some "in stock") ∧
    (∀ a ∈ alertsOf (analyzeASINPriceChanges svc an asinRecord
          (Except.ok (latest :: previous :: rest)) now),
        a.alertType = AlertType.back_in_stock → a.severity = Severity.low) := by
  constructor
  · rw [← isBackInStock_iff]
    constructor
    · rintro ⟨a, ha, hty⟩
      rw [mem_alertsOf_analyze] at ha
      rcases ha with ⟨_, rfl⟩ | ⟨_, rfl⟩ | ⟨hs, _⟩
      · simp [createPriceDropAlert] at hty
      · simp [createCouponAlert] at hty
      · exact hs
    · intro hs
      refine ⟨createStockAlert asinRecord latest now, ?_, rfl⟩
      rw [mem_alertsOf_analyze]
      exact Or.inr (Or.inr ⟨hs, rfl⟩)
  · intro a ha hty
    rw [mem_alertsOf_analyze] at ha
    rcases ha with ⟨_, rfl⟩ | ⟨_, rfl⟩ | ⟨_, rfl⟩
    · simp [createPriceDropAlert] at hty
    · simp [createCouponAlert] at hty
    · rfl

/-! ## Composition of the three rules -/

/-- C8: for every history of at least two observations the detector returns without an
exception, and the kinds of its alerts are the sub-sequence of
[price_drop, coupon_added, back_in_stock] selected by the three rule tests on the two newest
observations, each test being evaluated on its own: the order is fixed, no kind occurs
twice, the list has at most 3 elements, and it is empty exactly when no test succeeds. -/
theorem alerts_are_matching_rules (svc : PriceDetectionService) (an : Analytics)
    (asinRecord : ASINRecord) (latest previous : Observation) (rest : List Observation)
    (now : String) :
    ∃ p, analyzeASINPriceChanges svc an asinRecord
        (Except.ok (latest :: previous :: rest)) now = Except.ok p ∧
      p.1.alerts.map (fun a => a.alertType) =
        (if isSignificantPriceDrop svc (calculatePriceChange latest previous) then
            [AlertType.price_drop] else []) ++
        ((if isCouponFlip latest previous then [AlertType.coupon_added] else []) ++
        (if isBackInStock latest previous then [AlertType.back_in_stock] else [])) ∧
      (p.1.alerts.map (fun a => a.alertType)).Sublist
        [AlertType.price_drop, AlertType.coupon_added, AlertType.back_in_stock] ∧
      (p.1.alerts.map (fun a => a.alertType)).Nodup ∧
      p.1.alerts.length ≤ 3 ∧
      (p.1.alerts = [] ↔
        isSignificantPriceDrop svc (calculatePriceChange latest previous) = false ∧
        isCouponFlip latest previous = false ∧ isBackInStock latest previous = false) := by
  have hal := alertsOf_analyze svc an asinRecord latest previous rest now
  obtain ⟨p, hp⟩ : ∃ p, analyzeASINPriceChanges svc an asinRecord
      (Except.ok (latest :: previous :: rest)) now = Except.ok p := ⟨_, rfl⟩
  refine ⟨p, hp, ?_⟩
  rw [hp] at hal
  simp only [alertsOf] at hal
  rw [hal]
  cases isSignificantPriceDrop svc (calculatePriceChange latest previous) <;>
    cases isCouponFlip latest previous <;>
    cases isBackInStock latest previous <;>
    simp [createPriceDropAlert, createCouponAlert, createStockAlert]

/-! ## Drop probability -/

/-- C9: for every feature record, `calculateDropProbability` equals
min(1, 0.30 [price_volatility > 0.1] + 0.20 [drop_count > 3] + 0.15 [coupon_flips > 0] +
0.25 [avg_price_change < -5] + 0.10 [max_price_increase > 15]), and for volatility 0.15, drop
count 4, coupon flips 1, average price change -6 and max increase 20 it is exactly 1. -/
theorem calculateDropProbability_formula (features : Features)
    (priceHistory : List Observation) :
    calculateDropProbability features priceHistory =
        min 1 (0.30 * (if features.price_volatility.gt 0.1 then 1 else 0) +
          0.20 * (if features.drop_count.gt 3 then 1 else 0) +
          0.15 * (if features.coupon_flips.gt 0 then 1 else 0) +
          0.25 * (if features.avg_price_change.lt (-5) then 1 else 0) +
          0.10 * (if features.max_price_increase.gt 15 then 1 else 0)) ∧
      calculateDropProbability
          { price_volatility := JsNum.num 0.15, drop_count := JsNum.num 4,
            coupon_flips := JsNum.num 1, avg_price_change := JsNum.num (-6),
            max_price_increase := JsNum.num 20 } priceHistory = 1 := by
  constructor
  · rw [calculateDropProbability_eq, min_comm]
    congr 1
    cases features.price_volatility.gt 0.1 <;> cases features.drop_count.gt 3 <;>
      cases features.coupon_flips.gt 0 <;> cases features.avg_price_change.lt (-5) <;>
      cases features.max_price_increase.gt 15 <;> norm_num
  · rw [calculateDropProbability_eq]
    norm_num [JsNum.gt, JsNum.lt]

/-- C10: when each of the five indicators (volatility > 0.1, drop count > 3, coupon flips
> 0, average price change < -5, max increase > 15) that is on in a first feature record is
on in a second one, the probability of the second is at least that of the first; this
covers two records that differ in a single indicator, off in the first and on in the
second. Moreover the probability of every feature record lies in [0, 1]. -/
theorem calculateDropProbability_monotone (f g : Features) (fh gh : List Observation)
    (hvol : f.price_volatility.gt 0.1 = true → g.price_volatility.gt 0.1 = true)
    (hdrop : f.drop_count.gt 3 = true → g.drop_count.gt 3 = true)
    (hflip : f.coupon_flips.gt 0 = true → g.coupon_flips.gt 0 = true)
    (havg : f.avg_price_change.lt (-5) = true → g.avg_price_change.lt (-5) = true)
    (hinc : f.max_price_increase.gt 15 = true → g.max_price_increase.gt 15 = true) :
    calculateDropProbability f fh ≤ calculateDropProbability g gh ∧
      0 ≤ calculateDropProbability f fh ∧ calculateDropProbability f fh ≤ 1 ∧
      0 ≤ calculateDropProbability g gh ∧ calculateDropProbability g gh ≤ 1 := by
  have nonneg : ∀ (x : Features) (xh : List Observation),
      0 ≤ calculateDropProbability x xh := by
    intro x xh
    rw [calculateDropProbability_eq]
    apply le_min _ (by norm_num)
    have h1 := indicator_nonneg (x.price_volatility.gt 0.1) 0.3 (by norm_num)
    have h2 := indicator_nonneg (x.drop_count.gt 3) 0.2 (by norm_num)
    have h3 := indicator_nonneg (x.coupon_flips.gt 0) 0.15 (by norm_num)
    have h4 := indicator_nonneg (x.avg_price_change.lt (-5)) 0.25 (by norm_num)
    have h5 := indicator_nonneg (x.max_price_increase.gt 15) 0.1 (by norm_num)
    linarith
  have le_one : ∀ (x : Features) (xh : List Observation),
      calculateDropProbability x xh ≤ 1 := by
    intro x xh
    rw [calculateDropProbability_eq]
    exact min_le_right _ _
  refine ⟨?_, nonneg f fh, le_one f fh, nonneg g gh, le_one g gh⟩
  rw [calculateDropProbability_eq, calculateDropProbability_eq]
  apply min_le_min _ (le_refl _)
  have h1 := indicator_le_indicator _ _ 0.3 (by norm_num) hvol
  have h2 := indicator_le_indicator _ _ 0.2 (by norm_num) hdrop
  have h3 := indicator_le_indicator _ _ 0.15 (by norm_num) hflip
  have h4 := indicator_le_indicator _ _ 0.25 (by norm_num) havg
  have h5 := indicator_le_indicator _ _ 0.1 (by norm_num) hinc
  linarith

/-- Witness of C10: a record whose only indicator is the drop count (probability 0.2)
against the same record with a volatility of 0.15 added (probability 0.5). -/
theorem calculateDropProbability_monotone_witness :
    calculateDropProbability { drop_count := JsNum.num 4 } [] ≤
        calculateDropProbability
          { drop_count := JsNum.num 4, price_volatility := JsNum.num 0.15 } [] ∧
      calculateDropProbability { drop_count := JsNum.num 4 } [] = 0.2 ∧
      calculateDropProbability
          { drop_count := JsNum.num 4, price_volatility := JsNum.num 0.15 } [] = 0.5 := by
  refine ⟨(calculateDropProbability_monotone { drop_count := JsNum.num 4 }
    { drop_count := JsNum.num 4, price_volatility := JsNum.num 0.15 } [] []
    (by norm_num [JsNum.gt]) (by norm_num [JsNum.gt]) (by norm_num [JsNum.gt])
    (by norm_num [JsNum.lt]) (by norm_num [JsNum.gt])).1, ?_, ?_⟩
  · rw [calculateDropProbability_eq]
    norm_num [JsNum.gt, JsNum.lt]
  · rw [calculateDropProbability_eq]
    norm_num [JsNum.gt, JsNum.lt]

/-! ## Expected drop and confidence -/

/-- C11: for every feature record, `calculateExpectedDrop` equals
min((|avg_price_change| + |max_price_drop|) / 2, 50), where a missing field (`null` or
`undefined`) counts as 0, and the result lies in [0, 50]. -/
theorem calculateExpectedDrop_formula (features : Features) (priceHistory : List Observation) :
    calculateExpectedDrop features priceHistory =
        min ((|features.avg_price_change.orZero| + |features.max_price_drop.orZero|) / 2) 50 ∧
      (∀ q : ℚ, (JsNum.num q).orZero = q) ∧
      JsNum.null.orZero = 0 ∧ JsNum.undefined.orZero = 0 ∧
      0 ≤ calculateExpectedDrop features priceHistory ∧
      calculateExpectedDrop features priceHistory ≤ 50 := by
  refine ⟨rfl, fun _ => rfl, rfl, rfl, ?_, ?_⟩
  · unfold calculateExpectedDrop
    apply le_min _ (by norm_num)
    have h1 := abs_nonneg features.avg_price_change.orZero
    have h2 := abs_nonneg features.max_price_drop.orZero
    positivity
  · unfold calculateExpectedDrop
    exact min_le_right _ _

/-- C12: with n the data-point count of a feature record (a missing count is 0),
`calculateConfidence` is 0.3 exactly when n < 5, 0.6 exactly when 5 <= n < 20, 0.8 exactly
when 20 <= n < 50 and 0.9 exactly when n >= 50; it lies in [0, 1] and does not decrease when
n grows. -/
theorem calculateConfidence_buckets (features : Features) :
    (calculateConfidence features = 0.3 ↔ features.data_points.orZero < 5) ∧
      (calculateConfidence features = 0.6 ↔
        5 ≤ features.data_points.orZero ∧ features.data_points.orZero < 20) ∧
      (calculateConfidence features = 0.8 ↔
        20 ≤ features.data_points.orZero ∧ features.data_points.orZero < 50) ∧
      (calculateConfidence features = 0.9 ↔ 50 ≤ features.data_points.orZero) ∧
      JsNum.null.orZero = 0 ∧ JsNum.undefined.orZero = 0 ∧
      0 ≤ calculateConfidence features ∧ calculateConfidence features ≤ 1 ∧
      ∀ other : Features, features.data_points.orZero ≤ other.data_points.orZero →
        calculateConfidence features ≤ calculateConfidence other := by
  refine ⟨?_, ?_, ?_, ?_, rfl, rfl, ?_, ?_, ?_⟩
  · unfold calculateConfidence
    simp only []
    split_ifs with h1 h2 h3
    · simp [h1]
    · constructor
      · intro h; norm_num at h
      · intro h; exact absurd h h1
    · constructor
      · intro h; norm_num at h
      · intro h; exact absurd h h1
    · constructor
      · intro h; norm_num at h
      · intro h; exact absurd h h1
  · unfold calculateConfidence
    simp only []
    split_ifs with h1 h2 h3
    · constructor
      · intro h; norm_num at h
      · intro h; linarith [h.1]
    · constructor
      · intro _; exact ⟨le_of_not_lt h1, h2⟩
      · intro _; rfl
    · constructor
      · intro h; norm_num at h
      · intro h; exact absurd h.2 h2
    · constructor
      · intro h; norm_num at h
      · intro h; exact absurd h.2 h2
  · unfold calculateConfidence
    simp only []
    split_ifs with h1 h2 h3
    · constructor
      · intro h; norm_num at h
      · intro h; linarith [h.1]
    · constructor
      · intro h; norm_num at h
      · intro h; linarith [h.1]
    · constructor
      · intro _; exact ⟨le_of_not_lt h2, h3⟩
      · intro _; rfl
    · constructor
      · intro h; norm_num at h
      · intro h; exact absurd h.2 h3
  · unfold calculateConfidence
    simp only []
    split_ifs with h1 h2 h3
    · constructor
      · intro h; norm_num at h
      · intro h; linarith
    · constructor
      · intro h; norm_num at h
      · intro h; linarith
    · constructor
      · intro h; norm_num at h
      · intro h; linarith
    · constructor
      · intro _; exact le_of_not_lt h3
      · intro _; rfl
  · unfold calculateConfidence
    simp only []
    split_ifs <;> norm_num
  · unfold calculateConfidence
    simp only []
    split_ifs <;> norm_num
  · intro other hle
    unfold calculateConfidence
    simp only []
    split_ifs <;> first | (exfalso; linarith) | norm_num

/-! ## Threat assessment -/

/-- C13 (counterexample): with the analytics store initialised and a feature query that
yields a snapshot, `generateThreatAssessment` still returns null, and stores nothing, when
the insert of the prediction throws: the exception is caught by the `catch` of the function. -/
theorem generateThreatAssessment_null_on_insert_error :
    generateThreatAssessment defaultService
        { initialized := true,
          generateMLFeatures := fun _ => Except.ok (some { data_points := JsNum.num 7 }),
          insertError := some "Conversion Error", predictions := [] }
        { id := 1, customer_id := 1, asin := "B08N5WRWNW", title := "Echo Dot" }
        [{ price := some 80 }, { price := some 100 }] "t" =
      (none,
        { initialized := true,
          generateMLFeatures := fun _ => Except.ok (some { data_points := JsNum.num 7 }),
          insertError := some "Conversion Error", predictions := [] }) := by
  simp [generateThreatAssessment, Analytics.storePrediction]

/-- C13 (amended): `generateThreatAssessment` returns null and leaves the store unchanged
when the analytics store is not initialised, when the feature query yields no snapshot or
throws, and when the insert of the prediction throws. When the store is initialised, the
query yields a snapshot and the insert succeeds, it returns an assessment whose
dropProbability, expectedDrop and confidence are the three scoring functions applied to that
snapshot and whose currentPrice is the newest observation's price (0 when it is missing),
and it appends that assessment to the stored predictions. -/
theorem generateThreatAssessment_cases (svc : PriceDetectionService) (an : Analytics)
    (asinRecord : ASINRecord) (priceHistory : List Observation) (now : String) :
    ((an.initialized = false ∨ an.generateMLFeatures asinRecord.id = Except.ok none ∨
        (∃ e, an.generateMLFeatures asinRecord.id = Except.error e)) →
      generateThreatAssessment svc an asinRecord priceHistory now = (none, an)) ∧
    (∀ features, an.initialized = true →
      an.generateMLFeatures asinRecord.id = Except.ok (some features) →
      (∀ e, an.insertError = some e →
        generateThreatAssessment svc an asinRecord priceHistory now = (none, an)) ∧
      (an.insertError = none →
        ∃ threat,
          generateThreatAssessment svc an asinRecord priceHistory now =
            (some threat,
              { an with predictions := an.predictions ++ [(asinRecord.id, threat)] }) ∧
          threat.dropProbability = calculateDropProbability features priceHistory ∧
          threat.expectedDrop = calculateExpectedDrop features priceHistory ∧
          threat.confidence = calculateConfidence features ∧
          threat.currentPrice =
            parseFloatOr (priceHistory.head?.bind fun o => o.price) 0)) := by
  constructor
  · rintro (h | h | ⟨e, h⟩)
    · simp [generateThreatAssessment, h]
    · unfold generateThreatAssessment
      rw [h]
      split_ifs <;> rfl
    · unfold generateThreatAssessment
      rw [h]
      split_ifs <;> rfl
  · intro features hinit hq
    constructor
    · intro e he
      simp [generateThreatAssessment, hinit, hq, Analytics.storePrediction, he]
    · intro hnone
      refine ⟨{ asin := asinRecord.asin
                title := asinRecord.title
                currentPrice := parseFloatOr (priceHistory.head?.bind fun o => o.price) 0
                dropProbability := calculateDropProbability features priceHistory
                expectedDrop := calculateExpectedDrop features priceHistory
                confidence := calculateConfidence features
                features :=
                  { avgPriceChange := features.avg_price_change.orZero
                    priceVolatility := features.price_volatility.orZero
                    dropCount := features.drop_count.orZero
                    couponFlips := features.coupon_flips.orZero }
                timestamp := now }, ?_, rfl, rfl, rfl, rfl⟩
      simp [generateThreatAssessment, hinit, hq, Analytics.storePrediction, hnone]

/-- Witness of C13 (amended): an initialised store whose query yields a snapshot with 7 data
points and whose insert succeeds; the newest price is 80. -/
theorem generateThreatAssessment_cases_witness :
    ∃ threat,
      (generateThreatAssessment defaultService
          { initialized := true,
            generateMLFeatures := fun _ => Except.ok (some { data_points := JsNum.num 7 }),
            insertError := none, predictions := [] }
          { id := 1, customer_id := 1, asin := "B08N5WRWNW", title := "Echo Dot" }
          [{ price := some 80 }, { price := some 100 }] "t").1 = some threat ∧
        threat.confidence = 0.6 ∧ threat.currentPrice = 80 := by
  obtain ⟨threat, h, -, -, hc, hp⟩ := ((generateThreatAssessment_cases defaultService
    { initialized := true,
      generateMLFeatures := fun _ => Except.ok (some { data_points := JsNum.num 7 }),
      insertError := none, predictions := [] }
    { id := 1, customer_id := 1, asin := "B08N5WRWNW", title := "Echo Dot" }
    [{ price := some 80 }, { price := some 100 }] "t").2
      { data_points := JsNum.num 7 } rfl rfl).2 rfl
  refine ⟨threat, by rw [h], ?_, ?_⟩
  · rw [hc]
    norm_num [calculateConfidence, JsNum.orZero]
  · rw [hp]
    norm_num [parseFloatOr]

/-! ## Volatility -/

/-- C14: for a runtime whose `Math.sqrt(0)` is 0, `calculatePriceVolatility` returns exactly
0 for every history of three observations priced 100, for the empty history, for a missing
history, and for every history with at most one positive price; and for every history
whatsoever the result is a finite number: the divisions by the count and by the mean and the
square root are only reached with a count of at least 2, a positive mean and a non-negative
variance. -/
theorem calculatePriceVolatility_guarded (rt : Runtime) (hsqrt : rt.sqrt 0 = 0) :
    (∀ a b c : Observation, a.price = some 100 → b.price = some 100 → c.price = some 100 →
        calculatePriceVolatility rt (some [a, b, c]) = some 0) ∧
      calculatePriceVolatility rt (some []) = some 0 ∧
      calculatePriceVolatility rt none = some 0 ∧
      (∀ l : List Observation,
        ((l.filterMap fun p => p.price).filter fun v => decide (v > 0)).length ≤ 1 →
        calculatePriceVolatility rt (some l) = some 0) ∧
      (∀ h : Option (List Observation), ∃ v, calculatePriceVolatility rt h = some v) := by
  refine ⟨?_, ?_, rfl, ?_, ?_⟩
  · intro a b c ha hb hc
    have hp : positivePricesOfFirstTen [a, b, c] = [100, 100, 100] := by
      simp [positivePricesOfFirstTen, ha, hb, hc]
    rw [calculatePriceVolatility_eq rt [a, b, c] (by simp) (by simp [hp]), hp]
    have hm : mean [100, 100, 100] = 100 := by norm_num [mean]
    have hv : populationVariance [100, 100, 100] = 0 := by
      simp [populationVariance, hm]
    rw [hv, hsqrt]
    simp
  · exact calculatePriceVolatility_zero rt [] (Or.inl (by simp))
  · intro l hl
    apply calculatePriceVolatility_zero rt l
    right
    have hsub : (positivePricesOfFirstTen l).Sublist
        ((l.filterMap fun p => p.price).filter fun v => decide (v > 0)) := by
      unfold positivePricesOfFirstTen
      exact ((List.take_sublist 10 l).filterMap _).filter _
    have := hsub.length_le
    omega
  · intro h
    cases h with
    | none => exact ⟨0, rfl⟩
    | some l =>
      by_cases hz : l.length < 3 ∨ (positivePricesOfFirstTen l).length < 2
      · exact ⟨0, calculatePriceVolatility_zero rt l hz⟩
      · rw [not_or] at hz
        exact ⟨_, calculatePriceVolatility_eq rt l (by omega) (by omega)⟩

/-- Witness of C14, for the runtime whose square root is exact on squares. -/
theorem calculatePriceVolatility_guarded_witness :
    calculatePriceVolatility exactRuntime
        (some [{ price := some 100 }, { price := some 100 }, { price := some 100 }]) = some 0 ∧
      calculatePriceVolatility exactRuntime
        (some [{ price := some 100 }, { price := none }, { price := some (-3) },
          { price := some 0 }]) = some 0 :=
  have h := calculatePriceVolatility_guarded exactRuntime exactRuntime_sqrt_zero
  ⟨h.1 _ _ _ rfl rfl rfl, h.2.2.2.1 _ (by simp)⟩

/-- C15 (counterexample): for the history of two observations priced 100 and 50, two
positive prices survive the filtering and the population standard deviation over the mean is
25 / 75 = 1/3, but `calculatePriceVolatility` returns 0, because the history has fewer than 3
entries. -/
theorem calculatePriceVolatility_two_entries :
    calculatePriceVolatility exactRuntime (some [{ price := some 100 }, { price := some 50 }]) =
        some 0 ∧
      (positivePricesOfFirstTen [{ price := some 100 }, { price := some 50 }]).length = 2 ∧
      specVolatility exactRuntime [{ price := some 100 }, { price := some 50 }] = 1 / 3 ∧
      calculatePriceVolatility exactRuntime
          (some [{ price := some 100 }, { price := some 50 }]) ≠
        some (specVolatility exactRuntime [{ price := some 100 }, { price := some 50 }]) := by
  have hp : positivePricesOfFirstTen [{ price := some 100 }, { price := some 50 }] =
      [100, 50] := by
    simp [positivePricesOfFirstTen]
  have hm : mean [100, 50] = 75 := by norm_num [mean]
  have hv : populationVariance [100, 50] = 625 := by
    norm_num [populationVariance, hm]
  have hspec : specVolatility exactRuntime [{ price := some 100 }, { price := some 50 }] =
      1 / 3 := by
    unfold specVolatility populationStdDev
    rw [hp, hm, hv, exactRuntime_sqrt_625]
    norm_num
  have hcode : calculatePriceVolatility exactRuntime
      (some [{ price := some 100 }, { price := some 50 }]) = some 0 :=
    calculatePriceVolatility_zero _ _ (Or.inl (by simp))
  refine ⟨hcode, by rw [hp]; rfl, hspec, ?_⟩
  rw [hcode, hspec]
  norm_num

/-- C15 (amended): for every newest-first history of at least 3 entries,
`calculatePriceVolatility` equals the population standard deviation of the positive prices
among the first 10 entries divided by their mean, and equals 0 whenever fewer than 2
positive prices survive that filtering; for a history of fewer than 3 entries, and for a
missing history, it equals 0. -/
theorem calculatePriceVolatility_spec (rt : Runtime) (l : List Observation) :
    (3 ≤ l.length → calculatePriceVolatility rt (some l) = some (specVolatility rt l)) ∧
      (3 ≤ l.length → 2 ≤ (positivePricesOfFirstTen l).length →
        calculatePriceVolatility rt (some l) =
          some (populationStdDev rt (positivePricesOfFirstTen l) /
            mean (positivePricesOfFirstTen l))) ∧
      ((positivePricesOfFirstTen l).length < 2 →
        calculatePriceVolatility rt (some l) = some 0) ∧
      (l.length < 3 → calculatePriceVolatility rt (some l) = some 0) ∧
      calculatePriceVolatility rt none = some 0 := by
  refine ⟨?_, ?_, ?_, ?_, rfl⟩
  · intro hlen
    unfold specVolatility
    split_ifs with h
    · exact calculatePriceVolatility_zero rt l (Or.inr h)
    · exact calculatePriceVolatility_eq rt l hlen (by omega)
  · intro hlen hp
    exact calculatePriceVolatility_eq rt l hlen hp
  · intro h
    exact calculatePriceVolatility_zero rt l (Or.inr h)
  · intro h
    exact calculatePriceVolatility_zero rt l (Or.inl h)

/-- Witness of C15 (amended): three observations priced 100, 50 and missing; the volatility
is 25 / 75 = 1/3. -/
theorem calculatePriceVolatility_spec_witness :
    calculatePriceVolatility exactRuntime
        (some [{ price := some 100 }, { price := some 50 }, { price := none }]) =
      some (1 / 3) := by
  have hp : positivePricesOfFirstTen
      [{ price := some 100 }, { price := some 50 }, { price := none }] = [100, 50] := by
    simp [positivePricesOfFirstTen]
  rw [(calculatePriceVolatility_spec exactRuntime
    [{ price := some 100 }, { price := some 50 }, { price := none }]).2.1 (by simp)
    (by rw [hp]; simp)]
  have hm : mean [100, 50] = 75 := by norm_num [mean]
  have hv : populationVariance [100, 50] = 625 := by
    norm_num [populationVariance, hm]
  unfold populationStdDev
  rw [hp, hm, hv, exactRuntime_sqrt_625]
  norm_num

/-! ## Feature snapshots -/

/-- C16 (counterexample): it is not the case that every window with fewer than 3 positive
prices has volatility 0 (the window priced 100, 50, missing has two positive prices and
volatility 1/3), nor that `extractPriceFeatures` returns null without writing on every such
window (on the window priced 100, 50 it returns a snapshot and writes it). -/
theorem fewer_than_three_prices_not_guarded :
    (¬ ∀ l : List Observation,
        ((l.filterMap fun p => p.price).filter fun v => decide (v > 0)).length < 3 →
        calculatePriceVolatility exactRuntime (some l) = some 0) ∧
      (¬ ∀ l : List Observation,
        ((l.filterMap fun p => p.price).filter fun v => decide (v > 0)).length < 3 →
        (extractPriceFeatures exactRuntime
            { initialized := true, generateMLFeatures := fun _ => Except.ok none,
              insertError := none, predictions := [] } (some l)).1 = Except.ok none) := by
  constructor
  · intro h
    have h1 := h [{ price := some 100 }, { price := some 50 }, { price := none }] (by simp)
    have hp : positivePricesOfFirstTen
        [{ price := some 100 }, { price := some 50 }, { price := none }] = [100, 50] := by
      simp [positivePricesOfFirstTen]
    rw [calculatePriceVolatility_eq exactRuntime _ (by simp) (by rw [hp]; simp)] at h1
    have hm : mean [100, 50] = 75 := by norm_num [mean]
    have hv : populationVariance [100, 50] = 625 := by
      norm_num [populationVariance, hm]
    rw [hp, hm, hv, exactRuntime_sqrt_625] at h1
    norm_num at h1
  · intro h
    have h1 := h [{ price := some 100 }, { price := some 50 }] (by simp)
    rw [extractPriceFeatures_cons] at h1
    simp at h1

/-- C16 (amended): for every observation window with fewer than 3 observations, or with
fewer than 2 positive prices among its 10 newest observations, the volatility computed by
`calculatePriceVolatility` is 0; `extractPriceFeatures` returns null without handing anything
to the store when the window is missing or has fewer than 2 observations, and for every
window of at least 2 observations, whatever its prices, it hands a snapshot to the store and
does not return null. -/
theorem volatility_and_snapshot_guards (rt : Runtime) (an : Analytics)
    (l : List Observation) :
    ((l.length < 3 ∨ (positivePricesOfFirstTen l).length < 2) →
        calculatePriceVolatility rt (some l) = some 0) ∧
      (l.length < 2 → extractPriceFeatures rt an (some l) = (Except.ok none, an)) ∧
      extractPriceFeatures rt an none = (Except.ok none, an) ∧
      (2 ≤ l.length →
        (extractPriceFeatures rt an (some l)).1 ≠ Except.ok none ∧
        (extractPriceFeatures rt an (some l)).2.upsertsIssued.length =
          an.upsertsIssued.length + 1) := by
  refine ⟨calculatePriceVolatility_zero rt l, extractPriceFeatures_short rt an l, rfl, ?_⟩
  intro h
  match l, h with
  | latest :: previous :: rest, _ =>
    rw [extractPriceFeatures_cons]
    cases hi : an.initialized with
    | false => simp
    | true =>
      cases he : an.upsertError with
      | none => simp
      | some e => simp

/-- C17: `extractPriceFeatures` called with a missing history or with fewer than 2
observations returns null, hands nothing to the feature store and leaves its rows unchanged.
Called with 2 or more observations it hands exactly one upsert to the store, whose row is
keyed by the item id and the capture instant of the newest observation; when the store is
initialised and accepts it, that row replaces any row of the same key and is returned, and
otherwise the exception of the store is rethrown and no row changes. -/
theorem extractPriceFeatures_upsert (rt : Runtime) (an : Analytics) :
    extractPriceFeatures rt an none = (Except.ok none, an) ∧
      (∀ l : List Observation, l.length < 2 →
        extractPriceFeatures rt an (some l) = (Except.ok none, an)) ∧
      (∀ (latest previous : Observation) (rest : List Observation),
        ∃ row : PriceFeatures,
          (extractPriceFeatures rt an (some (latest :: previous :: rest))).2.upsertsIssued =
            an.upsertsIssued ++ [row] ∧
          row.asin_id = latest.asin_id ∧ row.timestamp = latest.scraped_at ∧
          (an.initialized = true → an.upsertError = none →
            (extractPriceFeatures rt an (some (latest :: previous :: rest))).1 =
              Except.ok (some row) ∧
            (extractPriceFeatures rt an (some (latest :: previous :: rest))).2.price_features =
              (an.price_features.filter fun r =>
                !(decide (r.asin_id = latest.asin_id) &&
                  decide (r.timestamp = latest.scraped_at))) ++ [row]) ∧
          ((an.initialized = false ∨ an.upsertError ≠ none) →
            (∃ e, (extractPriceFeatures rt an (some (latest :: previous :: rest))).1 =
              Except.error e) ∧
            (extractPriceFeatures rt an (some (latest :: previous :: rest))).2.price_features =
              an.price_features)) := by
  refine ⟨rfl, extractPriceFeatures_short rt an, ?_⟩
  intro latest previous rest
  refine ⟨buildPriceFeatures rt latest previous (latest :: previous :: rest), ?_, rfl, rfl,
    ?_, ?_⟩
  · rw [extractPriceFeatures_cons]
    cases hi : an.initialized with
    | false => simp
    | true =>
      cases he : an.upsertError with
      | none => simp
      | some e => simp
  · intro hi he
    rw [extractPriceFeatures_cons, hi, he]
    simp [upsertRow, buildPriceFeatures]
  · intro h
    rw [extractPriceFeatures_cons]
    cases hi : an.initialized with
    | false => simp
    | true =>
      cases he : an.upsertError with
      | none =>
        rcases h with h | h
        · rw [hi] at h; cases h
        · exact absurd he h
      | some e => simp

/-- C18: for every history of at least 2 observations, the snapshot that
`extractPriceFeatures` hands to the store, and returns when the store accepts it, has
price_delta = current - previous (a missing price counting as 0), price_delta_percent =
price_delta / previous * 100 when the previous price is positive, and price_delta_percent = 0
when the previous price is missing, zero or negative. -/
theorem extractPriceFeatures_delta (rt : Runtime) (an : Analytics)
    (latest previous : Observation) (rest : List Observation) :
    ∃ row : PriceFeatures,
      (extractPriceFeatures rt an (some (latest :: previous :: rest))).2.upsertsIssued =
        an.upsertsIssued ++ [row] ∧
      (an.initialized = true → an.upsertError = none →
        (extractPriceFeatures rt an (some (latest :: previous :: rest))).1 =
          Except.ok (some row)) ∧
      row.current_price = parseFloatOr latest.price 0 ∧
      row.previous_price = parseFloatOr previous.price 0 ∧
      row.price_delta = row.current_price - row.previous_price ∧
      (∀ v, previous.price = some v → 0 < v →
        row.previous_price = v ∧
        row.price_delta_percent = row.price_delta / row.previous_price * 100) ∧
      (∀ v, previous.price = some v → v ≤ 0 → row.price_delta_percent = 0) ∧
      (previous.price = none → row.price_delta_percent = 0) := by
  refine ⟨buildPriceFeatures rt latest previous (latest :: previous :: rest), ?_, ?_, rfl, rfl,
    rfl, ?_, ?_, ?_⟩
  · rw [extractPriceFeatures_cons]
    cases hi : an.initialized with
    | false => simp
    | true =>
      cases he : an.upsertError with
      | none => simp
      | some e => simp
  · intro hi he
    rw [extractPriceFeatures_cons, hi, he]
    simp
  · intro v hv hpos
    have hprev : parseFloatOr previous.price 0 = v := by
      simp [parseFloatOr, hv, hpos.ne']
    refine ⟨by simp [buildPriceFeatures, hprev], ?_⟩
    have hprev2 : parseFloatOr (some v) 0 = v := by rw [← hv]; exact hprev
    simp [buildPriceFeatures, hv, hpos, hprev2]
  · intro v hv hle
    simp [buildPriceFeatures, hv, not_lt.mpr hle]
  · intro hv
    simp [buildPriceFeatures, hv]

/-! ## Availability score -/

/-- C19 (evaluation at the failing inputs): `calculateAvailabilityScore` maps 'out of stock'
and 'unavailable' to 0.5, not to the 0.0 that its own table holds for them: the table entry
0.0 is falsy, so `scores[...] || 0.5` replaces it by the default. The other entries are
returned as the table has them ('In Stock', in any case of the letters, gives 1.0). -/
theorem calculateAvailabilityScore_out_of_stock :
    calculateAvailabilityScore (some "out of stock") = some 0.5 ∧
      calculateAvailabilityScore (some "unavailable") = some 0.5 ∧
      availabilityScores.lookup "out of stock" = some 0.0 ∧
      availabilityScores.lookup "unavailable" = some 0.0 ∧
      calculateAvailabilityScore (some "In Stock") = some 1.0 ∧
      calculateAvailabilityScore (some "limited") = some 0.7 := by
  have h1 : toLowerCase "out of stock" = "out of stock" := by decide
  have h2 : toLowerCase "unavailable" = "unavailable" := by decide
  have h3 : toLowerCase "In Stock" = "in stock" := by decide
  have h4 : toLowerCase "limited" = "limited" := by decide
  refine ⟨?_, ?_, ?_, ?_, ?_, ?_⟩
  · simp only [calculateAvailabilityScore, Option.map, h1]
    simp +decide [availabilityScores, List.lookup]
    norm_num
  · simp only [calculateAvailabilityScore, Option.map, h2]
    simp +decide [availabilityScores, List.lookup]
    norm_num
  · simp +decide [availabilityScores, List.lookup]
  · simp +decide [availabilityScores, List.lookup]
  · exact (calculateAvailabilityScore_of_key "In Stock").1 h3
  · exact (calculateAvailabilityScore_of_key "limited").2.1 h4

/-! ## Chunked fetching -/

/-- C20: for every list of N identifiers and every chunk size C >= 1, `chunkArray` returns
exactly ceil(N / C) chunks (none for N = 0), and `scrapeDirectly` returns after settling
these chunks one after another, in order, each once, with a sleep between two consecutive
chunks and nowhere else: ceil(N / C) - 1 sleeps when N > 0, and no sleep when N = 0. -/
theorem scrapeDirectly_chunks (svc : ScraperService)
    (scrapeASINDirect : Nat → String → Except String ScrapeResult) (random : Nat → ℚ)
    (now : String) (asins : List String) (hsize : 1 ≤ svc.maxConcurrent) :
    ∃ chunks r,
      chunkArray asins svc.maxConcurrent = some chunks ∧
      chunks.length = ⌈(asins.length : ℚ) / (svc.maxConcurrent : ℚ)⌉₊ ∧
      (asins.length = 0 → chunks.length = 0) ∧
      scrapeDirectly svc scrapeASINDirect random now asins = some r ∧
      r.2.filterMap ScrapeEvent.chunk? = chunks ∧
      r.2.Chain' (fun a b => a.isSleep ≠ b.isSleep) ∧
      r.2.head?.map ScrapeEvent.isSleep = chunks.head?.map (fun _ => false) ∧
      (0 < asins.length →
        (r.2.filter ScrapeEvent.isSleep).length =
          ⌈(asins.length : ℚ) / (svc.maxConcurrent : ℚ)⌉₊ - 1) ∧
      (asins.length = 0 → (r.2.filter ScrapeEvent.isSleep).length = 0) := by
  obtain ⟨chunks, hchunks, hlen⟩ := chunkArray_length asins svc.maxConcurrent hsize
  obtain ⟨h1, h2, h3, h4⟩ := scrapeDirectlyLoop_events scrapeASINDirect random now
    chunks.length chunks 0 0 (by simp)
  have hzero : asins.length = 0 → chunks.length = 0 := by
    intro h
    rw [hlen, h]
    simp
  refine ⟨chunks, scrapeDirectlyLoop scrapeASINDirect random now chunks.length 0 0 chunks,
    hchunks, hlen, hzero, ?_, h1, h4, h3, ?_, ?_⟩
  · simp [scrapeDirectly, hchunks]
  · intro _
    rw [h2, hlen]
  · intro h
    rw [h2, hzero h]

/-- Witness of C20: seven identifiers in chunks of 3 make 3 chunks and 2 sleeps. -/
theorem scrapeDirectly_chunks_witness :
    ∃ chunks r,
      chunkArray ["a", "b", "c", "d", "e", "f", "g"] 3 = some chunks ∧
      chunks.length = 3 ∧
      scrapeDirectly { maxConcurrent := 3 }
        (fun _ a => Except.ok { asin := a, success := true, timestamp := "t" })
        (fun _ => 0) "t" ["a", "b", "c", "d", "e", "f", "g"] = some r ∧
      (r.2.filter ScrapeEvent.isSleep).length = 2 := by
  obtain ⟨chunks, r, h1, h2, -, h3, -, -, -, h4, -⟩ := scrapeDirectly_chunks
    { maxConcurrent := 3 }
    (fun _ a => Except.ok { asin := a, success := true, timestamp := "t" })
    (fun _ => 0) "t" ["a", "b", "c", "d", "e", "f", "g"] (by decide)
  have hceil : ⌈((["a", "b", "c", "d", "e", "f", "g"] : List String).length : ℚ) /
      (((3 : Nat) : ℚ))⌉₊ = 3 := by
    rw [natCeil_div_eq _ _ (by decide)]
    rfl
  refine ⟨chunks, r, h1, ?_, h3, ?_⟩
  · rw [h2]; exact hceil
  · rw [h4 (by decide)]
    show ⌈((["a", "b", "c", "d", "e", "f", "g"] : List String).length : ℚ) /
      (((3 : Nat) : ℚ))⌉₊ - 1 = 2
    rw [hceil]

/-! ## Fetch results -/

/-- C21: for every list of identifiers, every chunk size of at least 1 and every outcome of
the fetch of each identifier (a value or an exception, chosen for each place of the list on
its own), `scrapeDirectly`, and likewise `scrapeASINs` of the worker, returns a list of the
length of the input whose slot i is the value of the fetch of identifier i when that fetch
succeeded, and otherwise the record (asin: identifier i, success: false, error: the message
of the exception, or 'Unknown error' for an empty one, timestamp); the slot at a place is
the same for any two assignments of outcomes that agree at that place. -/
theorem scrapeDirectly_slots (svc : ScraperService)
    (scrapeASINDirect : Nat → String → Except String ScrapeResult) (random : Nat → ℚ)
    (now : String) (asins : List String) (hsize : 1 ≤ svc.maxConcurrent) :
    ∃ r,
      scrapeDirectly svc scrapeASINDirect random now asins = some r ∧
      scrapeASINs svc.maxConcurrent scrapeASINDirect random now asins = some r ∧
      r.1.length = asins.length ∧
      (∀ (i : Nat) (asin : String), asins[i]? = some asin →
        (∀ value, scrapeASINDirect i asin = Except.ok value → r.1[i]? = some value) ∧
        (∀ message, scrapeASINDirect i asin = Except.error message →
          r.1[i]? = some
            { asin := asin
              success := false
              error := some (if message = "" then "Unknown error" else message)
              timestamp := now })) ∧
      (∀ (other : Nat → String → Except String ScrapeResult) (i : Nat) (asin : String),
        asins[i]? = some asin → other i asin = scrapeASINDirect i asin →
        ∃ r2, scrapeDirectly svc other random now asins = some r2 ∧ r2.1[i]? = r.1[i]?) := by
  obtain ⟨chunks, hchunks, hflat⟩ := chunkArray_flatten asins svc.maxConcurrent hsize
  have hres : ∀ f : Nat → String → Except String ScrapeResult,
      (scrapeDirectlyLoop f random now chunks.length 0 0 chunks).1 =
        settleChunk f now 0 asins := by
    intro f
    rw [scrapeDirectlyLoop_results, hflat]
  have hslot : ∀ (f : Nat → String → Except String ScrapeResult) (i : Nat) (asin : String),
      asins[i]? = some asin →
      (scrapeDirectlyLoop f random now chunks.length 0 0 chunks).1[i]? =
        some (settledSlot (f i asin) now asin) := by
    intro f i asin h
    rw [hres f, settleChunk_getElem? f now asins 0 i asin h, Nat.zero_add]
  refine ⟨scrapeDirectlyLoop scrapeASINDirect random now chunks.length 0 0 chunks, ?_, ?_, ?_,
    ?_, ?_⟩
  · simp [scrapeDirectly, hchunks]
  · simp [scrapeASINs, hchunks]
  · rw [hres, settleChunk_length]
  · intro i asin h
    constructor
    · intro value hv
      rw [hslot _ i asin h, hv]
      rfl
    · intro message hm
      rw [hslot _ i asin h, hm]
      rfl
  · intro other i asin h hsame
    refine ⟨scrapeDirectlyLoop other random now chunks.length 0 0 chunks, ?_, ?_⟩
    · simp [scrapeDirectly, hchunks]
    · rw [hslot other i asin h, hslot scrapeASINDirect i asin h, hsame]

/-- Witness of C21: three identifiers, two of them equal, in chunks of 2; the fetch at the
second place throws. -/
theorem scrapeDirectly_slots_witness :
    ∃ r,
      scrapeDirectly { maxConcurrent := 2 }
        (fun i a =>
          if i = 1 then Except.error "timeout"
          else Except.ok { asin := a, success := true, timestamp := "t" })
        (fun _ => 0) "now" ["a", "a", "c"] = some r ∧
      r.1.length = 3 ∧
      r.1[1]? = some { asin := "a", success := false, error := some "timeout",
                       timestamp := "now" } ∧
      r.1[2]? = some { asin := "c", success := true, timestamp := "t" } := by
  obtain ⟨r, h1, -, h2, h3, -⟩ := scrapeDirectly_slots { maxConcurrent := 2 }
    (fun i a =>
      if i = 1 then Except.error "timeout"
      else Except.ok { asin := a, success := true, timestamp := "t" })
    (fun _ => 0) "now" ["a", "a", "c"] (by decide)
  refine ⟨r, h1, h2, ?_, ?_⟩
  · have := (h3 1 "a" rfl).2 "timeout" rfl
    simpa using this
  · exact (h3 2 "c" rfl).1 _ rfl

/-! ## Chunks -/

/-- C28: for every array and every chunk size C >= 1, `chunkArray` (the same text in the
service and in the worker) leaves its loop, whatever number of iterations above the length
of the array it is allowed, and returns chunks whose concatenation is the array in order;
every chunk is non-empty, every chunk except possibly the last has exactly C elements, and
the last has between 1 and C elements. -/
theorem chunkArray_partition {α : Type} (array : List α) (size : Nat) (hsize : 1 ≤ size) :
    ∃ chunks,
      chunkArray array size = some chunks ∧
      (∀ fuel, array.length + 1 ≤ fuel →
        chunkArrayLoop array size fuel 0 [] = some chunks) ∧
      chunks.flatten = array ∧
      (∀ c ∈ chunks, c ≠ []) ∧
      (∀ c ∈ chunks.dropLast, c.length = size) ∧
      (∀ c, chunks.getLast? = some c → 1 ≤ c.length ∧ c.length ≤ size) := by
  obtain ⟨more, hmore, hjoin, hbound, hfull⟩ := chunkArrayLoop_chunks array size hsize
    (array.length + 1) 0 [] (chunkArray_fuel array size hsize)
  rw [List.nil_append] at hmore
  refine ⟨more, hmore, ?_, by simpa using hjoin, ?_, hfull, ?_⟩
  · intro fuel hfuel
    have fuelFree : ∀ (f1 f2 i : Nat) (acc : List (List α)),
        (array.length - i + size - 1) / size + 1 ≤ f1 →
        (array.length - i + size - 1) / size + 1 ≤ f2 →
        chunkArrayLoop array size f1 i acc = chunkArrayLoop array size f2 i acc := by
      intro f1
      induction f1 with
      | zero => intro f2 i acc h1 _; exact absurd h1 (Nat.not_succ_le_zero _)
      | succ f1 ih =>
        intro f2 i acc h1 h2
        cases f2 with
        | zero => exact absurd h2 (Nat.not_succ_le_zero _)
        | succ f2 =>
          unfold chunkArrayLoop
          by_cases hi : i < array.length
          · rw [if_pos hi, if_pos hi]
            have hstep := ceil_div_pred_step (array.length - i) size hsize (by omega)
            have e : array.length - (i + size) = array.length - i - size := by omega
            apply ih
            · rw [e]; rw [hstep] at h1; exact Nat.le_of_succ_le_succ h1
            · rw [e]; rw [hstep] at h2; exact Nat.le_of_succ_le_succ h2
          · rw [if_neg hi, if_neg hi]
    rw [fuelFree fuel (array.length + 1) 0 []
      (le_trans (chunkArray_fuel array size hsize) hfuel) (chunkArray_fuel array size hsize)]
    exact hmore
  · intro c hc hnil
    have := (hbound c hc).1
    rw [hnil] at this
    simp at this
  · intro c hc
    exact hbound c (List.mem_of_getLast?_eq_some hc)

/-- Witness of C28: seven elements in chunks of 3. -/
theorem chunkArray_partition_witness :
    chunkArray [1, 2, 3, 4, 5, 6, 7] 3 = some [[1, 2, 3], [4, 5, 6], [7]] ∧
      ∃ chunks, chunkArray [1, 2, 3, 4, 5, 6, 7] 3 = some chunks ∧
        chunks.flatten = [1, 2, 3, 4, 5, 6, 7] :=
  have h := chunkArray_partition [1, 2, 3, 4, 5, 6, 7] 3 (by decide)
  ⟨by decide, h.choose, h.choose_spec.1, h.choose_spec.2.2.1⟩

/-! ## Retries -/

/-- C22: for every number R >= 1 of attempts, a direct fetch whose R requests all fail makes
exactly the requests 1 to R, sleeps 1000 * k ms after the failure of request k for each
k < R and not after the last, and then throws the exception of request R; a fetch whose
requests before request s + 1 <= R fail and whose request s + 1 succeeds makes exactly the
requests 1 to s + 1, with the same sleeps between them, and returns the success record
built from the response. The function is total: its loop always ends. -/
theorem scrapeASINDirect_retries (svc : ScraperService)
    (fetch : Nat → Except String ProductData) (now asin : String)
    (hR : 1 ≤ svc.retryAttempts) :
    (∀ errors : Nat → String,
      (∀ k, k < svc.retryAttempts → fetch k = Except.error (errors k)) →
      scrapeASINDirect svc fetch now asin =
        (Except.error (errors (svc.retryAttempts - 1)),
          ((List.range (svc.retryAttempts - 1)).flatMap fun k =>
            [FetchEvent.requested (k + 1), FetchEvent.slept (1000 * (k + 1))]) ++
            [FetchEvent.requested svc.retryAttempts])) ∧
    (∀ (s : Nat) (productData : ProductData), s < svc.retryAttempts →
      (∀ k, k < s → ∃ e, fetch k = Except.error e) →
      fetch s = Except.ok productData →
      scrapeASINDirect svc fetch now asin =
        (Except.ok (some
            { asin := asin, success := true, data := some productData, timestamp := now }),
          ((List.range s).flatMap fun k =>
            [FetchEvent.requested (k + 1), FetchEvent.slept (1000 * (k + 1))]) ++
            [FetchEvent.requested (s + 1)])) := by
  constructor
  · intro errors hall
    unfold scrapeASINDirect
    rw [scrapeASINDirectLoop_failures svc fetch now asin (svc.retryAttempts - 1) 0 (by omega)
      (fun k _ hk => ⟨errors k, hall k (by omega)⟩)]
    rw [Nat.zero_add, scrapeASINDirectLoop_last svc fetch now asin (svc.retryAttempts - 1)
      (errors (svc.retryAttempts - 1)) (by omega) (hall _ (by omega))]
    rw [List.range_eq_range']
    have e : svc.retryAttempts - 1 + 1 = svc.retryAttempts := by omega
    rw [e]
  · intro s productData hs hfail hok
    unfold scrapeASINDirect
    rw [scrapeASINDirectLoop_failures svc fetch now asin s 0 (by omega)
      (fun k _ hk => hfail k (by omega))]
    rw [Nat.zero_add, scrapeASINDirectLoop_success svc fetch now asin s productData hs hok]
    rw [List.range_eq_range']

/-- Witness of C22: three attempts, all failing, the last with 'reset'. -/
theorem scrapeASINDirect_retries_witness :
    scrapeASINDirect { retryAttempts := 3 }
        (fun k => Except.error (if k = 2 then "reset" else "timeout")) "now" "B08N5WRWNW" =
      (Except.error "reset",
        [FetchEvent.requested 1, FetchEvent.slept 1000, FetchEvent.requested 2,
          FetchEvent.slept 2000, FetchEvent.requested 3]) := by
  have h := (scrapeASINDirect_retries { retryAttempts := 3 }
    (fun k => Except.error (if k = 2 then "reset" else "timeout")) "now" "B08N5WRWNW"
    (by decide)).1 (fun k => if k = 2 then "reset" else "timeout") (fun _ _ => rfl)
  rw [h]
  rfl

/-! ## Throttling and delivery -/

/-- C23: for every alert list of length n and every cap m >= 0, `sendPriceAlerts` behaves as
on the first min(n, m) alerts of the list, kept in their order (the whole list when n <= m):
the alerts it hands to the channel are the critical ones among these, in order, so at most
min(n, m) alerts; with 8 alerts and a cap of 5, at most 5 are delivered and they are among
the first 5 as produced, in the same order. -/
theorem sendPriceAlerts_truncates (svc : PriceDetectionService) (slack : Slack)
    (alerts : List Alert) (customerId : Nat)
    (hcap : 0 ≤ svc.alertThresholds.maxAlertsPerHour) :
    sendPriceAlerts svc slack alerts customerId =
        sendPriceAlerts svc slack
          (alerts.take (min alerts.length svc.alertThresholds.maxAlertsPerHour.toNat))
          customerId ∧
      (alerts.take (min alerts.length svc.alertThresholds.maxAlertsPerHour.toNat)).length =
        min alerts.length svc.alertThresholds.maxAlertsPerHour.toNat ∧
      ((alerts.length : ℤ) ≤ svc.alertThresholds.maxAlertsPerHour →
        alerts.take (min alerts.length svc.alertThresholds.maxAlertsPerHour.toNat) = alerts) ∧
      (sendPriceAlerts svc slack alerts customerId).2.filterMap DispatchEvent.alert? =
        (alerts.take (min alerts.length svc.alertThresholds.maxAlertsPerHour.toNat)).filter
          (fun a => decide (a.severity = Severity.critical)) ∧
      ((sendPriceAlerts svc slack alerts customerId).2.filterMap DispatchEvent.alert?).Sublist
        (alerts.take (min alerts.length svc.alertThresholds.maxAlertsPerHour.toNat)) ∧
      (sendPriceAlerts svc slack alerts customerId).2.length ≤
        min alerts.length svc.alertThresholds.maxAlertsPerHour.toNat ∧
      (svc.alertThresholds.maxAlertsPerHour = 5 → alerts.length = 8 →
        (sendPriceAlerts svc slack alerts customerId).2.length ≤ 5 ∧
        ((sendPriceAlerts svc slack alerts customerId).2.filterMap
          DispatchEvent.alert?).Sublist (alerts.take 5)) := by
  have htake : alerts.take (min alerts.length svc.alertThresholds.maxAlertsPerHour.toNat) =
      alerts.take svc.alertThresholds.maxAlertsPerHour.toNat := by
    rcases Nat.le_total alerts.length svc.alertThresholds.maxAlertsPerHour.toNat with h | h
    · rw [Nat.min_eq_left h, List.take_of_length_le h, List.take_of_length_le (le_refl _)]
    · rw [Nat.min_eq_right h]
  have hev := sendCriticalAlerts_events slack
    ((alerts.take svc.alertThresholds.maxAlertsPerHour.toNat).filter fun a =>
      decide (a.severity = Severity.critical)) 0
  have hlen : (alerts.take svc.alertThresholds.maxAlertsPerHour.toNat).length =
      min alerts.length svc.alertThresholds.maxAlertsPerHour.toNat := by
    rw [List.length_take, Nat.min_comm]
  have hfilter : ((alerts.take svc.alertThresholds.maxAlertsPerHour.toNat).filter fun a =>
      decide (a.severity = Severity.critical)).length ≤
      min alerts.length svc.alertThresholds.maxAlertsPerHour.toNat := by
    rw [← hlen]
    exact List.length_filter_le _ _
  rw [htake, sendPriceAlerts_eq svc slack alerts customerId hcap]
  refine ⟨?_, hlen, ?_, hev.2.1, ?_, ?_, ?_⟩
  · rw [sendPriceAlerts_eq svc slack _ customerId hcap, List.take_take, Nat.min_self]
  · intro h
    apply List.take_of_length_le
    omega
  · rw [hev.2.1]
    exact List.filter_sublist _
  · rw [hev.2.2.1]
    exact hfilter
  · intro h5 h8
    have h5n : svc.alertThresholds.maxAlertsPerHour.toNat = 5 := by rw [h5]; rfl
    constructor
    · show (sendCriticalAlerts slack 0 _).2.length ≤ 5
      rw [hev.2.2.1]
      refine le_trans hfilter ?_
      rw [h8, h5n]
      decide
    · show ((sendCriticalAlerts slack 0 _).2.filterMap DispatchEvent.alert?).Sublist _
      rw [hev.2.1, h5n]
      exact List.filter_sublist _

/-- C24: for every alert list and every cap that is not negative, the alerts that
`sendPriceAlerts` sends individually are exactly the critical alerts among the first `cap`
alerts, each sent once and in order, whatever the outcome of each call; every call is for a
critical alert, and the alerts after the first `cap`, critical or not, have no effect on
what is sent. -/
theorem sendPriceAlerts_critical_only (svc : PriceDetectionService) (slack : Slack)
    (alerts : List Alert) (customerId : Nat)
    (hcap : 0 ≤ svc.alertThresholds.maxAlertsPerHour) :
    (sendPriceAlerts svc slack alerts customerId).2.filterMap DispatchEvent.alert? =
        (alerts.take svc.alertThresholds.maxAlertsPerHour.toNat).filter
          (fun a => decide (a.severity = Severity.critical)) ∧
      (sendPriceAlerts svc slack alerts customerId).2.length =
        ((alerts.take svc.alertThresholds.maxAlertsPerHour.toNat).filter
          (fun a => decide (a.severity = Severity.critical))).length ∧
      (∀ e ∈ (sendPriceAlerts svc slack alerts customerId).2,
        ∃ a delivered, e = DispatchEvent.alertSent a delivered ∧
          a.severity = Severity.critical) ∧
      (∀ first later : List Alert,
        first.length = svc.alertThresholds.maxAlertsPerHour.toNat →
        sendPriceAlerts svc slack (first ++ later) customerId =
          sendPriceAlerts svc slack first customerId) := by
  have hev := sendCriticalAlerts_events slack
    ((alerts.take svc.alertThresholds.maxAlertsPerHour.toNat).filter fun a =>
      decide (a.severity = Severity.critical)) 0
  rw [sendPriceAlerts_eq svc slack alerts customerId hcap]
  refine ⟨hev.2.1, hev.2.2.1, ?_, ?_⟩
  · intro e he
    obtain ⟨k, hk, hget⟩ := List.getElem_of_mem he
    have hk2 : k < ((alerts.take svc.alertThresholds.maxAlertsPerHour.toNat).filter fun a =>
        decide (a.severity = Severity.critical)).length := by
      rw [← hev.2.2.1]; exact hk
    have hsome := hev.2.2.2 k _ (List.getElem?_eq_getElem hk2)
    rw [List.getElem?_eq_getElem hk, hget] at hsome
    refine ⟨_, _, Option.some.inj hsome, ?_⟩
    have hmem := List.getElem_mem hk2
    rw [List.mem_filter] at hmem
    simpa using hmem.2
  · intro first later hlen
    rw [sendPriceAlerts_eq svc slack _ customerId hcap,
      sendPriceAlerts_eq svc slack _ customerId hcap, ← hlen, List.take_left,
      List.take_of_length_le (le_refl _)]

/-- Witness of C23: eight critical alerts under the default cap of 5. -/
theorem sendPriceAlerts_truncates_witness :
    (sendPriceAlerts defaultService
        { sendAlert := fun _ _ => Except.ok (), sendTopThreats := fun _ _ => Except.ok () }
        (List.replicate 8
          { asin := "B08N5WRWNW", title := "Echo Dot", alertType := AlertType.price_drop,
            currentPrice := none, previousPrice := none, priceChange := none,
            priceChangePercent := none, couponAmount := none, availability := none,
            timestamp := "t", severity := Severity.critical }) 1).2.length ≤ 5 :=
  ((sendPriceAlerts_truncates defaultService
    { sendAlert := fun _ _ => Except.ok (), sendTopThreats := fun _ _ => Except.ok () }
    (List.replicate 8
      { asin := "B08N5WRWNW", title := "Echo Dot", alertType := AlertType.price_drop,
        currentPrice := none, previousPrice := none, priceChange := none,
        priceChangePercent := none, couponAmount := none, availability := none,
        timestamp := "t", severity := Severity.critical }) 1
    (by simp [defaultService_thresholds])).2.2.2.2.2.2
      (by simp [defaultService_thresholds]) (by simp)).1

/-- Witness of C24: five low alerts followed by a critical one under the default cap of 5;
nothing is sent. -/
theorem sendPriceAlerts_critical_only_witness :
    (sendPriceAlerts defaultService
        { sendAlert := fun _ _ => Except.ok (), sendTopThreats := fun _ _ => Except.ok () }
        (List.replicate 5
            { asin := "B08N5WRWNW", title := "Echo Dot", alertType := AlertType.back_in_stock,
              currentPrice := none, previousPrice := none, priceChange := none,
              priceChangePercent := none, couponAmount := none, availability := none,
              timestamp := "t", severity := Severity.low } ++
          [{ asin := "B07XJ8C8F5", title := "Fire TV Stick", alertType := AlertType.price_drop,
             currentPrice := none, previousPrice := none, priceChange := none,
             priceChangePercent := none, couponAmount := none, availability := none,
             timestamp := "t", severity := Severity.critical }]) 1).2.length = 0 := by
  have h := (sendPriceAlerts_critical_only defaultService
    { sendAlert := fun _ _ => Except.ok (), sendTopThreats := fun _ _ => Except.ok () }
    (List.replicate 5
        { asin := "B08N5WRWNW", title := "Echo Dot", alertType := AlertType.back_in_stock,
          currentPrice := none, previousPrice := none, priceChange := none,
          priceChangePercent := none, couponAmount := none, availability := none,
          timestamp := "t", severity := Severity.low } ++
      [{ asin := "B07XJ8C8F5", title := "Fire TV Stick", alertType := AlertType.price_drop,
         currentPrice := none, previousPrice := none, priceChange := none,
         priceChangePercent := none, couponAmount := none, availability := none,
         timestamp := "t", severity := Severity.critical }]) 1
    (by simp [defaultService_thresholds])).2.1
  rw [h]
  simp [defaultService_thresholds, List.replicate]

/-! ## The cycle -/

/-- C25: for every cycle whose item query returns, `analyzeRecentPriceChanges` returns a
summary whose alertsGenerated is the total number of alerts produced by all items (no cap
applied), whose threatsIdentified is the number of non-null assessments, and whose
topThreats are the first min(5, n) assessments of the list of the n assessments sorted by
decreasing dropProbability: every assessment in topThreats has a probability at least that of
every assessment left out. -/
theorem analyzeRecentPriceChanges_summary (svc : PriceDetectionService) (slack : Slack)
    (an : Analytics) (items : List ASINRecord)
    (findByASIN : Nat → ASINRecord → Except String (List Observation)) (now : String)
    (customerId : Nat) :
    ∃ (summary : CycleSummary) (sorted : List Threat),
      (analyzeRecentPriceChanges svc slack an (Except.ok items) findByASIN now
        customerId).1 = Except.ok summary ∧
      summary.success = true ∧
      summary.alertsGenerated =
        ((items.enumFrom 0).map fun p =>
          (alertsOf (analyzeASINPriceChanges svc an p.2 (findByASIN p.1 p.2) now)).length).sum ∧
      summary.threatsIdentified =
        ((items.enumFrom 0).filterMap fun p =>
          threatOf (analyzeASINPriceChanges svc an p.2 (findByASIN p.1 p.2) now)).length ∧
      sorted.Perm ((items.enumFrom 0).filterMap fun p =>
        threatOf (analyzeASINPriceChanges svc an p.2 (findByASIN p.1 p.2) now)) ∧
      sorted.Sorted (fun a b => a.dropProbability ≥ b.dropProbability) ∧
      summary.topThreats = sorted.take 5 ∧
      summary.topThreats.length = min 5 summary.threatsIdentified ∧
      (∀ t ∈ summary.topThreats, ∀ u ∈ sorted.drop 5,
        t.dropProbability ≥ u.dropProbability) := by
  obtain ⟨hres, -⟩ := analyzeRecentPriceChanges_ok svc slack an items findByASIN now customerId
  obtain ⟨c1, c2⟩ := collectAnalyses_eq svc findByASIN now an items 0 an [] [] rfl rfl rfl
  rw [List.nil_append] at c1 c2
  obtain ⟨sperm, ssorted, slen⟩ :=
    sortThreats_spec (collectAnalyses svc findByASIN now 0 an items [] []).2.1
  refine ⟨_, sortThreats (collectAnalyses svc findByASIN now 0 an items [] []).2.1, hres, rfl,
    ?_, ?_, ?_, ssorted, rfl, ?_, ?_⟩
  · simp only [c1, List.length_flatMap]
    rfl
  · show (sortThreats _).length = _
    rw [slen, c2]
  · rw [← c2]
    exact sperm
  · simp only [List.length_take]
  · intro t ht u hu
    exact ssorted.rel_of_mem_take_of_mem_drop ht hu

/-- C26: for every item list, whichever of the analyses of its items throw,
`analyzeRecentPriceChanges` returns a summary, and the alerts and the assessments that its
loop collects are exactly those of the items whose analysis did not throw, in item order; an
item whose analysis throws contributes no alert and no assessment. -/
theorem analyzeRecentPriceChanges_skips_failures (svc : PriceDetectionService)
    (slack : Slack) (an : Analytics) (items : List ASINRecord)
    (findByASIN : Nat → ASINRecord → Except String (List Observation)) (now : String)
    (customerId : Nat) :
    (∃ summary : CycleSummary,
      (analyzeRecentPriceChanges svc slack an (Except.ok items) findByASIN now
        customerId).1 = Except.ok summary ∧
      summary.alertsGenerated =
        (collectAnalyses svc findByASIN now 0 an items [] []).1.length ∧
      summary.threatsIdentified =
        (collectAnalyses svc findByASIN now 0 an items [] []).2.1.length) ∧
    (collectAnalyses svc findByASIN now 0 an items [] []).1 =
      ((items.enumFrom 0).filter fun p =>
        didNotThrow (analyzeASINPriceChanges svc an p.2 (findByASIN p.1 p.2) now)).flatMap
        (fun p => alertsOf (analyzeASINPriceChanges svc an p.2 (findByASIN p.1 p.2) now)) ∧
    (collectAnalyses svc findByASIN now 0 an items [] []).2.1 =
      ((items.enumFrom 0).filter fun p =>
        didNotThrow (analyzeASINPriceChanges svc an p.2 (findByASIN p.1 p.2) now)).filterMap
        (fun p => threatOf (analyzeASINPriceChanges svc an p.2 (findByASIN p.1 p.2) now)) ∧
    (∀ (place : Nat) (asin : ASINRecord) (e : String),
      findByASIN place asin = Except.error e →
      analyzeASINPriceChanges svc an asin (findByASIN place asin) now = Except.error e ∧
      didNotThrow (analyzeASINPriceChanges svc an asin (findByASIN place asin) now) =
        false) := by
  obtain ⟨hres, -⟩ := analyzeRecentPriceChanges_ok svc slack an items findByASIN now customerId
  obtain ⟨c1, c2⟩ := collectAnalyses_eq svc findByASIN now an items 0 an [] [] rfl rfl rfl
  rw [List.nil_append] at c1 c2
  refine ⟨⟨_, hres, rfl, ?_⟩, ?_, ?_, ?_⟩
  · exact (sortThreats_spec _).2.2
  · rw [c1]
    exact (flatMap_filter_of_nil _ _ _ (fun x _ hx => (nothing_of_thrown _ hx).1)).symm
  · rw [c2]
    exact (filterMap_filter_of_none _ _ _ (fun x _ hx => (nothing_of_thrown _ hx).2)).symm
  · intro place asin e he
    rw [he]
    exact ⟨rfl, rfl⟩

/-- C27: for every outcome of the notification channel, `sendPriceAlerts` and
`sendTopThreats` return without an exception; `sendPriceAlerts` calls `sendAlert` exactly
once for each critical alert it kept, in order, whether the call and the calls before it
failed or not, and `sendTopThreats` calls the channel once; the summary returned by
`analyzeRecentPriceChanges`, and the store it leaves, are the same for any two channels, in
particular for the given one and one on which every delivery succeeds. -/
theorem delivery_failures_are_recovered (svc : PriceDetectionService) (slack slack2 : Slack)
    (an : Analytics) (findByCustomer : Except String (List ASINRecord))
    (findByASIN : Nat → ASINRecord → Except String (List Observation)) (now : String)
    (customerId : Nat) (alerts : List Alert) (threats : List Threat) :
    (sendPriceAlerts svc slack alerts customerId).1 = Except.ok () ∧
      (sendTopThreats slack threats customerId).1 = Except.ok () ∧
      (sendPriceAlerts svc slack alerts customerId).2.length =
        ((if (alerts.length : ℤ) > svc.alertThresholds.maxAlertsPerHour then
            sliceTo alerts svc.alertThresholds.maxAlertsPerHour
          else alerts).filter fun a => decide (a.severity = Severity.critical)).length ∧
      (∀ (k : Nat) (a : Alert),
        ((if (alerts.length : ℤ) > svc.alertThresholds.maxAlertsPerHour then
            sliceTo alerts svc.alertThresholds.maxAlertsPerHour
          else alerts).filter fun a => decide (a.severity = Severity.critical))[k]? = some a →
        (sendPriceAlerts svc slack alerts customerId).2[k]? =
          some (DispatchEvent.alertSent a (returned (slack.sendAlert k a)))) ∧
      (sendTopThreats slack threats customerId).2 =
        [DispatchEvent.digestSent threats "MVP Customer"
          (returned (slack.sendTopThreats threats "MVP Customer"))] ∧
      (analyzeRecentPriceChanges svc slack an findByCustomer findByASIN now customerId).1 =
        (analyzeRecentPriceChanges svc slack2 an findByCustomer findByASIN now customerId).1 ∧
      (analyzeRecentPriceChanges svc slack an findByCustomer findByASIN now customerId).2.1 =
        (analyzeRecentPriceChanges svc slack2 an findByCustomer findByASIN now
          customerId).2.1 := by
  have hev := sendCriticalAlerts_events slack
    ((if (alerts.length : ℤ) > svc.alertThresholds.maxAlertsPerHour then
        sliceTo alerts svc.alertThresholds.maxAlertsPerHour
      else alerts).filter fun a => decide (a.severity = Severity.critical)) 0
  refine ⟨sendPriceAlerts_ok svc slack alerts customerId,
    sendTopThreats_ok slack threats customerId, ?_, ?_, rfl, ?_, ?_⟩
  · rw [sendPriceAlerts_eq_any]
    exact hev.2.2.1
  · intro k a hk
    rw [sendPriceAlerts_eq_any]
    have := hev.2.2.2 k a hk
    rw [Nat.zero_add] at this
    exact this
  · cases findByCustomer with
    | error e => rfl
    | ok items =>
      rw [(analyzeRecentPriceChanges_ok svc slack an items findByASIN now customerId).1,
        (analyzeRecentPriceChanges_ok svc slack2 an items findByASIN now customerId).1]
  · cases findByCustomer with
    | error e => rfl
    | ok items =>
      rw [(analyzeRecentPriceChanges_ok svc slack an items findByASIN now customerId).2,
        (analyzeRecentPriceChanges_ok svc slack2 an items findByASIN now customerId).2]

/-! ## Severity of a fired price drop -/

/-- C29: for every configuration whose drop threshold is at least 10 and every outcome of
the history query, a `price_drop` alert in the list returned by the detector never has
severity low: its severity is medium, high or critical. -/
theorem price_drop_never_low (svc : PriceDetectionService) (an : Analytics)
    (asinRecord : ASINRecord) (findByASIN : Except String (List Observation)) (now : String)
    (hthreshold : 10 ≤ svc.alertThresholds.priceDropPercent) :
    ∀ a ∈ alertsOf (analyzeASINPriceChanges svc an asinRecord findByASIN now),
      a.alertType = AlertType.price_drop →
      a.severity ≠ Severity.low ∧
        (a.severity = Severity.medium ∨ a.severity = Severity.high ∨
          a.severity = Severity.critical) := by
  intro a ha hty
  cases findByASIN with
  | error e => simp [analyzeASINPriceChanges, alertsOf] at ha
  | ok l =>
    match l with
    | [] => simp [analyzeASINPriceChanges, alertsOf] at ha
    | [_] => simp [analyzeASINPriceChanges, alertsOf] at ha
    | latest :: previous :: rest =>
      rw [mem_alertsOf_analyze] at ha
      rcases ha with ⟨hdrop, rfl⟩ | ⟨_, rfl⟩ | ⟨_, rfl⟩
      · have hpct : (calculatePriceChange latest previous).percent ≤ -10 := by
          unfold isSignificantPriceDrop at hdrop
          split_ifs at hdrop with hv
          simp only [Bool.and_eq_true, decide_eq_true_eq] at hdrop
          have := hdrop.1
          linarith
        have habs : |(calculatePriceChange latest previous).percent| ≥ 10 := by
          rw [abs_of_nonpos (by linarith)]
          linarith
        have hsev : (createPriceDropAlert asinRecord latest previous
            (calculatePriceChange latest previous) now).severity =
            calculateAlertSeverity (calculatePriceChange latest previous).percent := rfl
        rw [hsev]
        unfold calculateAlertSeverity
        simp only []
        split_ifs with c1 c2
        · exact ⟨(by intro h; cases h), Or.inr (Or.inr rfl)⟩
        · exact ⟨(by intro h; cases h), Or.inr (Or.inl rfl)⟩
        · exact ⟨(by intro h; cases h), Or.inl rfl⟩
      · simp [createCouponAlert] at hty
      · simp [createStockAlert] at hty

/-- Witness of C29: with the default configuration (threshold 10) a drop from 100 to 80
produces a price_drop alert, and its severity is not low. -/
theorem price_drop_never_low_witness :
    10 ≤ defaultService.alertThresholds.priceDropPercent ∧
      createPriceDropAlert
          { id := 1, customer_id := 1, asin := "B08N5WRWNW", title := "Echo Dot" }
          { price := some 80 } { price := some 100 }
          (calculatePriceChange { price := some 80 } { price := some 100 }) "t" ∈
        alertsOf (analyzeASINPriceChanges defaultService
          { initialized := false, generateMLFeatures := fun _ => Except.ok none,
            insertError := none, predictions := [] }
          { id := 1, customer_id := 1, asin := "B08N5WRWNW", title := "Echo Dot" }
          (Except.ok [{ price := some 80 }, { price := some 100 }]) "t") ∧
      (createPriceDropAlert
          { id := 1, customer_id := 1, asin := "B08N5WRWNW", title := "Echo Dot" }
          { price := some 80 } { price := some 100 }
          (calculatePriceChange { price := some 80 } { price := some 100 }) "t").severity ≠
        Severity.low := by
  have hth : 10 ≤ defaultService.alertThresholds.priceDropPercent := by
    simp [defaultService_thresholds]
  have hmem : createPriceDropAlert
      { id := 1, customer_id := 1, asin := "B08N5WRWNW", title := "Echo Dot" }
      { price := some 80 } { price := some 100 }
      (calculatePriceChange { price := some 80 } { price := some 100 }) "t" ∈
      alertsOf (analyzeASINPriceChanges defaultService
        { initialized := false, generateMLFeatures := fun _ => Except.ok none,
          insertError := none, predictions := [] }
        { id := 1, customer_id := 1, asin := "B08N5WRWNW", title := "Echo Dot" }
        (Except.ok [{ price := some 80 }, { price := some 100 }]) "t") := by
    rw [mem_alertsOf_analyze]
    left
    refine ⟨?_, rfl⟩
    rw [isSignificantPriceDrop_default_iff]
    norm_num [parseFloatOr, abs_of_neg]
  exact ⟨hth, hmem, (price_drop_never_low defaultService
    { initialized := false, generateMLFeatures := fun _ => Except.ok none,
      insertError := none, predictions := [] }
    { id := 1, customer_id := 1, asin := "B08N5WRWNW", title := "Echo Dot" }
    (Except.ok [{ price := some 80 }, { price := some 100 }]) "t" hth _ hmem rfl).1⟩

/-! ## Detector and extractor -/

/-- C30 (counterexample): for the pair latest price 10, previous price 0 (both numeric) the
detector computes the delta 0 while the feature extractor computes the price_delta 10. -/
theorem detector_extractor_differ_at_zero :
    (calculatePriceChange { price := some 10 } { price := some 0 }).amount = 0 ∧
      (buildPriceFeatures exactRuntime { price := some 10 } { price := some 0 }
        [{ price := some 10 }, { price := some 0 }]).price_delta = 10 ∧
      (calculatePriceChange { price := some 10 } { price := some 0 }).amount ≠
        (buildPriceFeatures exactRuntime { price := some 10 } { price := some 0 }
          [{ price := some 10 }, { price := some 0 }]).price_delta := by
  have h1 : (calculatePriceChange { price := some 10 } { price := some 0 }).amount = 0 := by
    simp [calculatePriceChange, parseFloatOr]
  have h2 : (buildPriceFeatures exactRuntime { price := some 10 } { price := some 0 }
      [{ price := some 10 }, { price := some 0 }]).price_delta = 10 := by
    norm_num [buildPriceFeatures, parseFloatOr]
  refine ⟨h1, h2, ?_⟩
  rw [h1, h2]
  norm_num

/-- C30 (amended): for every observation pair whose previous price is positive, the delta
and the delta percent computed by the detector (`calculatePriceChange`) equal the price_delta
and the price_delta_percent of the snapshot that the feature extractor
(`extractPriceFeatures`) builds for the same pair; when the previous price is zero, both
percents are 0, the delta of the detector is 0 and the price_delta of the extractor is the
current price. -/
theorem detector_extractor_agree (rt : Runtime) (an : Analytics)
    (latest previous : Observation) (rest : List Observation) :
    (extractPriceFeatures rt an (some (latest :: previous :: rest))).2.upsertsIssued =
        an.upsertsIssued ++ [buildPriceFeatures rt latest previous (latest :: previous :: rest)] ∧
      (∀ v, previous.price = some v → 0 < v →
        (calculatePriceChange latest previous).amount =
          (buildPriceFeatures rt latest previous (latest :: previous :: rest)).price_delta ∧
        (calculatePriceChange latest previous).percent =
          (buildPriceFeatures rt latest previous
            (latest :: previous :: rest)).price_delta_percent) ∧
      (previous.price = some 0 →
        (calculatePriceChange latest previous).amount = 0 ∧
        (calculatePriceChange latest previous).percent = 0 ∧
        (buildPriceFeatures rt latest previous
          (latest :: previous :: rest)).price_delta_percent = 0 ∧
        (buildPriceFeatures rt latest previous (latest :: previous :: rest)).price_delta =
          parseFloatOr latest.price 0) := by
  refine ⟨?_, ?_, ?_⟩
  · rw [extractPriceFeatures_cons]
    cases hi : an.initialized with
    | false => simp
    | true =>
      cases he : an.upsertError with
      | none => simp
      | some e => simp
  · intro v hv hpos
    have hprev : parseFloatOr previous.price 0 = v := by
      simp [parseFloatOr, hv, hpos.ne']
    have hprev2 : parseFloatOr (some v) 0 = v := by rw [← hv]; exact hprev
    constructor
    · simp [calculatePriceChange, buildPriceFeatures, hprev, hpos.ne']
    · simp [calculatePriceChange, buildPriceFeatures, hv, hprev2, hpos, hpos.ne']
  · intro hv
    have hprev : parseFloatOr previous.price 0 = 0 := by simp [parseFloatOr, hv]
    refine ⟨?_, ?_, ?_, ?_⟩
    · simp [calculatePriceChange, hprev]
    · simp [calculatePriceChange, hprev]
    · simp [buildPriceFeatures, hv]
    · simp [buildPriceFeatures, hprev]

end PrimePulse
